import Mathlib

/-!
# UDA data blocks, netCDF coordinate reading and header-file structure parsing

A shallow embedding of three pieces of the UDA/IDAM sources:

* `source/clientserver/freeDataBlock.c` : `freeDataBlock`
* `source/plugins/netcdf4/readCDF4.cpp` : the parts of `readCDF` and
  `readCDFGlobalMeta` that write `order`, `rank` and the `DIMS` entries
* `source/structures/parseIncludeFile.c` : the per-field layout computation and
  the registration of a structure

Heap pointers are addresses (`Nat`), `NULL` is `none`.  Calls to `free` and to the
external ledger functions are recorded in the order in which the C code issues them.
-/

namespace UDA

/-! ## Data model -/

/-- Heap address.  A C pointer is an `Option Ptr`, `NULL` being `none`. -/
abbrev Ptr := Nat

/-- `TYPE_UNKNOWN` of the client/server header. -/
def TYPE_UNKNOWN : Int := 0

/-- `OPAQUE_TYPE_UNKNOWN` of the client/server header. -/
def OPAQUE_TYPE_UNKNOWN : Int := 0

/-- `OPAQUE_TYPE_XML_DOCUMENT` of the client/server header. -/
def OPAQUE_TYPE_XML_DOCUMENT : Int := 1

/-- `OPAQUE_TYPE_STRUCTURES` of the client/server header. -/
def OPAQUE_TYPE_STRUCTURES : Int := 2

/-- `OPAQUE_TYPE_XDRFILE` of the client/server header. -/
def OPAQUE_TYPE_XDRFILE : Int := 3

/-- `OPAQUE_TYPE_XDROBJECT` of the client/server header. -/
def OPAQUE_TYPE_XDROBJECT : Int := 4

/-- An `int*` heap array together with its contents (32-bit words, kept as `Nat`). -/
structure IntArray where
  addr : Ptr
  vals : List Nat
  deriving DecidableEq, Repr

/-- The fields of `DIMS` that the embedded code reads or writes.  `dim`, `offs`, `ints`,
`errhi` and `errlo` are `char*` buffers (address only); `sams` is an `int*` array.
The text fields (`dim_units`, `dim_label`) are not part of the model. -/
structure DIMS where
  data_type : Int
  error_type : Int
  dim_n : Int
  compressed : Int
  dim0 : Rat
  diff : Rat
  method : Int
  udoms : Nat
  sams : Option IntArray
  offs : Option Ptr
  ints : Option Ptr
  dim : Option Ptr
  errhi : Option Ptr
  errlo : Option Ptr
  deriving DecidableEq, Repr

/-- A heap array of `DIMS` (the target of `data_block->dims`). -/
structure DimArray where
  addr : Ptr
  elems : List DIMS
  deriving DecidableEq, Repr

/-- The fields of `DATA_BLOCK` that the embedded code reads or writes. -/
structure DATA_BLOCK where
  handle : Int
  errcode : Int
  rank : Nat
  order : Int
  data_type : Int
  error_type : Int
  data_n : Int
  error_param_n : Int
  opaque_type : Int
  opaque_count : Int
  opaque_block : Option Ptr
  data : Option Ptr
  errhi : Option Ptr
  errlo : Option Ptr
  dims : Option DimArray
  deriving DecidableEq, Repr

/-- One element of a registered structure (`COMPOUNDFIELD`). -/
structure COMPOUNDFIELD where
  name : List Char
  type : List Char
  desc : List Char
  pointer : Int
  size : Int
  offset : Int
  offpad : Int
  alignment : Int
  atomictype : Int
  rank : Int
  count : Int
  shape : Option (List Int)
  deriving DecidableEq, Repr

/-- A registered structure type (`USERDEFINEDTYPE`). -/
structure USERDEFINEDTYPE where
  name : List Char
  source : List Char
  idamclass : Int
  compoundfield : List COMPOUNDFIELD
  fieldcount : Int
  size : Int
  deriving DecidableEq, Repr

/-- The heap object behind the global `userdefinedtypelist`. -/
structure USERDEFINEDTYPELIST where
  addr : Ptr
  userdefinedtype : List USERDEFINEDTYPE
  deriving DecidableEq, Repr

/-- The two globals that `freeDataBlock` touches: the type registry and the
allocation ledger (`logmalloclist`, address only: its entries are walked by the
external `freeMallocLogList`). -/
structure Globals where
  userdefinedtypelist : Option USERDEFINEDTYPELIST
  logmalloclist : Option Ptr
  deriving DecidableEq, Repr

/-- A call that releases heap memory, as issued by `freeDataBlock`. -/
inductive HeapCall where
  | free (p : Ptr)
  | freeUserDefinedTypeList (p : Ptr)
  | freeMallocLogList (p : Ptr)
  deriving DecidableEq, Repr

/-! ## freeDataBlock.c -/

/-- The statement `if (p != NULL) free(p);`. -/
def freeIfSet (p : Option Ptr) : List HeapCall :=
  match p with
  | some a => [HeapCall.free a]
  | none => []

/-- Lines 79-89: release the type registry and the allocation ledger, when set. -/
def freeGeneralStructs (g : Globals) : List HeapCall :=
  (match g.userdefinedtypelist with
   | some l => [HeapCall.freeUserDefinedTypeList l.addr, HeapCall.free l.addr]
   | none => [])
  ++
  (match g.logmalloclist with
   | some l => [HeapCall.freeMallocLogList l, HeapCall.free l]
   | none => [])

/-- Outcome of the opaque-payload switch or of the whole of `freeDataBlock`. -/
structure FreeState where
  block : DATA_BLOCK
  globals : Globals
  calls : List HeapCall
  deriving DecidableEq, Repr

/-- Lines 67-132: the `switch (data_block->opaque_type)`.  `GENERALSTRUCTS` is the
preprocessor symbol of that name. -/
def freeOpaque (GENERALSTRUCTS : Bool) (g : Globals) (b : DATA_BLOCK) : FreeState :=
  if b.opaque_type = OPAQUE_TYPE_XML_DOCUMENT then
    { block := { b with opaque_count := 0, opaque_block := none },
      globals := g,
      calls := freeIfSet b.opaque_block }
  else if b.opaque_type = OPAQUE_TYPE_STRUCTURES then
    if GENERALSTRUCTS then
      match b.opaque_block with
      | some _ =>
        { block := { b with opaque_count := 0, opaque_block := none,
                            data_type := TYPE_UNKNOWN,
                            opaque_type := OPAQUE_TYPE_UNKNOWN, data := none },
          globals := { userdefinedtypelist := none, logmalloclist := none },
          calls := freeGeneralStructs g }
      | none => { block := b, globals := g, calls := [] }
    else { block := b, globals := g, calls := [] }
  else if b.opaque_type = OPAQUE_TYPE_XDRFILE ∨ b.opaque_type = OPAQUE_TYPE_XDROBJECT then
    if GENERALSTRUCTS then
      { block := { b with opaque_count := 0, opaque_block := none,
                          data_type := TYPE_UNKNOWN,
                          opaque_type := OPAQUE_TYPE_UNKNOWN, data := none },
        globals := g,
        calls := freeIfSet b.opaque_block }
    else { block := b, globals := g, calls := [] }
  else { block := b, globals := g, calls := [] }

/-- Lines 156-176: the buffers of one dimension, in the order they are freed. -/
def freeDim (d : DIMS) : List HeapCall :=
  freeIfSet d.dim ++ freeIfSet d.errhi ++ freeIfSet d.errlo ++
  freeIfSet (d.sams.map IntArray.addr) ++ freeIfSet d.offs ++ freeIfSet d.ints

/-- Lines 150-190: `for (i = 0; i < rank; i++)` over `ddims[i]`, then `free(ddims)`.
The loop visits the first `rank` elements of the array; reading past the end of the
allocation is undefined in C and does not occur in the model. -/
def freeDims (rank : Nat) (dims : Option DimArray) : List HeapCall :=
  match dims with
  | some a => ((a.elems.take rank).map freeDim).flatten ++ [HeapCall.free a.addr]
  | none => []

/-- `freeDataBlock(data_block)` on a non-null block: lines 63-201. -/
def freeDataBlockAt (GENERALSTRUCTS : Bool) (g : Globals) (b : DATA_BLOCK) : FreeState :=
  let s := freeOpaque GENERALSTRUCTS g b
  let b1 := s.block
  { block := { b1 with data := none, errhi := none, errlo := none, dims := none,
                       handle := 0, errcode := 0, rank := 0, order := 0,
                       data_type := TYPE_UNKNOWN, error_type := TYPE_UNKNOWN,
                       data_n := 0, error_param_n := 0 },
    globals := s.globals,
    calls := s.calls ++ freeIfSet b1.data ++ freeIfSet b1.errhi ++ freeIfSet b1.errlo ++
             freeDims b1.rank b1.dims }

/-- The state of a call of `freeDataBlock`: the pointer argument (`none` is `NULL`)
with the block it points to, the globals, and the releasing calls made so far. -/
structure FreeRun where
  data_block : Option DATA_BLOCK
  globals : Globals
  calls : List HeapCall
  deriving DecidableEq, Repr

/-- `void freeDataBlock(DATA_BLOCK* data_block)`, lines 51-204. -/
def freeDataBlock (GENERALSTRUCTS : Bool) (g : Globals) (data_block : Option DATA_BLOCK) :
    FreeRun :=
  match data_block with
  | none => { data_block := none, globals := g, calls := [] }
  | some b =>
    let s := freeDataBlockAt GENERALSTRUCTS g b
    { data_block := some s.block, globals := s.globals, calls := s.calls }

/-- `void freeReducedDataBlock(DATA_BLOCK* data_block)`, lines 206-239.
`GENERALSTRUCTS` and `FATCLIENT` are the preprocessor symbols of those names: unless
both are defined the function returns at once. -/
def freeReducedDataBlock (GENERALSTRUCTS FATCLIENT : Bool) (g : Globals)
    (data_block : Option DATA_BLOCK) : FreeRun :=
  if GENERALSTRUCTS = false ∨ FATCLIENT = false then
    { data_block := data_block, globals := g, calls := [] }
  else
    match data_block with
    | none => { data_block := none, globals := g, calls := [] }
    | some b =>
      if b.opaque_type ≠ OPAQUE_TYPE_STRUCTURES then
        { data_block := some b, globals := g, calls := [] }
      else
        match b.opaque_block with
        | none => { data_block := some b, globals := g, calls := [] }
        | some _ =>
          { data_block := some { b with opaque_count := 0, opaque_block := none,
                                        data_type := TYPE_UNKNOWN,
                                        opaque_type := OPAQUE_TYPE_UNKNOWN, data := none },
            globals := { userdefinedtypelist := none, logmalloclist := none },
            calls := freeGeneralStructs g }

/-! ## parseIncludeFile.c

The model starts where a line of a structure body has been split into type text, element
name and description (lines 425-505, which rest on string helpers outside the sources
at hand).  C `int` values are integers of Lean: signed overflow is undefined in C and
outside the model.  Undefined behaviour that the code can reach on well-formed headers
(a negative length passed to `strncpy`, a remainder by zero) is a `ParseFault`. -/

/-- `TYPE_COMPOUND` of the client/server header. -/
def TYPE_COMPOUND : Int := 18

/-- The helpers of the structures library and of the string library that
`parseIncludeFile` calls and that are not part of the sources at hand, with the size
of a pointer on the platform. -/
structure LayoutEnv where
  getsizeof : List Char → Int
  getalignmentof : List Char → Int
  gettypeof : List Char → Int
  padding : Int → List Char → Int
  newoffset : Int → List Char → Int
  sizeofPointer : Int
  IsNumber : List Char → Bool
  atoi : List Char → Int
  LeftTrimString : List Char → List Char
  TrimString : List Char → List Char

/-- The tables that `parseIncludeFile` has filled from the lines before a structure:
enumerated type names, `typedef` synonyms with the actual type, `typedef struct`
synonyms with the structure name, their pointer flags (arrays of their own), and the
`#define` names with integer values. -/
structure AliasTables where
  typeEnum : List (List Char)
  typeDefs : List (List Char × List Char)
  typeDefPtr : Nat → Int
  typeStrs : List (List Char × List Char)
  typeStrPtr : Nat → Int
  defs : List (List Char × Int)

/-- `strchr(s, c)` as an index into `s`, and the string cut there (`p[0] = 0`). -/
def cutAt (s : List Char) (c : Char) : List Char :=
  s.takeWhile (fun x => x != c)

/-- Lines 213-238: a line `typedef <type> <synonym>;` other than a `typedef struct`
adds the synonym with its actual type and pointer flag to the table; a line without
a blank after the type adds nothing (an error is logged). -/
def parseTypedef (env : LayoutEnv) (T : AliasTables) (buffer : List Char) : AliasTables :=
  let name1 := env.TrimString (env.LeftTrimString (buffer.drop 7))
  if name1.contains ' ' then
    let actual := cutAt name1 ' '
    let name2 := cutAt (name1.drop (actual.length + 1)) ';'
    let isPtr := name2.contains '*'
    let name2s := if isPtr then cutAt name2 '*' ++ [' '] ++ name2.drop ((cutAt name2 '*').length + 1)
                  else name2
    let synonym := env.TrimString (env.LeftTrimString name2s)
    let typeDefCount := T.typeDefs.length
    { T with typeDefs := T.typeDefs ++ [(synonym, actual)],
             typeDefPtr := fun k => if k = typeDefCount then (if isPtr then 1 else 0)
                                    else T.typeDefPtr k }
  else T

/-- The loop `for (j = 0; j < n; j++) if (!strcmp(name[j], t)) { ...; break; }` from
index `j`: the index and the paired entry of the first name equal to `t`. -/
def firstMatch {α : Type} (t : List Char) : Nat → List (List Char × α) → Option (Nat × α)
  | _, [] => none
  | j, (n, v) :: rest => if n = t then some (j, v) else firstMatch t (j + 1) rest

/-- Lines 524-544 (and again 548-568): one round of substitution of the type name
`t` of a field, with its pointer flag: enumerated types, then type definitions
(never for `STRING`), then structure type definitions. -/
def substituteOnce (T : AliasTables) (s : List Char × Int) : List Char × Int :=
  let t1 := if T.typeEnum.contains s.1 then "unsigned int".toList else s.1
  let s2 : List Char × Int :=
    if t1 = "STRING".toList then (t1, s.2)
    else
      match firstMatch t1 0 T.typeDefs with
      | some (j, d) => (d, if T.typeDefPtr j ≠ 0 then 1 else s.2)
      | none => (t1, s.2)
  match firstMatch s2.1 0 T.typeStrs with
  | some (j, d) => (d, if T.typeStrPtr j ≠ 0 then 1 else s2.2)
  | none => s2

/-- Lines 522-568: the substitution is made, then repeated once for nested type
definitions. -/
def substituteAliases (T : AliasTables) (s : List Char × Int) : List Char × Int :=
  substituteOnce T (substituteOnce T s)

/-- `strchr(s + start, c)` as an index into `s`. -/
def strchrFrom (s : List Char) (c : Char) (start : Nat) : Option Nat :=
  match (s.drop start).indexOf? c with
  | some k => some (start + k)
  | none => none

/-- The ways in which the code leaves defined behaviour, and the exhaustion of the
fuel of a modelled loop. -/
inductive ParseFault where
  | negativeLength
  | divisionByZero
  | outOfFuel
  deriving DecidableEq, Repr

/-- The locals `rnk`, `shape[itemCount]` (its first `rnk` entries) and
`count[itemCount]` of the array loop. -/
structure ShapeState where
  rnk : Nat
  shape : List Int
  count : Int
  deriving DecidableEq, Repr

/-- Lines 590-611: the text between the brackets gives one array length, a number or
a `#define` name; an unknown name leaves the state as it is. -/
def shapeEntry (env : LayoutEnv) (T : AliasTables) (buffer : List Char) (st : ShapeState) :
    ShapeState :=
  if env.IsNumber buffer then
    { rnk := st.rnk + 1, shape := st.shape ++ [env.atoi buffer],
      count := st.count + env.atoi buffer }
  else
    match firstMatch buffer 0 T.defs with
    | some (_, v) => { rnk := st.rnk + 1, shape := st.shape ++ [v], count := st.count + v }
    | none => st

/-- Lines 589-612: the `do ... while` over the brackets of `item`, with `p` the index
of the current `[`.  `p2` is always the first `]` of `item` (line 590 searches from
the start of `item`); a `p2` before `p` makes the length passed to `strncpy`
negative. -/
def shapeLoop (env : LayoutEnv) (T : AliasTables) (item : List Char) :
    Nat → Nat → ShapeState → Except ParseFault ShapeState
  | 0, _, _ => Except.error ParseFault.outOfFuel
  | fuel + 1, p, st =>
    match strchrFrom item ']' 0 with
    | none => Except.ok st
    | some p2 =>
      if p2 < p + 1 then Except.error ParseFault.negativeLength
      else
        let buffer := (item.drop (p + 1)).take (p2 - p - 1)
        let st1 := shapeEntry env T buffer st
        match strchrFrom item '[' p2 with
        | none => Except.ok st1
        | some p1 => shapeLoop env T item fuel p1 st1

/-- The arrays `type`, `item`, `desc`, `pointer`, `offset`, `offpad`, `size`, `count`,
`rank` and `shape` at one index. -/
structure FieldRec where
  type : List Char
  item : List Char
  desc : List Char
  pointer : Int
  offset : Int
  offpad : Int
  size : Int
  count : Int
  rank : Int
  shape : List Int
  deriving DecidableEq, Repr

/-- A structure element as lines 457-505 leave it: the type text, the element name
(with any `*` and array brackets) and the description. -/
structure FieldDecl where
  type : List Char
  item : List Char
  desc : List Char
  deriving DecidableEq, Repr

/-- Lines 507-520: a `*` in front of the name or at the end of the type marks a
pointer and is removed.  Returns type, item and pointer flag. -/
def detectPointer (env : LayoutEnv) (d : FieldDecl) : List Char × List Char × Int :=
  if d.item.head? = some '*' then
    (d.type, env.LeftTrimString (' ' :: d.item.tail), 1)
  else if d.type.getLast? = some '*' then
    (env.TrimString (d.type.dropLast ++ [' ']), d.item, 1)
  else (d.type, d.item, 0)

/-- Lines 581-619: rank, shape and count of an element, and its name cut at the
first `[`. -/
def parseShape (env : LayoutEnv) (T : AliasTables) (pointer : Int) (item : List Char) :
    Except ParseFault (ShapeState × List Char) :=
  let st0 : ShapeState := { rnk := 0, shape := [], count := 0 }
  if pointer = 0 then
    match strchrFrom item '[' 0 with
    | some p =>
      match shapeLoop env T item (item.length + 2) p st0 with
      | Except.ok st => Except.ok (st, item.take p)
      | Except.error e => Except.error e
    | none => Except.ok (st0, item)
  else Except.ok (st0, item)

/-- Lines 507-645: one structure element.  `prev` is the element before it
(`itemCount - 1`), `none` for the first. -/
def parseField (env : LayoutEnv) (T : AliasTables) (prev : Option FieldRec) (d : FieldDecl) :
    Except ParseFault FieldRec :=
  let dp := detectPointer env d
  let s := substituteAliases T (dp.1, dp.2.2)
  let type := s.1
  let pointer := s.2
  match parseShape env T pointer dp.2.1 with
  | Except.error e => Except.error e
  | Except.ok (st, item) =>
    let count : Int := if st.count = 0 then 1 else st.count
    let size : Int :=
      if pointer ≠ 0 then env.sizeofPointer
      else if type = "STRING".toList then env.getsizeof "char".toList
      else env.getsizeof type
    let align : List Char := if pointer ≠ 0 then "*".toList else type
    match prev with
    | some q =>
      let space := q.size * q.count
      Except.ok { type := type, item := item, desc := d.desc, pointer := pointer,
                  offset := env.newoffset (q.offset + space) align,
                  offpad := env.padding (q.offset + space) align,
                  size := size, count := count, rank := st.rnk, shape := st.shape }
    | none =>
      Except.ok { type := type, item := item, desc := d.desc, pointer := pointer,
                  offset := 0, offpad := 0,
                  size := size, count := count, rank := st.rnk, shape := st.shape }

/-- The elements of one structure read in turn: `acc` holds the elements parsed so
far (`itemCount` of them), in order. -/
def parseFields (env : LayoutEnv) (T : AliasTables) :
    List FieldRec → List FieldDecl → Except ParseFault (List FieldRec)
  | acc, [] => Except.ok acc
  | acc, d :: ds =>
    match parseField env T acc.getLast? d with
    | Except.error e => Except.error e
    | Except.ok r => parseFields env T (acc ++ [r]) ds

/-- Lines 372-397: the registered form of one element. -/
def compoundField (env : LayoutEnv) (r : FieldRec) : COMPOUNDFIELD :=
  { name := r.item, type := r.type, desc := r.desc, pointer := r.pointer, size := r.size,
    offset := r.offset, offpad := r.offpad,
    alignment := if r.pointer ≠ 0 then env.getalignmentof "*".toList
                 else env.getalignmentof r.type,
    atomictype := env.gettypeof r.type, rank := r.rank, count := r.count,
    shape := if r.rank > 0 then some r.shape else none }

/-- Lines 369-399: `byteCount` after the loop over the elements. -/
def byteCountOf (fields : List FieldRec) : Int :=
  (fields.map (fun r => r.size * r.count + r.offpad)).sum

/-- The largest alignment among registered elements, 0 when there is none above 0. -/
def maxAlignment (cs : List COMPOUNDFIELD) : Int :=
  (cs.map COMPOUNDFIELD.alignment).foldl (fun m a => if a > m then a else m) 0

/-- Lines 370-386: `maxAlign` after the loop over the elements. -/
def maxAlignOf (env : LayoutEnv) (fields : List FieldRec) : Int :=
  maxAlignment (fields.map (compoundField env))

/-- Lines 353-418: the end of a structure definition.  With matching names and at
least one element the structure is appended to the registry; names that do not match
give error 999.  Returns the error and the registry.  The remainder of line 403 is
that of C; a `maxAlign` of 0 is a division by zero. -/
def endStructure (env : LayoutEnv) (header name name1 name2 : List Char)
    (fields : List FieldRec) (reg : USERDEFINEDTYPELIST) :
    Except ParseFault (Int × USERDEFINEDTYPELIST) :=
  if name = name1 ∧ name = name2 then
    if fields.length > 0 then
      let byteCount := byteCountOf fields
      let maxAlign := maxAlignOf env fields
      if maxAlign = 0 then Except.error ParseFault.divisionByZero
      else
        let size := byteCount + Int.tmod (maxAlign - Int.tmod byteCount maxAlign) maxAlign
        let udt : USERDEFINEDTYPE :=
          { name := name, source := header, idamclass := TYPE_COMPOUND,
            compoundfield := fields.map (compoundField env),
            fieldcount := fields.length, size := size }
        Except.ok (0, { reg with userdefinedtype := reg.userdefinedtype ++ [udt] })
    else Except.ok (0, reg)
  else Except.ok (999, reg)

/-- The elements of a structure parsed and the structure registered: lines 425-645
for each element, then lines 353-418.  `name`, `name1` and `name2` are the names that
lines 285-351 take from the first and the last line of the definition. -/
def parseStructure (env : LayoutEnv) (T : AliasTables) (header name name1 name2 : List Char)
    (decls : List FieldDecl) (reg : USERDEFINEDTYPELIST) :
    Except ParseFault (Int × USERDEFINEDTYPELIST) :=
  match parseFields env T [] decls with
  | Except.error e => Except.error e
  | Except.ok fields => endStructure env header name name1 name2 fields reg

/-- The relation between the offsets of two successive elements of a structure. -/
def offsetRule (q r : FieldRec) : Prop :=
  r.offset = q.offset + q.size * q.count + r.offpad

/-! ## readCDF4.cpp

The netCDF library and the plugin helpers outside the sources at hand are inputs: each
structure ending in `File` records, for one call site after another, what the call
returns and what it leaves in its output arguments.  `unsigned int` values are natural
numbers reduced modulo 2^32 where the code computes with them. -/

/-- `UDA_TYPE_INT` of the types header. -/
def UDA_TYPE_INT : Int := 3

/-- `UDA_TYPE_UNSIGNED_INT` of the types header. -/
def UDA_TYPE_UNSIGNED_INT : Int := 4

/-- `UDA_TYPE_DOUBLE` of the types header. -/
def UDA_TYPE_DOUBLE : Int := 7

/-- `UDA_TYPE_STRING` of the types header. -/
def UDA_TYPE_STRING : Int := 17

/-- `UDA_TYPE_COMPOUND` of the types header. -/
def UDA_TYPE_COMPOUND : Int := 18

/-- `RAW_DATA` data class of the netCDF plugin header. -/
def RAW_DATA : Int := 1

/-- The value of an `unsigned int` word read as an `int`. -/
def toInt32 (n : Nat) : Int :=
  if n % 2 ^ 32 < 2 ^ 31 then ((n % 2 ^ 32 : Nat) : Int) else ((n % 2 ^ 32 : Nat) : Int) - 2 ^ 32

/-- The value of an `int` stored into an `unsigned int`. -/
def toUInt32 (z : Int) : Nat := (z % 2 ^ 32).toNat

/-- Modelled from the spec: `initDimBlock` is not part of the sources at hand; a
dimension starts with zero length and no buffers, uncompressed. -/
def initDimBlock : DIMS :=
  { data_type := TYPE_UNKNOWN, error_type := TYPE_UNKNOWN, dim_n := 0, compressed := 0,
    dim0 := 0, diff := 0, method := 0, udoms := 0, sams := none, offs := none, ints := none,
    dim := none, errhi := none, errlo := none }

/-- The error codes of the netCDF plugin that `readCDF` assigns by name, and the limit
`NC_MAX_VAR_DIMS` of the header `netcdf.h`. -/
structure NcErrors where
  NETCDF_ERROR_INQUIRING_DIM_1 : Int
  NETCDF_ERROR_INQUIRING_DIM_2 : Int
  NETCDF_ERROR_INQUIRING_DIM_3 : Int
  NETCDF_ERROR_ALLOCATING_HEAP_1 : Int
  NETCDF_ERROR_INQUIRING_VARIABLE_1 : Int
  NC_MAX_VAR_DIMS : Int

/-- The global `cdfsubset`: its arrays are indexed by dimension. -/
structure CDFSUBSET where
  subsetCount : Int
  subset : Nat → Int
  start : Nat → Int
  stop : Nat → Int
  count : Nat → Int
  stride : Nat → Int

/-- A domain attribute (`count`, `start` or `increment`) of a coordinate variable as
the netCDF calls report it: the return code of `nc_inq_atttype`, whether the type is
the compliant one, and what `readCDF4AVar` returns (error, length, array address). -/
structure DomainAtt where
  atttype_rc : Int
  compliantType : Bool
  read_err : Int
  n : Int
  addr : Option Ptr
  deriving DecidableEq, Repr

/-- What the netCDF library and the plugin helpers report for the coordinate of data
dimension `i` during one pass of the loop at lines 1208-1584. -/
structure CoordFile where
  /-- return code of `nc_inq_dim` (line 1229) -/
  inq_dim_rc : Int
  /-- value of `rc` after the search for the coordinate variable (lines 1240-1245) -/
  coord_rc : Int
  /-- return code and rank out of `nc_inq_varndims` (line 1286) -/
  inq_varndims_rc : Int
  drank : Int
  /-- address returned by `malloc` for the index array (line 1257) -/
  index_alloc : Option Ptr
  /-- outcome of `readCDF4Var` on the coordinate variable (line 1308) -/
  var_err : Int
  var_dim_n : Int
  var_data_type : Int
  var_isIndex : Int
  var_dim : Option Ptr
  /-- outcome of `readCDFCheckCoordinate` and of the `realloc` (lines 1321-1329) -/
  check_err : Int
  realloc_dim : Option Ptr
  /-- outcome of `applyCDFCalibration` on the coordinate array (line 1340) -/
  calib_rc : Int
  calib_data_type : Int
  calib_dim : Option Ptr
  /-- the attributes `count`, `start`, `increment`; `none` when `nc_inq_attid` fails -/
  count : Option DomainAtt
  count_vals : List Nat
  start : Option DomainAtt
  increment : Option DomainAtt
  /-- outcomes of the two `applyCDFCalibration` calls on the domain arrays -/
  calib_offs_rc : Int
  calib_offs_type : Int
  calib_offs : Option Ptr
  calib_ints_rc : Int
  calib_ints_type : Int
  calib_ints : Option Ptr
  /-- outcome of `readCDF4Atts` (line 1504): error, label, class text -/
  atts_err : Int
  dim_label : List Char
  classtxt : List Char
  /-- outcome of `readCDF4Err` (line 1564) -/
  err_err : Int
  error_n : Int
  error_type : Int
  errhi : Option Ptr

/-- Lines 1459-1467: the scan `for (j = 0; j < ncount; j++)` from index `j` with the
running `counter`, over the counts not yet visited.  Returns the index at which the
running total first exceeds `extent` together with the reduced count stored there;
`none` when the loop runs to its end.  `counter` and the counts are `unsigned int`. -/
def truncateScan (extent : Nat) : Nat → Nat → List Nat → Option (Nat × Nat)
  | _, _, [] => none
  | j, counter, c :: rest =>
    let counter1 := (counter + c) % 2 ^ 32
    if counter1 > extent then
      some (j, (extent + 2 ^ 32 - (counter1 + 2 ^ 32 - c) % 2 ^ 32) % 2 ^ 32)
    else truncateScan extent (j + 1) counter1 rest

/-- Lines 1456-1468 for an unlimited dimension: `dim_n` becomes the extent read and the
domain list is cut at the domain in which the running total exceeds the extent. -/
def truncateDomains (d : DIMS) (extent : Nat) (ncount : Int) (addr : Option Ptr)
    (count : List Nat) : DIMS :=
  match truncateScan extent 0 0 (count.take ncount.toNat) with
  | some (j, c) =>
    { d with dim_n := toInt32 extent, udoms := j,
             sams := addr.map (fun a => { addr := a, vals := count.set j c }) }
  | none => { d with dim_n := toInt32 extent }

/-- Outcome of a stage of the loop body for one dimension: the entry, the value of
`err`, and whether the stage left the loop with `break`. -/
structure DimOutcome where
  dim : DIMS
  err : Int
  broke : Bool
  deriving DecidableEq, Repr

/-- Lines 1441-1493: the three domain arrays have been read.  A subset of this
dimension rewrites `count[0]`; arrays of equal length become the domain list, which
is cut for an unlimited dimension and calibrated for raw data. -/
def packDomains (cls : Int) (sub : CDFSUBSET) (ii : Nat) (isUnlimited : Bool) (extent_i : Nat)
    (f : CoordFile) (c st inc : DomainAtt) (d : DIMS) : DimOutcome :=
  let count1 := if sub.subsetCount > 0 ∧ sub.subset ii ≠ 0
                then f.count_vals.set 0 (toUInt32 (sub.count ii)) else f.count_vals
  if c.n = st.n ∧ st.n = inc.n then
    let d1 := { d with compressed := 1, method := 1, data_type := UDA_TYPE_DOUBLE,
                       offs := st.addr, ints := inc.addr, udoms := toUInt32 c.n,
                       sams := c.addr.map (fun a => { addr := a, vals := count1 }) }
    let d2 := if isUnlimited then truncateDomains d1 extent_i c.n c.addr count1 else d1
    if cls = RAW_DATA then
      let d3 := { d2 with data_type := f.calib_offs_type, offs := f.calib_offs }
      if f.calib_offs_rc ≠ 0 then { dim := d3, err := 999, broke := true }
      else
        let d4 := { d3 with data_type := f.calib_ints_type, ints := f.calib_ints }
        if f.calib_ints_rc ≠ 0 then { dim := d4, err := 999, broke := true }
        else { dim := d4, err := 0, broke := false }
    else { dim := d2, err := 0, broke := false }
  else { dim := d, err := 0, broke := false }

/-- Lines 1352-1497 (compliant files): read the `count`, `start` and `increment`
attributes of the coordinate variable, each only when the one before is present. -/
def readDomains (cls : Int) (sub : CDFSUBSET) (ii : Nat) (isUnlimited : Bool) (extent_i : Nat)
    (f : CoordFile) (err : Int) (d : DIMS) : DimOutcome :=
  match f.count with
  | none => { dim := d, err := err, broke := false }
  | some c =>
    if c.atttype_rc ≠ 0 ∨ c.compliantType = false then { dim := d, err := 999, broke := true }
    else if c.read_err ≠ 0 then { dim := d, err := c.read_err, broke := true }
    else if sub.subsetCount > 0 ∧ sub.subset ii ≠ 0 ∧ c.n > 1 then
      { dim := d, err := 999, broke := true }
    else
      match f.start with
      | none => { dim := d, err := 0, broke := false }
      | some st =>
        if st.atttype_rc ≠ 0 ∨ st.compliantType = false then
          { dim := d, err := 999, broke := true }
        else if st.read_err ≠ 0 then { dim := d, err := st.read_err, broke := true }
        else
          match f.increment with
          | none => { dim := d, err := 0, broke := false }
          | some inc =>
            if inc.atttype_rc ≠ 0 ∨ inc.compliantType = false then
              { dim := d, err := 999, broke := true }
            else if inc.read_err ≠ 0 then { dim := d, err := inc.read_err, broke := true }
            else packDomains cls sub ii isUnlimited extent_i f c st inc d

/-- The macro `STR_IEQUALS`: equality of two strings ignoring case. -/
def STR_IEQUALS (a b : List Char) : Bool :=
  a.map Char.toLower = b.map Char.toLower

/-- Lines 1527-1533: is this the time dimension?  `STR_EQUALS` is exact equality. -/
def timeOrder (compliance : Bool) (f : CoordFile) (ii : Nat) (order : Int) : Int :=
  if compliance then
    if f.classtxt = "time".toList then (ii : Int) else order
  else
    if STR_IEQUALS f.dim_label "time".toList ∨ STR_IEQUALS f.dim_label "time3".toList then
      (ii : Int)
    else order

/-- Lines 1561-1579 (compliant files): the coordinate error array. -/
def readCoordError (f : CoordFile) (d : DIMS) : DimOutcome :=
  let d1 := { d with error_type := f.error_type, errhi := f.errhi }
  if f.err_err ≠ 0 then { dim := d1, err := f.err_err, broke := true }
  else if f.error_n > 0 ∧ f.error_n ≠ d1.dim_n then { dim := d1, err := 999, broke := true }
  else { dim := d1, err := 0, broke := false }

/-- The state carried round the dimension loop: the block, the local `isIndex`, the
local `err`, and whether the loop has been left with `break`. -/
structure LoopState where
  block : DATA_BLOCK
  isIndex : Int
  err : Int
  broke : Bool
  deriving DecidableEq, Repr

/-- The entry `data_block->dims[ii]`. -/
def dimAt (b : DATA_BLOCK) (ii : Nat) : DIMS :=
  match b.dims with
  | some a => a.elems.getD ii initDimBlock
  | none => initDimBlock

/-- The assignment `data_block->dims[ii] = d`. -/
def setDim (b : DATA_BLOCK) (ii : Nat) (d : DIMS) : DATA_BLOCK :=
  { b with dims := b.dims.map (fun a => { a with elems := a.elems.set ii d }) }

/-- A `DimOutcome` together with the value of the local `isIndex`. -/
structure VarOutcome where
  out : DimOutcome
  isIndex : Int
  deriving DecidableEq, Repr

/-- Lines 1319-1335: a legacy coordinate of rank above 1 that is not an index is
checked for constant values and replaced by an index array when it varies. -/
def checkCoordinate (f : CoordFile) (drank : Int) (d2 : DIMS) : VarOutcome :=
  if drank > 1 ∧ f.var_isIndex = 0 then
    if f.check_err > 0 then
      { out := { dim := d2, err := f.check_err, broke := true }, isIndex := f.var_isIndex }
    else if f.check_err < 0 then
      { out := { dim := { d2 with dim := f.realloc_dim, data_type := UDA_TYPE_INT },
                 err := f.check_err, broke := false },
        isIndex := 1 }
    else { out := { dim := d2, err := f.check_err, broke := false }, isIndex := f.var_isIndex }
  else { out := { dim := d2, err := 0, broke := false }, isIndex := f.var_isIndex }

/-- Lines 1339-1347: calibration of the coordinate array of a compliant raw-data file. -/
def calibrateCoordinate (compliance : Bool) (cls : Int) (drank : Int) (f : CoordFile)
    (o : VarOutcome) : VarOutcome :=
  if compliance ∧ cls = RAW_DATA ∧ drank = 1 then
    let d := { o.out.dim with data_type := f.calib_data_type, dim := f.calib_dim }
    if f.calib_rc ≠ 0 then { out := { dim := d, err := 999, broke := true }, isIndex := o.isIndex }
    else { out := { dim := d, err := o.out.err, broke := false }, isIndex := o.isIndex }
  else o

/-- Lines 1283-1347: the rank of the coordinate variable, its values through
`readCDF4Var`, the check of a legacy coordinate, and the calibration. -/
def readCoordVar (E : NcErrors) (compliance : Bool) (cls : Int) (isUnlimited : Bool)
    (isIndex0 : Int) (f : CoordFile) (d1 : DIMS) : VarOutcome :=
  if isUnlimited = false ∧ f.inq_varndims_rc ≠ 0 then
    { out := { dim := d1, err := E.NETCDF_ERROR_INQUIRING_DIM_1, broke := true },
      isIndex := isIndex0 }
  else
    let drank : Int := if isUnlimited then 1 else f.drank
    if compliance ∧ drank > 1 then
      { out := { dim := d1, err := 999, broke := true }, isIndex := isIndex0 }
    else
      let d2 := { d1 with dim_n := f.var_dim_n, data_type := f.var_data_type, dim := f.var_dim }
      if f.var_err ≠ 0 then
        { out := { dim := d2, err := f.var_err, broke := true }, isIndex := f.var_isIndex }
      else
        let c := checkCoordinate f drank d2
        if c.out.broke then c else calibrateCoordinate compliance cls drank f c

/-- Lines 1270-1579: the coordinate variable of dimension `i` exists.  Read it, pack
its domain representation, read its attributes, test for the time dimension and read
its error array. -/
def readCoordinate (E : NcErrors) (compliance : Bool) (cls : Int) (sub : CDFSUBSET)
    (dimids unlimdimids : List Int) (extent : List Nat) (st : LoopState) (i : Nat)
    (f : CoordFile) (d1 : DIMS) : LoopState :=
  let b := st.block
  let ii := b.rank - i - 1
  let isUnlimited := unlimdimids.contains (dimids.getD i 0)
  let v := readCoordVar E compliance cls isUnlimited st.isIndex f d1
  if v.out.broke then
    { block := setDim b ii v.out.dim, isIndex := v.isIndex, err := v.out.err, broke := true }
  else
    let dom := if compliance
               then readDomains cls sub ii isUnlimited (extent.getD i 0) f v.out.err v.out.dim
               else v.out
    if dom.broke then
      { block := setDim b ii dom.dim, isIndex := v.isIndex, err := dom.err, broke := true }
    else if f.atts_err ≠ 0 then
      { block := setDim b ii dom.dim, isIndex := v.isIndex, err := f.atts_err, broke := true }
    else
      let e := if compliance then readCoordError f dom.dim
               else { dim := dom.dim, err := 0, broke := false }
      { block := { setDim b ii e.dim with order := timeOrder compliance f ii b.order },
        isIndex := v.isIndex, err := e.err, broke := e.broke }

/-- Lines 1208-1584: the body of the dimension loop for data dimension `i`, whose
coordinate is stored at the reversed index `ii = rank - i - 1`. -/
def readCDFDim (E : NcErrors) (compliance : Bool) (cls : Int) (get_nodimdata : Bool)
    (sub : CDFSUBSET) (dimids unlimdimids : List Int) (extent : List Nat) (st : LoopState)
    (i : Nat) (f : CoordFile) : LoopState :=
  let b := st.block
  let ii := b.rank - i - 1
  let d0 := dimAt b ii
  if get_nodimdata ∨ b.data_type = UDA_TYPE_STRING then
    let dA := { d0 with compressed := 1, data_type := UDA_TYPE_UNSIGNED_INT, method := 0,
                        dim0 := 0, diff := 1, dim_n := toInt32 (extent.getD i 0) }
    { st with block := setDim b ii dA }
  else
    let d1 := { d0 with compressed := 0 }
    if f.inq_dim_rc ≠ 0 then
      { st with block := setDim b ii d1, err := E.NETCDF_ERROR_INQUIRING_DIM_3, broke := true }
    else if f.coord_rc ≠ 0 then
      let d2 := { d1 with compressed := 1, data_type := UDA_TYPE_INT, method := 0, dim := none,
                          dim0 := 0, diff := 1, dim_n := toInt32 (extent.getD i 0) }
      if extent.getD i 0 > 0 then
        match f.index_alloc with
        | none =>
          { st with block := setDim b ii d2, err := E.NETCDF_ERROR_ALLOCATING_HEAP_1,
                    broke := true }
        | some a => { st with block := setDim b ii { d2 with dim := some a } }
      else { st with block := setDim b ii d2 }
    else readCoordinate E compliance cls sub dimids unlimdimids extent st i f d1

/-- The loop `for (i = 0; i < data_block->rank; i++)` of lines 1208-1584, from
iteration `i` with `n` iterations left; a `break` ends it. -/
def readCDFDims (E : NcErrors) (compliance : Bool) (cls : Int) (get_nodimdata : Bool)
    (sub : CDFSUBSET) (dimids unlimdimids : List Int) (extent : List Nat)
    (coords : Nat → CoordFile) : Nat → Nat → LoopState → LoopState
  | 0, _, st => st
  | n + 1, i, st =>
    let st1 := readCDFDim E compliance cls get_nodimdata sub dimids unlimdimids extent st i
                 (coords i)
    if st1.broke then st1
    else readCDFDims E compliance cls get_nodimdata sub dimids unlimdimids extent coords n
           (i + 1) st1

/-- What the netCDF library and the plugin helpers report for the data variable on the
main path of `readCDF` (lines 998-1203). -/
structure VarFile where
  /-- return code and rank out of `nc_inq_varndims` (line 1000) -/
  inq_varndims_rc : Int
  rank : Nat
  /-- return code and ids out of `nc_inq_vardimid` (line 1010) -/
  inq_vardimid_rc : Int
  dimids : List Int
  /-- return code and ids out of `nc_inq_unlimdims` (line 1045) -/
  inq_unlimdims_rc : Int
  unlimdimids : List Int
  /-- addresses returned by `malloc` for `extent`, `dextent` and `dims` -/
  extent_alloc : Option Ptr
  dextent_alloc : Option Ptr
  dims_alloc : Option Ptr
  /-- outcome of `readCDF4Var` on the data variable (line 1105) -/
  var_err : Int
  extent : List Nat
  data_n : Int
  data_type : Int
  isIndex : Int
  data : Option Ptr
  udt : Option Ptr
  /-- outcome of `applyCDFCalibration` on the data (line 1129) -/
  calib_rc : Int
  calib_data_type : Int
  calib_data : Option Ptr
  /-- outcome of `readCDF4Atts` (line 1142) and of `readCDF4Err` (line 1166) -/
  atts_err : Int
  err_err : Int
  error_n : Int
  error_type : Int
  errhi : Option Ptr
  /-- address returned by `realloc` when a string variable gains a dimension -/
  dims_realloc : Ptr
  /-- the coordinate of each data dimension -/
  coords : Nat → CoordFile

/-- Lines 1017-1040: complete the subset request for a variable of the given rank.
`none` when there are more subset operations than dimensions. -/
def completeSubset (sub : CDFSUBSET) (rank : Nat) : Option CDFSUBSET :=
  if sub.subsetCount > 0 then
    if sub.subsetCount > rank then none
    else
      let pad (a : Nat → Int) (v : Int) : Nat → Int :=
        fun i => if sub.subsetCount ≤ (i : Int) ∧ i < rank then v else a i
      let s1 : CDFSUBSET :=
        { subsetCount := sub.subsetCount, subset := pad sub.subset 0, start := pad sub.start 0,
          stop := pad sub.stop 0, count := pad sub.count 0, stride := pad sub.stride 1 }
      if (List.range rank).all (fun i => s1.subset i = 0) then
        some { s1 with subsetCount := 0 }
      else some s1
  else some sub

/-- Outcome of a stage of `readCDF` on the block: the block, the value of `err`, and
whether the stage left the error trap with `break`. -/
structure BlockOutcome where
  block : DATA_BLOCK
  err : Int
  broke : Bool
  deriving DecidableEq, Repr

/-- Lines 1057-1097: allocate the extent arrays and the dimension array, and
initialise each dimension. -/
def allocateDims (E : NcErrors) (v : VarFile) (b1 : DATA_BLOCK) : BlockOutcome :=
  if v.extent_alloc = none ∨ v.dextent_alloc = none then
    { block := b1, err := E.NETCDF_ERROR_ALLOCATING_HEAP_1, broke := true }
  else if b1.rank > 0 then
    match v.dims_alloc with
    | none => { block := { b1 with dims := none }, err := E.NETCDF_ERROR_ALLOCATING_HEAP_1,
                broke := true }
    | some a =>
      { block := { b1 with dims := some { addr := a,
                                          elems := List.replicate b1.rank initDimBlock } },
        err := 0, broke := false }
  else { block := b1, err := 0, broke := false }

/-- Lines 1099-1180: read the data array, attach a user defined type, calibrate raw
data, read the attributes and the error array. -/
def readVariableData (compliance : Bool) (cls : Int) (get_bytes : Bool) (v : VarFile)
    (b2 : DATA_BLOCK) : BlockOutcome :=
  let b3 := { b2 with data_n := v.data_n, data_type := v.data_type, data := v.data }
  if v.var_err ≠ 0 then { block := b3, err := v.var_err, broke := true }
  else
    let b4 := match v.udt with
              | some u => { b3 with opaque_type := OPAQUE_TYPE_STRUCTURES,
                                    opaque_count := 1, opaque_block := some u }
              | none => b3
    let calibrate := decide (compliance ∧ cls = RAW_DATA ∧ get_bytes = false)
    let b5 := if calibrate
              then { b4 with data_type := v.calib_data_type, data := v.calib_data }
              else b4
    if calibrate ∧ v.calib_rc ≠ 0 then { block := b5, err := 999, broke := true }
    else if v.atts_err ≠ 0 then { block := b5, err := v.atts_err, broke := true }
    else if compliance then
      let b6 := { b5 with error_type := v.error_type, errhi := v.errhi }
      if v.err_err ≠ 0 then { block := b6, err := v.err_err, broke := true }
      else if v.error_n > 0 ∧ v.error_n ≠ b6.data_n then
        { block := b6, err := 999, broke := true }
      else { block := b6, err := 0, broke := false }
    else { block := b5, err := 0, broke := false }

/-- Lines 1196-1203: a rank 1 variable of strings gains a second dimension. -/
def extendStringRank (v : VarFile) (b6 : DATA_BLOCK) : DATA_BLOCK :=
  if b6.rank = 1 ∧ b6.data_type = UDA_TYPE_STRING ∧ v.extent.getD 1 0 > 0 then
    { b6 with rank := 2,
              dims := some { addr := v.dims_realloc, elems := [initDimBlock, initDimBlock] } }
  else b6

/-- Lines 998-1605 of `readCDF`: the request names a data variable.  Returns `err`
and the data block.  The meta-data document is never built (`getMeta` is the
constant `false`). -/
def readCDFVariable (E : NcErrors) (compliance : Bool) (cls : Int)
    (get_bytes get_nodimdata : Bool) (sub0 : CDFSUBSET) (v : VarFile) (b : DATA_BLOCK) :
    Int × DATA_BLOCK :=
  if v.inq_varndims_rc ≠ 0 then (E.NETCDF_ERROR_INQUIRING_DIM_1, b)
  else if v.rank > 0 ∧ v.inq_vardimid_rc ≠ 0 then (E.NETCDF_ERROR_INQUIRING_DIM_2, b)
  else
    match completeSubset sub0 v.rank with
    | none => (999, b)
    | some sub =>
      if v.inq_unlimdims_rc ≠ 0 then (E.NETCDF_ERROR_INQUIRING_DIM_1, b)
      else
        let a := allocateDims E v { b with rank := v.rank, order := -1 }
        if a.broke then (a.err, a.block)
        else
          let d := readVariableData compliance cls get_bytes v a.block
          if d.broke then (d.err, d.block)
          else
            let b7 := extendStringRank v d.block
            let st := readCDFDims E compliance cls get_nodimdata sub v.dimids v.unlimdimids
                        v.extent v.coords b7.rank 0
                        { block := b7, isIndex := v.isIndex, err := 0, broke := false }
            (st.err, st.block)

/-- Lines 764-781: the length of an unwritten coordinate of length `data_n` under the
first subset operation (`stop` and `count` of -1 stand for "to the end").  Division
and remainder are those of C. -/
def subsetLength (sub : CDFSUBSET) (data_n : Int) : Int :=
  if sub.subsetCount = 1 ∧ sub.subset 0 ≠ 0 then
    let stop := if sub.stop 0 = -1 then data_n - 1 else sub.stop 0
    if sub.count 0 = -1 then
      let count := stop - sub.start 0 + 1
      if sub.stride 0 > 1 ∧ count > 1 then
        if Int.tmod count (sub.stride 0) > 0 then 1 + Int.tdiv count (sub.stride 0)
        else Int.tdiv count (sub.stride 0)
      else count
    else sub.count 0
  else data_n

/-- Lines 738-813: the name is that of a dimension without a coordinate variable; an
index array is returned as data and as the single dimension. -/
def readCDFUnwritten (E : NcErrors) (sub : CDFSUBSET) (dimlen_rc : Int) (dimlen : Nat)
    (data_alloc dims_alloc dim_alloc : Option Ptr) (b : DATA_BLOCK) : Int × DATA_BLOCK :=
  if dimlen_rc ≠ 0 then (999, b)
  else
    let b1 := { b with data_n := toInt32 dimlen, rank := 1, order := -1,
                       data_type := UDA_TYPE_INT }
    if sub.subsetCount > 1 then (999, b1)
    else
      let b2 := { b1 with data_n := subsetLength sub b1.data_n, data := data_alloc }
      if data_alloc = none then (E.NETCDF_ERROR_ALLOCATING_HEAP_1, b2)
      else
        match dims_alloc with
        | none => (E.NETCDF_ERROR_ALLOCATING_HEAP_1, { b2 with dims := none })
        | some a =>
          let d := { initDimBlock with dim_n := b2.data_n, data_type := UDA_TYPE_INT,
                                       dim := dim_alloc }
          let b3 := { b2 with dims := some { addr := a, elems := [d] } }
          if dim_alloc = none then (E.NETCDF_ERROR_ALLOCATING_HEAP_1, b3) else (0, b3)

/-- What `readCDF4AVar` and `malloc` report when the name is that of an attribute
(lines 817-861 and 865-916). -/
structure AttFile where
  read_rc : Int
  data_n : Int
  ndimatt : List Int
  data_type : Int
  data : Option Ptr
  udt : Option Ptr
  dims_alloc : Option Ptr
  /-- address returned by `malloc` for the index array of data dimension `i` -/
  dim_alloc : Nat → Option Ptr

/-- The loop at lines 846-859 (and 899-912) from iteration `i` with `n` iterations
left: each dimension of an attribute is an index array. -/
def attributeDims (E : NcErrors) (a : AttFile) : Nat → Nat → Int → DATA_BLOCK → Int × DATA_BLOCK
  | 0, _, err, b => (err, b)
  | n + 1, i, err, b =>
    let ii := b.rank - i - 1
    let d := { initDimBlock with dim_n := a.ndimatt.getD i 0, data_type := UDA_TYPE_INT,
                                 dim := a.dim_alloc i }
    if a.dim_alloc i = none then (E.NETCDF_ERROR_ALLOCATING_HEAP_1, setDim b ii d)
    else attributeDims E a n (i + 1) err (setDim b ii d)

/-- Lines 818-860 and 870-913: return the values of an attribute. -/
def readCDFAttribute (E : NcErrors) (a : AttFile) (b : DATA_BLOCK) : Int × DATA_BLOCK :=
  let b1 := { b with data_n := a.data_n, data_type := a.data_type, data := a.data }
  if a.read_rc ≠ 0 then (999, b1)
  else
    let b2 := match a.udt with
              | some u => { b1 with opaque_type := OPAQUE_TYPE_STRUCTURES, opaque_count := 1,
                                    opaque_block := some u }
              | none => b1
    let rank : Nat := if b2.data_type = UDA_TYPE_STRING ∧ a.ndimatt.getD 1 0 > 0 then 2 else 1
    let b3 := { b2 with rank := rank, order := -1 }
    match a.dims_alloc with
    | none => (E.NETCDF_ERROR_ALLOCATING_HEAP_1, { b3 with dims := none })
    | some p =>
      attributeDims E a rank 0 0
        { b3 with dims := some { addr := p, elems := List.replicate rank initDimBlock } }

/-- What the sub-tree helpers report (lines 924-985 and `readCDFGlobalMeta`). -/
structure TreeFile where
  types_err : Int
  meta_err : Int
  data_err : Int
  data : Option Ptr
  group_udt : Option Ptr

/-- Lines 970-979 and lines 167-179: the sub-tree has been read into a structure. -/
def setSubTree (t : TreeFile) (b : DATA_BLOCK) : DATA_BLOCK :=
  let b1 := { b with data := t.data }
  match t.group_udt with
  | some u =>
    if t.data_err = 0 then
      { b1 with data_type := UDA_TYPE_COMPOUND, data_n := 1, rank := 0, order := -1,
                opaque_type := OPAQUE_TYPE_STRUCTURES, opaque_count := 1,
                opaque_block := some u }
    else b1
  | none => b1

/-- Lines 928-984: the name is that of a group (or the root): return the sub-tree. -/
def readCDFSubTree (isRoot : Bool) (t : TreeFile) (b : DATA_BLOCK) : Int × DATA_BLOCK :=
  if isRoot = false ∧ t.types_err ≠ 0 then (t.types_err, b)
  else if t.meta_err ≠ 0 then (t.meta_err, b)
  else (t.data_err, setSubTree t b)

/-- What the name of the request resolves to (lines 715-926): the outcomes of the
look-ups that `readCDF` tries in turn, with the file contents each path reads. -/
structure Lookup where
  /-- `nc_inq_varid` on the name without the text of the subset operations (line 715,
  called when subset operations are requested) succeeds -/
  reducedFound : Bool
  /-- `nc_inq_varid` on the name (line 728, called when `varid` is still -1) succeeds -/
  variableFound : Bool
  var : VarFile
  /-- `nc_inq_dimid` and `nc_inq_dimlen` (lines 738-740) -/
  dimid_rc : Int
  dimlen_rc : Int
  dimlen : Nat
  data_alloc : Option Ptr
  dims_alloc : Option Ptr
  dim_alloc : Option Ptr
  /-- `nc_inq_atttype` on the group (line 817) -/
  groupAtt_rc : Int
  groupAtt : AttFile
  /-- the name has a dot, and `nc_inq_varid`, `nc_inq_atttype` on its two parts -/
  hasDot : Bool
  dotVar_rc : Int
  dotAtt_rc : Int
  dotAtt : AttFile
  /-- the file format, the test for the root group, and `getGroupId` (lines 924-926) -/
  hierarchical : Bool
  isRoot : Bool
  groupId_rc : Int
  tree : TreeFile

/-- Lines 681-722: the local structure `cdfsubset` after the subset operations of the
request, `datasubset`, have been copied.  When subset operations are requested and
the name without their text is not that of a variable, the count is set to 0 (line
719). -/
def readCDFSubset (datasubset : CDFSUBSET) (l : Lookup) : CDFSUBSET :=
  if datasubset.subsetCount > 0 ∧ l.reducedFound = false then
    { datasubset with subsetCount := 0 }
  else datasubset

/-- Lines 681-1605 of `readCDF`: copy the subset operations of the request
(`request_block.datasubset`), resolve the name and read the data.  Returns `err` and
the data block.  `varid` is other than -1 at line 728 when subset operations are
requested and line 715 has found the variable of the reduced name. -/
def readCDF (E : NcErrors) (compliance : Bool) (cls : Int) (get_bytes get_nodimdata : Bool)
    (datasubset : CDFSUBSET) (l : Lookup) (b : DATA_BLOCK) : Int × DATA_BLOCK :=
  if datasubset.subsetCount > 0 ∧ datasubset.subsetCount > E.NC_MAX_VAR_DIMS then (999, b)
  else
    let sub := readCDFSubset datasubset l
    if (datasubset.subsetCount > 0 ∧ l.reducedFound) ∨ l.variableFound then
      readCDFVariable E compliance cls get_bytes get_nodimdata sub l.var b
    else if l.dimid_rc = 0 then
      readCDFUnwritten E sub l.dimlen_rc l.dimlen l.data_alloc l.dims_alloc l.dim_alloc b
    else if sub.subsetCount = 0 ∧ l.groupAtt_rc = 0 then readCDFAttribute E l.groupAtt b
    else if sub.subsetCount = 0 ∧ l.hasDot ∧ l.dotVar_rc = 0 ∧ l.dotAtt_rc = 0 then
      readCDFAttribute E l.dotAtt b
    else if l.hierarchical ∧ sub.subsetCount = 0 ∧ (l.isRoot ∨ l.groupId_rc = 0) then
      readCDFSubTree l.isRoot l.tree b
    else (E.NETCDF_ERROR_INQUIRING_VARIABLE_1, b)

/-- `readCDFGlobalMeta` (lines 84-200): the root-level meta data as a structure.
`open_rc` is the return code of `nc_open`; `netcdf4` is false when `nc_inq_format`
succeeds and reports a format other than netCDF-4. -/
def readCDFGlobalMeta (open_rc : Int) (netcdf4 : Bool) (t : TreeFile) (b : DATA_BLOCK) :
    Int × DATA_BLOCK :=
  if open_rc ≠ 0 then (999, b)
  else if netcdf4 = false then (999, b)
  else if t.meta_err ≠ 0 then
    (t.meta_err, { b with opaque_block := none, opaque_count := 0,
                          opaque_type := OPAQUE_TYPE_UNKNOWN })
  else
    let b1 := setSubTree t b
    if t.data_err ≠ 0 then
      (t.data_err, { b1 with opaque_block := none, opaque_count := 0,
                             opaque_type := OPAQUE_TYPE_UNKNOWN })
    else (t.data_err, b1)

/-! ## parseXML.cpp

The libxml2 document is an input: a node carries its name, its attributes, the text
that `xmlNodeListGetString` returns for its children, and its child nodes in document
order.  Values of type `double` and `float` are kept as the expressions that compute
them.  Text copied with `strcpy` into a character field of a structure is the text
itself; a text longer than the field is outside the model.  A fixed-length array is a
list of its length, and a write past its end, like every other step that leaves
defined behaviour, is an `XmlFault`. -/

/-- A floating point value as the expression that computes it: a literal of the
source (the double nearest to the decimal), the result of `atof` or `strtod` on a
text, a product of two doubles, or a double narrowed to `float`. -/
inductive FloatExpr where
  | const (q : Rat)
  | atof (text : List Char)
  | mul (a b : FloatExpr)
  | narrow (a : FloatExpr)
  deriving DecidableEq, Repr

/-- A node of the parsed document (`xmlNode`): `content` is what
`xmlNodeListGetString(doc, cur->xmlChildrenNode, 1)` returns, `none` for `NULL`. -/
inductive XmlNode where
  | mk (name : List Char) (properties : List (List Char × List Char))
      (content : Option (List Char)) (children : List XmlNode)

/-- The member `name` of a node. -/
def XmlNode.name : XmlNode → List Char
  | XmlNode.mk n _ _ _ => n

/-- The attributes of a node, in document order. -/
def XmlNode.properties : XmlNode → List (List Char × List Char)
  | XmlNode.mk _ p _ _ => p

/-- The text of the children of a node. -/
def XmlNode.content : XmlNode → Option (List Char)
  | XmlNode.mk _ _ t _ => t

/-- The list `cur->xmlChildrenNode`, `cur->next`, ... -/
def XmlNode.children : XmlNode → List XmlNode
  | XmlNode.mk _ _ _ c => c

/-- The result of `xmlParseDoc`: a document with its root element, if it has one. -/
structure XmlDoc where
  root : Option XmlNode

/-- `xmlGetProp(cur, name)`: the value of the first attribute of that name. -/
def xmlGetProp (cur : XmlNode) (name : String) : Option (List Char) :=
  (cur.properties.find? (fun p => p.1 = name.toList)).map (fun p => p.2)

/-- The first child for which `!xmlStrcmp(cur->name, target)` holds. -/
def firstChild (cur : XmlNode) (target : String) : Option XmlNode :=
  cur.children.find? (fun c => c.name = target.toList)

/-- The ways in which the parser leaves defined behaviour. -/
inductive XmlFault where
  | staleBlock
  | indeterminate
  | nullString
  | arrayOverflow
  deriving DecidableEq, Repr

/-- Identifiers of the members of the `DIMENSION` union (header `parseXML.h`). -/
def DIMCALIBRATIONTYPE : Int := 1

/-- Identifier of a composite dimension. -/
def DIMCOMPOSITETYPE : Int := 2

/-- Identifier of a dimension documentation. -/
def DIMDOCUMENTATIONTYPE : Int := 3

/-- Identifier of a dimension error model. -/
def DIMERRORMODELTYPE : Int := 4

/-- Identifiers of the members of the `ACTION` union (header `parseXML.h`). -/
def TIMEOFFSETTYPE : Int := 1

/-- Identifier of a documentation action. -/
def DOCUMENTATIONTYPE : Int := 2

/-- Identifier of a calibration action. -/
def CALIBRATIONTYPE : Int := 3

/-- Identifier of a composite action. -/
def COMPOSITETYPE : Int := 4

/-- Identifier of an error model action. -/
def ERRORMODELTYPE : Int := 5

/-- Identifier of a server side action. -/
def SERVERSIDETYPE : Int := 6

/-- Identifier of a subset action. -/
def SUBSETTYPE : Int := 7

/-- The value `ERROR_MODEL_UNKNOWN`. -/
def ERROR_MODEL_UNKNOWN : Int := 0

/-- The structure `DIMCALIBRATION`. -/
structure DIMCALIBRATION where
  factor : FloatExpr
  offset : FloatExpr
  invert : Int
  units : List Char
  deriving DecidableEq, Repr

/-- The structure `DIMCOMPOSITE`. -/
structure DIMCOMPOSITE where
  to_dim : Int
  from_dim : Int
  file : List Char
  format : List Char
  dim_signal : List Char
  dim_error : List Char
  dim_aserror : List Char
  deriving DecidableEq, Repr

/-- The structure `DIMDOCUMENTATION`. -/
structure DIMDOCUMENTATION where
  label : List Char
  units : List Char
  deriving DecidableEq, Repr

/-- The structure `DIMERRORMODEL`; `params` has `MAXERRPARAMS` entries. -/
structure DIMERRORMODEL where
  model : Int
  param_n : Int
  params : List FloatExpr
  deriving DecidableEq, Repr

/-- The union inside `DIMENSION`, with the member that has been initialised. -/
inductive DimensionUnion where
  | unset
  | dimcalibration (c : DIMCALIBRATION)
  | dimcomposite (c : DIMCOMPOSITE)
  | dimdocumentation (d : DIMDOCUMENTATION)
  | dimerrormodel (e : DIMERRORMODEL)
  deriving DecidableEq, Repr

/-- The structure `DIMENSION`. -/
structure DIMENSION where
  dimid : Int
  dimType : Int
  u : DimensionUnion
  deriving DecidableEq, Repr

/-- The structure `TIMEOFFSET`. -/
structure TIMEOFFSET where
  method : Int
  offset : FloatExpr
  interval : FloatExpr
  deriving DecidableEq, Repr

/-- The structure `CALIBRATION`; `dimensions` is `none` for a null pointer. -/
structure CALIBRATION where
  factor : FloatExpr
  offset : FloatExpr
  units : List Char
  target : List Char
  invert : Int
  ndimensions : Int
  dimensions : Option (List DIMENSION)
  deriving DecidableEq, Repr

/-- The structure `DOCUMENTATION`. -/
structure DOCUMENTATION where
  label : List Char
  units : List Char
  description : List Char
  ndimensions : Int
  dimensions : Option (List DIMENSION)
  deriving DecidableEq, Repr

/-- The structure `SUBSET`; the arrays have `MAXDATARANK` entries. -/
structure SUBSET where
  bound : List FloatExpr
  ubindex : List Int
  lbindex : List Int
  isindex : List Int
  dimid : List Int
  operation : List (List Char)
  data_signal : List Char
  member : List Char
  function : List Char
  nbound : Int
  reform : Int
  order : Int
  deriving DecidableEq, Repr

/-- The structure `MAP`; the arrays have `MAXDATARANK` entries. -/
structure MAP where
  value : List FloatExpr
  dimid : List Int
  mapping : List (List Char)
  data_signal : List Char
  nmap : Int
  deriving DecidableEq, Repr

/-- The structure `COMPOSITE`. -/
structure COMPOSITE where
  data_signal : List Char
  error_signal : List Char
  aserror_signal : List Char
  map_to_signal : List Char
  file : List Char
  format : List Char
  order : Int
  ndimensions : Int
  nsubsets : Int
  nmaps : Int
  dimensions : Option (List DIMENSION)
  subsets : Option (List SUBSET)
  maps : Option (List MAP)
  deriving DecidableEq, Repr

/-- The structure `SERVERSIDE`. -/
structure SERVERSIDE where
  nsubsets : Int
  nmaps : Int
  subsets : Option (List SUBSET)
  maps : Option (List MAP)
  deriving DecidableEq, Repr

/-- The structure `ERRORMODEL`; `params` has `MAXERRPARAMS` entries. -/
structure ERRORMODEL where
  model : Int
  param_n : Int
  params : List FloatExpr
  ndimensions : Int
  dimensions : Option (List DIMENSION)
  deriving DecidableEq, Repr

/-- The union inside `ACTION`, with the member that has been initialised. -/
inductive ActionUnion where
  | unset
  | timeoffset (t : TIMEOFFSET)
  | documentation (d : DOCUMENTATION)
  | calibration (c : CALIBRATION)
  | composite (c : COMPOSITE)
  | errormodel (e : ERRORMODEL)
  | serverside (s : SERVERSIDE)
  | subset (s : SUBSET)
  deriving DecidableEq, Repr

/-- The structure `ACTION`: `exp_range` and `pass_range` are arrays of two. -/
structure ACTION where
  actionType : Int
  inRange : Int
  actionId : Int
  exp_range : Int × Int
  pass_range : Int × Int
  u : ActionUnion
  deriving DecidableEq, Repr

/-- The structure `ACTIONS`: the count and the array, `none` for a null pointer. -/
structure ACTIONS where
  nactions : Int
  action : Option (List ACTION)
  deriving DecidableEq, Repr

/-- An `ACTIONS` structure during a parse.  `stale` is set when the array that
`action` points to has been handed to `realloc` and the pointer has not been
replaced by the one returned. -/
structure ParseState where
  actions : ACTIONS
  stale : Bool
  deriving DecidableEq, Repr

/-- The limits of the header `parseXML.h` and the functions outside the sources at
hand that the parser calls. -/
structure XmlEnv where
  MAXDATARANK : Nat
  SXMLMAXSTRING : Nat
  MAXERRPARAMS : Nat
  XMLMAXLOOP : Nat
  atoi : List Char → Int
  convertNonPrintable : List Char → List Char
  /-- return code of `idamParseOperation(sub)` and the structure it leaves in `sub` -/
  idamParseOperation : SUBSET → Int × SUBSET
/-- The tokens that successive calls of `strtok` with one delimiter return. -/
def strtokAll (delim : Char) (s : List Char) : List (List Char) :=
  (s.splitOn delim).filter (fun t => t ≠ [])

/-- The pattern `if ((att = xmlGetProp(cur, name)) != nullptr) { if (strlen(att) > 0)
field = conv(att); }`: the new value of the field. -/
def attrValue {α : Type} (cur : XmlNode) (name : String) (conv : List Char → α) (field : α) : α :=
  match xmlGetProp cur name with
  | some att => if att.length > 0 then conv att else field
  | none => field

/-- The pattern `if ((att = xmlGetProp(cur, name)) != nullptr) { if (att[0] == 'y' ||
att[0] == 'Y') field = 1; }`. -/
def attrYes (cur : XmlNode) (name : String) (field : Int) : Int :=
  match xmlGetProp cur name with
  | some att => if att.head? = some 'y' ∨ att.head? = some 'Y' then 1 else field
  | none => field

/-- Lines 52-63 and 94-200: the items that the `strtok` loops store, at most one more
than `limit`. -/
def storedItems (limit : Nat) (delim : Char) (text : List Char) : List (List Char) :=
  (strtokAll delim text).take (limit + 1)

/-- `parseFloatArray` (lines 34-73): the values of the first child named `target`.
Returns the array (`none` for a null pointer) and `*n`.  A child without text makes
`strlen` read a null pointer. -/
def parseFloatArray (E : XmlEnv) (cur : XmlNode) (target : String) :
    Except XmlFault (Option (List FloatExpr) × Int) :=
  match firstChild cur target with
  | none => Except.ok (none, 0)
  | some c =>
    match c.content with
    | none => Except.error XmlFault.nullString
    | some key0 =>
      let key := E.convertNonPrintable key0
      if key.length > 0 then
        let items := storedItems E.XMLMAXLOOP ' ' key
        if items.length > 0 then
          Except.ok (some (items.map (fun item => FloatExpr.narrow (FloatExpr.atof item))),
                     (items.length : Int))
        else Except.ok (none, 0)
      else Except.ok (none, 0)

/-- The assignments `array[nco - 1] = conv(item)` for the items in turn, from index
`k`. -/
def writeItems {α : Type} (conv : List Char → α) :
    List (List Char) → Nat → List α → Except XmlFault (List α)
  | [], _, array => Except.ok array
  | item :: rest, k, array =>
    if k < array.length then writeItems conv rest (k + 1) (array.set k (conv item))
    else Except.error XmlFault.arrayOverflow

/-- `parseFixedLengthArray` (lines 76-206) for the element type that `arraytype`
selects, with `conv` the conversion of that case of the switch (`strtod` for
`UDA_TYPE_DOUBLE`, `atoi` for `UDA_TYPE_INT`).  Returns the array and `*n`. -/
def parseFixedLengthArray {α : Type} (E : XmlEnv) (cur : XmlNode) (target : String)
    (conv : List Char → α) (array : List α) : Except XmlFault (List α × Int) :=
  match xmlGetProp cur target with
  | none => Except.ok (array, 0)
  | some att0 =>
    let att := E.convertNonPrintable att0
    if att.length > 0 then
      let items := storedItems E.MAXDATARANK ',' att
      match writeItems conv items 0 array with
      | Except.ok a => Except.ok (a, (items.length : Int))
      | Except.error e => Except.error e
    else Except.ok (array, 0)

/-- Lines 224-229: the copy of an item into a row of `SXMLMAXSTRING` characters. -/
def copyItem (E : XmlEnv) (item : List Char) : List Char :=
  if item.length < E.SXMLMAXSTRING then item else item.take (E.SXMLMAXSTRING - 1)

/-- `parseFixedLengthStrArray` (lines 209-245).  Returns the array and `*n`. -/
def parseFixedLengthStrArray (E : XmlEnv) (cur : XmlNode) (target : String)
    (array : List (List Char)) : Except XmlFault (List (List Char) × Int) :=
  match xmlGetProp cur target with
  | none => Except.ok (array, 0)
  | some att =>
    if att.length > 0 then
      let items := storedItems E.MAXDATARANK ',' att
      match writeItems (copyItem E) items 0 array with
      | Except.ok a => Except.ok (a, (items.length : Int))
      | Except.error e => Except.error e
    else Except.ok (array, 0)

/-- `deScale` (lines 250-265). -/
def deScale (scale : List Char) : FloatExpr :=
  if scale.length = 0 then FloatExpr.const 1
  else if scale = "milli".toList then FloatExpr.const (1 / 1000)
  else if scale = "micro".toList then FloatExpr.const (1 / 1000000)
  else if scale = "nano".toList then FloatExpr.const (1 / 1000000000)
  else FloatExpr.const 1

/-- `parseTargetValue` (lines 270-287): the new `*value`. -/
def parseTargetValue (cur : XmlNode) (target : String) (value : FloatExpr) : FloatExpr :=
  match firstChild cur target with
  | none => value
  | some c =>
    let v1 := match c.content with
              | some key => FloatExpr.atof key
              | none => value
    match xmlGetProp c "scale" with
    | some scale => FloatExpr.mul v1 (deScale scale)
    | none => v1

/-- `parseTargetString` (lines 289-302): the new text of `str`. -/
def parseTargetString (cur : XmlNode) (target : String) (str : List Char) : List Char :=
  match firstChild cur target with
  | none => str
  | some c =>
    match c.content with
    | some key => key
    | none => str

/-- `initDimCalibration` (lines 1334-1340). -/
def initDimCalibration : DIMCALIBRATION :=
  { factor := FloatExpr.const 1, offset := FloatExpr.const 0, invert := 0, units := [] }

/-- `initDimComposite` (lines 1342-1351). -/
def initDimComposite : DIMCOMPOSITE :=
  { to_dim := -1, from_dim := -1, file := [], format := [], dim_signal := [], dim_error := [],
    dim_aserror := [] }

/-- `initDimDocumentation` (lines 1353-1357). -/
def initDimDocumentation : DIMDOCUMENTATION :=
  { label := [], units := [] }

/-- `initDimErrorModel` (lines 1359-1365). -/
def initDimErrorModel (E : XmlEnv) : DIMERRORMODEL :=
  { model := ERROR_MODEL_UNKNOWN, param_n := 0,
    params := List.replicate E.MAXERRPARAMS (FloatExpr.const 0) }

/-- `initDimension` (lines 1367-1371). -/
def initDimension : DIMENSION :=
  { dimid := -1, dimType := 0, u := DimensionUnion.unset }

/-- `initTimeOffset` (lines 1373-1378). -/
def initTimeOffset : TIMEOFFSET :=
  { method := 0, offset := FloatExpr.const 0, interval := FloatExpr.const 0 }

/-- `initCalibration` (lines 1380-1389). -/
def initCalibration : CALIBRATION :=
  { factor := FloatExpr.const 1, offset := FloatExpr.const 0, units := [], target := [],
    invert := 0, ndimensions := 0, dimensions := none }

/-- `initDocumentation` (lines 1391-1398). -/
def initDocumentation : DOCUMENTATION :=
  { label := [], units := [], description := [], ndimensions := 0, dimensions := none }

/-- `initComposite` (lines 1400-1415). -/
def initComposite : COMPOSITE :=
  { data_signal := [], error_signal := [], aserror_signal := [], map_to_signal := [],
    file := [], format := [], order := -1, ndimensions := 0, nsubsets := 0, nmaps := 0,
    dimensions := none, subsets := none, maps := none }

/-- `initServerside` (lines 1417-1423). -/
def initServerside : SERVERSIDE :=
  { nsubsets := 0, nmaps := 0, subsets := none, maps := none }

/-- `initErrorModel` (lines 1425-1433). -/
def initErrorModel (E : XmlEnv) : ERRORMODEL :=
  { model := ERROR_MODEL_UNKNOWN, param_n := 0,
    params := List.replicate E.MAXERRPARAMS (FloatExpr.const 0),
    ndimensions := 0, dimensions := none }

/-- `initSubset` (lines 1435-1452). -/
def initSubset (E : XmlEnv) : SUBSET :=
  { bound := List.replicate E.MAXDATARANK (FloatExpr.const 0),
    ubindex := List.replicate E.MAXDATARANK 0,
    lbindex := List.replicate E.MAXDATARANK 0,
    isindex := List.replicate E.MAXDATARANK 0,
    dimid := List.replicate E.MAXDATARANK (-1),
    operation := List.replicate E.MAXDATARANK [],
    data_signal := [], member := [], function := [], nbound := 0, reform := 0, order := -1 }

/-- `initMap` (lines 1454-1464). -/
def initMap (E : XmlEnv) : MAP :=
  { value := List.replicate E.MAXDATARANK (FloatExpr.const 0),
    dimid := List.replicate E.MAXDATARANK (-1),
    mapping := List.replicate E.MAXDATARANK [],
    data_signal := [], nmap := 0 }

/-- `initAction` (lines 1468-1477); the union is left as it is. -/
def initAction : ACTION :=
  { actionType := 0, inRange := 0, actionId := 0, exp_range := (0, 0), pass_range := (-1, -1),
    u := ActionUnion.unset }

/-- `initActions` (lines 1481-1485). -/
def initActions : ACTIONS :=
  { nactions := 0, action := none }

/-- The attributes `id`, `exp_number_start`, `exp_number_end`, `pass_start` and
`pass_end` that five of the rule parsers read in the same way (lines 325-353,
576-604, 739-767, 851-879, 964-992). -/
def rangeAttributes (E : XmlEnv) (cur : XmlNode) (a : ACTION) : ACTION :=
  { a with
    actionId := attrValue cur "id" E.atoi a.actionId,
    exp_range := (attrValue cur "exp_number_start" E.atoi a.exp_range.1,
                  attrValue cur "exp_number_end" E.atoi a.exp_range.2),
    pass_range := (attrValue cur "pass_start" E.atoi a.pass_range.1,
                   attrValue cur "pass_end" E.atoi a.pass_range.2) }

/-- The children of `cur` that a loop `while (cur != nullptr) { if
(!xmlStrcmp(cur->name, tag)) ...; cur = cur->next; }` acts on, in document order. -/
def matchingChildren (cur : XmlNode) (tag : String) : List XmlNode :=
  cur.children.filter (fun c => c.name = tag.toList)

/-- The array pointer of a structure after a loop that starts with `n = 0` and the
pointer held so far, and builds one element for each matching child with `realloc`:
without a match the pointer is the one held before. -/
def rebuilt {α : Type} (held : Option (List α)) (built : List α) : Option (List α) :=
  if built.length = 0 then held else some built

/-- Lines 319-390: the action of one `time_offset` tag. -/
def timeOffsetTag (E : XmlEnv) (cur : XmlNode) : ACTION :=
  let a := rangeAttributes E cur { initAction with actionType := TIMEOFFSETTYPE }
  let t0 := initTimeOffset
  let t1 := { t0 with offset := attrValue cur "value" FloatExpr.atof t0.offset }
  let t2 := { t1 with method := attrValue cur "method" E.atoi t1.method }
  let t3 := { t2 with offset := attrValue cur "start" FloatExpr.atof t2.offset }
  let t4 := { t3 with interval := attrValue cur "interval" FloatExpr.atof t3.interval }
  let t5 := { t4 with offset := attrValue cur "scale"
                                  (fun att => FloatExpr.mul (deScale att) t4.offset) t4.offset }
  { a with u := ActionUnion.timeoffset t5 }

/-- Lines 417-457 and 1046-1096: the subset structure of one `subset` tag, before
`idamParseOperation` is called on it. -/
def subsetTag (E : XmlEnv) (cur : XmlNode) : Except XmlFault SUBSET :=
  let s0 := initSubset E
  let s1 := { s0 with data_signal := attrValue cur "data" id s0.data_signal,
                      reform := attrYes cur "reform" s0.reform,
                      member := attrValue cur "member" id s0.member,
                      function := attrValue cur "function" id s0.function,
                      order := attrValue cur "order" E.atoi s0.order }
  match parseFixedLengthStrArray E cur "operation" s1.operation with
  | Except.error e => Except.error e
  | Except.ok (operation, nbound) =>
    let dimid := (List.range nbound.toNat).foldl (fun d i => d.set i (i : Int)) s1.dimid
    match parseFixedLengthArray E cur "bound" FloatExpr.atof s1.bound with
    | Except.error e => Except.error e
    | Except.ok (bound, _) =>
      match parseFixedLengthArray E cur "dimid" E.atoi dimid with
      | Except.error e => Except.error e
      | Except.ok (dimid1, _) =>
        Except.ok { s1 with operation := operation, nbound := nbound, dimid := dimid1,
                            bound := bound }

/-- The loop of `parseCompositeSubset` (lines 411-471) over the children not yet
visited, with the subsets built so far: `none` when `idamParseOperation` rejects one
and the function returns at line 459. -/
def compositeSubsetLoop (E : XmlEnv) :
    List XmlNode → List SUBSET → Except XmlFault (Option (List SUBSET))
  | [], str => Except.ok (some str)
  | c :: rest, str =>
    if c.name = "subset".toList then
      match subsetTag E c with
      | Except.error e => Except.error e
      | Except.ok sub =>
        if (E.idamParseOperation sub).1 ≠ 0 then Except.ok none
        else compositeSubsetLoop E rest (str ++ [(E.idamParseOperation sub).2])
    else compositeSubsetLoop E rest str

/-- `parseCompositeSubset` (lines 399-474), called with `comp->subsets` null (line 650
follows `initComposite`).  After the return of line 459 the members of `comp` are as
they were. -/
def parseCompositeSubset (E : XmlEnv) (cur : XmlNode) (comp : COMPOSITE) :
    Except XmlFault COMPOSITE :=
  match compositeSubsetLoop E cur.children [] with
  | Except.error e => Except.error e
  | Except.ok none => Except.ok comp
  | Except.ok (some str) =>
    Except.ok { comp with nsubsets := str.length, subsets := rebuilt comp.subsets str }

/-- Lines 497-545: the dimension of one `composite_dim` tag. -/
def dimCompositeTag (E : XmlEnv) (cur : XmlNode) : DIMENSION :=
  let d0 := initDimension
  let c0 := initDimComposite
  let signal : List Char :=
    match xmlGetProp cur "dim" with
    | some att => if att.length > 0 then att else c0.dim_signal
    | none => attrValue cur "data" id c0.dim_signal
  { d0 with
    dimType := DIMCOMPOSITETYPE,
    dimid := attrValue cur "to_dim" E.atoi d0.dimid,
    u := DimensionUnion.dimcomposite
      { c0 with to_dim := attrValue cur "to_dim" E.atoi c0.to_dim,
                from_dim := attrValue cur "from_dim" E.atoi c0.from_dim,
                dim_signal := signal,
                dim_error := attrValue cur "error" id c0.dim_error,
                dim_aserror := attrValue cur "aserror" id c0.dim_aserror,
                file := attrValue cur "file" id c0.file,
                format := attrValue cur "format" id c0.format } }

/-- `parseDimComposite` (lines 482-553). -/
def parseDimComposite (E : XmlEnv) (cur : XmlNode) (comp : COMPOSITE) : COMPOSITE :=
  let str := (matchingChildren cur "composite_dim").map (dimCompositeTag E)
  { comp with ndimensions := str.length, dimensions := rebuilt comp.dimensions str }

/-- Lines 570-657: the action of one `composite` tag. -/
def compositeTag (E : XmlEnv) (cur : XmlNode) : Except XmlFault ACTION :=
  let a := rangeAttributes E cur { initAction with actionType := COMPOSITETYPE }
  let c0 := initComposite
  let c1 := { c0 with data_signal := attrValue cur "data" id c0.data_signal,
                      file := attrValue cur "file" id c0.file,
                      format := attrValue cur "format" id c0.format,
                      error_signal := attrValue cur "error" id c0.error_signal }
  let c2 := { c1 with aserror_signal := attrValue cur "aserror" id c1.aserror_signal }
  let c3 := { c2 with aserror_signal := attrValue cur "mapto" id c2.aserror_signal }
  let c4 := { c3 with order := attrValue cur "order" E.atoi c3.order }
  match parseCompositeSubset E cur (parseDimComposite E cur c4) with
  | Except.error e => Except.error e
  | Except.ok c5 =>
    let first : List Char := ((c5.subsets.getD []).head?.map SUBSET.data_signal).getD []
    let c6 := if c5.nsubsets > 0 ∧ c5.data_signal.length = 0 ∧ first.length > 0
              then { c5 with data_signal := first } else c5
    Except.ok { a with u := ActionUnion.composite c6 }

/-- Lines 701-706 and 777-782: the parameters that `parseFloatArray` has returned are
copied into the fixed array, at most `MAXERRPARAMS` of them.  Returns `param_n` and
`params`. -/
def storeParams (E : XmlEnv) (r : Option (List FloatExpr) × Int) (params : List FloatExpr) :
    Int × List FloatExpr :=
  match r.1 with
  | none => (r.2, params)
  | some value =>
    let param_n : Int := if r.2 > E.MAXERRPARAMS then E.MAXERRPARAMS else r.2
    (param_n, value.take param_n.toNat ++ params.drop param_n.toNat)

/-- Lines 682-706: the dimension of one `dimension` tag of an error model. -/
def dimErrorModelTag (E : XmlEnv) (cur : XmlNode) : Except XmlFault DIMENSION :=
  let d0 := initDimension
  let m0 := initDimErrorModel E
  match parseFloatArray E cur "params" with
  | Except.error e => Except.error e
  | Except.ok r =>
    Except.ok { d0 with
      dimType := DIMERRORMODELTYPE,
      dimid := attrValue cur "dimid" E.atoi d0.dimid,
      u := DimensionUnion.dimerrormodel
        { m0 with model := attrValue cur "model" E.atoi m0.model,
                  param_n := (storeParams E r m0.params).1,
                  params := (storeParams E r m0.params).2 } }

/-- The dimensions of the `dimension` tags of an error model, in document order. -/
def dimErrorModelTags (E : XmlEnv) : List XmlNode → Except XmlFault (List DIMENSION)
  | [] => Except.ok []
  | c :: rest =>
    match dimErrorModelTag E c with
    | Except.error e => Except.error e
    | Except.ok d =>
      match dimErrorModelTags E rest with
      | Except.error e => Except.error e
      | Except.ok ds => Except.ok (d :: ds)

/-- `parseDimErrorModel` (lines 666-714). -/
def parseDimErrorModel (E : XmlEnv) (cur : XmlNode) (mod : ERRORMODEL) :
    Except XmlFault ERRORMODEL :=
  match dimErrorModelTags E (matchingChildren cur "dimension") with
  | Except.error e => Except.error e
  | Except.ok str =>
    Except.ok { mod with ndimensions := str.length, dimensions := rebuilt mod.dimensions str }

/-- Lines 733-784: the action of one `errormodel` tag. -/
def errorModelTag (E : XmlEnv) (cur : XmlNode) : Except XmlFault ACTION :=
  let a := rangeAttributes E cur { initAction with actionType := ERRORMODELTYPE }
  let m0 := initErrorModel E
  let m1 := { m0 with model := attrValue cur "model" E.atoi m0.model }
  match parseFloatArray E cur "params" with
  | Except.error e => Except.error e
  | Except.ok r =>
    let m2 := { m1 with param_n := (storeParams E r m1.params).1,
                        params := (storeParams E r m1.params).2 }
    match parseDimErrorModel E cur m2 with
    | Except.error e => Except.error e
    | Except.ok m3 => Except.ok { a with u := ActionUnion.errormodel m3 }

/-- Lines 807-822: the dimension of one `dimension` tag of a documentation. -/
def dimDocumentationTag (E : XmlEnv) (cur : XmlNode) : DIMENSION :=
  let d0 := initDimension
  let c0 := initDimDocumentation
  { d0 with
    dimType := DIMDOCUMENTATIONTYPE,
    dimid := attrValue cur "dimid" E.atoi d0.dimid,
    u := DimensionUnion.dimdocumentation
      { c0 with label := parseTargetString cur "label" c0.label,
                units := parseTargetString cur "units" c0.units } }

/-- `parseDimDocumentation` (lines 793-829). -/
def parseDimDocumentation (E : XmlEnv) (cur : XmlNode) (document : DOCUMENTATION) :
    DOCUMENTATION :=
  let str := (matchingChildren cur "dimension").map (dimDocumentationTag E)
  { document with ndimensions := str.length, dimensions := rebuilt document.dimensions str }

/-- Lines 845-887: the action of one `documentation` tag. -/
def documentationTag (E : XmlEnv) (cur : XmlNode) : ACTION :=
  let a := rangeAttributes E cur { initAction with actionType := DOCUMENTATIONTYPE }
  let d0 := initDocumentation
  let d1 := { d0 with description := parseTargetString cur "description" d0.description,
                      label := parseTargetString cur "label" d0.label,
                      units := parseTargetString cur "units" d0.units }
  { a with u := ActionUnion.documentation (parseDimDocumentation E cur d1) }

/-- Lines 910-932: the dimension of one `dimension` tag of a calibration. -/
def dimCalibrationTag (E : XmlEnv) (cur : XmlNode) : DIMENSION :=
  let d0 := initDimension
  let c0 := initDimCalibration
  { d0 with
    dimType := DIMCALIBRATIONTYPE,
    dimid := attrValue cur "dimid" E.atoi d0.dimid,
    u := DimensionUnion.dimcalibration
      { c0 with invert := attrYes cur "invert" c0.invert,
                units := parseTargetString cur "units" c0.units,
                factor := parseTargetValue cur "factor" c0.factor,
                offset := parseTargetValue cur "offset" c0.offset } }

/-- `parseDimCalibration` (lines 896-942). -/
def parseDimCalibration (E : XmlEnv) (cur : XmlNode) (cal : CALIBRATION) : CALIBRATION :=
  let str := (matchingChildren cur "dimension").map (dimCalibrationTag E)
  { cal with ndimensions := str.length, dimensions := rebuilt cal.dimensions str }

/-- Lines 958-1016: the action of one `calibration` tag. -/
def calibrationTag (E : XmlEnv) (cur : XmlNode) : ACTION :=
  let a := rangeAttributes E cur { initAction with actionType := CALIBRATIONTYPE }
  let c0 := initCalibration
  let c1 := { c0 with target := attrValue cur "target" id c0.target,
                      invert := attrYes cur "invert" c0.invert,
                      units := parseTargetString cur "units" c0.units,
                      factor := parseTargetValue cur "factor" c0.factor,
                      offset := parseTargetValue cur "offset" c0.offset }
  { a with u := ActionUnion.calibration (parseDimCalibration E cur c1) }

/-- The locals `n` and `str` of a rule parser, with the mark of `ParseState` for the
array that `str` points to. -/
structure ActionLoop where
  n : Int
  str : Option (List ACTION)
  stale : Bool
  deriving DecidableEq, Repr

/-- The elements of the array behind a pointer, none for a null pointer. -/
def elements (str : Option (List ACTION)) : List ACTION :=
  str.getD []

/-- The statements `ACTION* str = actions->action; int n = actions->nactions;`. -/
def loadActions (s : ParseState) : ActionLoop :=
  { n := s.actions.nactions, str := s.actions.action, stale := s.stale }

/-- The statements `actions->nactions = n; actions->action = str;`. -/
def storeActions (st : ActionLoop) : ParseState :=
  { actions := { nactions := st.n, action := st.str }, stale := st.stale }

/-- The statements `n++; str = realloc(str, n * sizeof(ACTION));` followed by the
code that fills `str[n - 1]` from the tag.  Handing a stale pointer to `realloc` is
undefined; when the array holds another number of elements than `n - 1`, elements
of the new array are indeterminate. -/
def growActions (tag : XmlNode → Except XmlFault ACTION) (st : ActionLoop) (c : XmlNode) :
    Except XmlFault ActionLoop :=
  if st.stale then Except.error XmlFault.staleBlock
  else if st.n ≠ ((elements st.str).length : Int) then Except.error XmlFault.indeterminate
  else
    match tag c with
    | Except.error e => Except.error e
    | Except.ok a =>
      Except.ok { n := st.n + 1, str := some (elements st.str ++ [a]), stale := false }

/-- The loop that five rule parsers share (lines 312-393, 563-660, 726-788, 838-891,
951-1020): every child named `name` adds one action to the array. -/
def ruleLoop (name : String) (tag : XmlNode → Except XmlFault ACTION) :
    List XmlNode → ActionLoop → Except XmlFault ActionLoop
  | [], st => Except.ok st
  | c :: rest, st =>
    if c.name = name.toList then
      match growActions tag st c with
      | Except.error e => Except.error e
      | Except.ok st1 => ruleLoop name tag rest st1
    else ruleLoop name tag rest st

/-- A rule parser: load `n` and `str`, run the loop over the children of `cur`, store
`n` and `str`. -/
def ruleParser (name : String) (tag : XmlNode → Except XmlFault ACTION) (cur : XmlNode)
    (s : ParseState) : Except XmlFault ParseState :=
  match ruleLoop name tag cur.children (loadActions s) with
  | Except.error e => Except.error e
  | Except.ok st => Except.ok (storeActions st)

/-- `parseTimeOffset` (lines 304-396). -/
def parseTimeOffset (E : XmlEnv) (cur : XmlNode) (s : ParseState) : Except XmlFault ParseState :=
  ruleParser "time_offset" (fun c => Except.ok (timeOffsetTag E c)) cur s

/-- `parseComposite` (lines 555-664). -/
def parseComposite (E : XmlEnv) (cur : XmlNode) (s : ParseState) : Except XmlFault ParseState :=
  ruleParser "composite" (compositeTag E) cur s

/-- `parseErrorModel` (lines 717-791). -/
def parseErrorModel (E : XmlEnv) (cur : XmlNode) (s : ParseState) : Except XmlFault ParseState :=
  ruleParser "errormodel" (errorModelTag E) cur s

/-- `parseDocumentation` (lines 831-894). -/
def parseDocumentation (E : XmlEnv) (cur : XmlNode) (s : ParseState) :
    Except XmlFault ParseState :=
  ruleParser "documentation" (fun c => Except.ok (documentationTag E c)) cur s

/-- `parseCalibration` (lines 944-1023). -/
def parseCalibration (E : XmlEnv) (cur : XmlNode) (s : ParseState) : Except XmlFault ParseState :=
  ruleParser "calibration" (fun c => Except.ok (calibrationTag E c)) cur s

/-- Lines 1043-1096: the action of one `subset` tag, before `idamParseOperation` is
called on its subset structure. -/
def subsetActionTag (E : XmlEnv) (cur : XmlNode) : Except XmlFault ACTION :=
  let a0 := { initAction with actionType := SUBSETTYPE }
  let a := { a0 with actionId := attrValue cur "id" E.atoi a0.actionId }
  match subsetTag E cur with
  | Except.error e => Except.error e
  | Except.ok sub => Except.ok { a with u := ActionUnion.subset sub }

/-- The subset structure inside an action. -/
def subsetOf (E : XmlEnv) (a : ACTION) : SUBSET :=
  match a.u with
  | ActionUnion.subset sub => sub
  | _ => initSubset E

/-- The loop of `parseSubset` (lines 1037-1110) over the children not yet visited,
followed by lines 1112-1113.  When `idamParseOperation` rejects a subset the function
returns at line 1098: the members of `actions` are those on entry, `s`, and the
pointer among them, unless null, has been handed to `realloc`. -/
def subsetLoop (E : XmlEnv) (s : ParseState) :
    List XmlNode → ActionLoop → Except XmlFault ParseState
  | [], st => Except.ok (storeActions st)
  | c :: rest, st =>
    if c.name = "subset".toList then
      match growActions (subsetActionTag E) st c with
      | Except.error e => Except.error e
      | Except.ok st1 =>
        let last := (elements st1.str).getLast?.getD initAction
        let r := E.idamParseOperation (subsetOf E last)
        if r.1 ≠ 0 then
          Except.ok { actions := s.actions, stale := s.actions.action.isSome }
        else
          subsetLoop E s rest
            { st1 with str := some ((elements st1.str).dropLast ++
                                    [{ last with u := ActionUnion.subset r.2 }]) }
    else subsetLoop E s rest st

/-- `parseSubset` (lines 1026-1114). -/
def parseSubset (E : XmlEnv) (cur : XmlNode) (s : ParseState) : Except XmlFault ParseState :=
  subsetLoop E s cur.children (loadActions s)

/-- Lines 1157-1166: the six parsers on one `signal` element, in the order of the
calls. -/
def parseSignal (E : XmlEnv) (cur : XmlNode) (s : ParseState) : Except XmlFault ParseState :=
  match parseComposite E cur s with
  | Except.error e => Except.error e
  | Except.ok s1 =>
    match parseDocumentation E cur s1 with
    | Except.error e => Except.error e
    | Except.ok s2 =>
      match parseCalibration E cur s2 with
      | Except.error e => Except.error e
      | Except.ok s3 =>
        match parseTimeOffset E cur s3 with
        | Except.error e => Except.error e
        | Except.ok s4 =>
          match parseErrorModel E cur s4 with
          | Except.error e => Except.error e
          | Except.ok s5 => parseSubset E cur s5

/-- The loop of `parseDoc` (lines 1154-1168) over the children of the root. -/
def signalLoop (E : XmlEnv) : List XmlNode → ParseState → Except XmlFault ParseState
  | [], s => Except.ok s
  | c :: rest, s =>
    if c.name = "signal".toList then
      match parseSignal E c s with
      | Except.error e => Except.error e
      | Except.ok s1 => signalLoop E rest s1
    else signalLoop E rest s

/-- `parseDoc` (lines 1120-1179).  `doc` is the result of `xmlParseDoc` on the text,
`none` for a text that does not parse.  Returns the return code and the `ACTIONS`
argument. -/
def parseDoc (E : XmlEnv) (doc : Option XmlDoc) (s : ParseState) :
    Except XmlFault (Int × ParseState) :=
  match doc with
  | none => Except.ok (1, s)
  | some d =>
    match d.root with
    | none => Except.ok (1, s)
    | some cur =>
      if cur.name ≠ "action".toList then Except.ok (1, s)
      else
        match signalLoop E cur.children s with
        | Except.error e => Except.error e
        | Except.ok s1 => Except.ok (0, s1)

/-- A call of `free` in `freeActions`: on the `dimensions`, `subsets` or `maps` array
of the action with index `i`, or on the array of actions itself. -/
inductive XmlRelease where
  | dimensions (i : Nat)
  | subsets (i : Nat)
  | maps (i : Nat)
  | action
  deriving DecidableEq, Repr

/-- A count and an array pointer of an action as `freeActions` leaves them, with the
calls of `free` made on the way. -/
structure Freed (α : Type) where
  n : Int
  array : Option (List α)
  calls : List XmlRelease

/-- The pattern `if ((cptr = x.dimensions) != nullptr) { free(cptr); x.dimensions =
nullptr; x.ndimensions = 0; }` of lines 1505-1509, 1535-1539 and 1543-1547: the new
`ndimensions` and `dimensions` and the calls of `free`. -/
def freeDimensions (i : Nat) (ndimensions : Int) (dimensions : Option (List DIMENSION)) :
    Freed DIMENSION :=
  if dimensions ≠ none then { n := 0, array := none, calls := [XmlRelease.dimensions i] }
  else { n := ndimensions, array := dimensions, calls := [] }

/-- The pattern `if (x.n > 0) { if ((cptr = x.array) != nullptr) free(cptr); x.array =
nullptr; x.n = 0; }` of lines 1510-1519 and 1551-1560. -/
def freeCounted {α : Type} (call : XmlRelease) (n : Int) (array : Option (List α)) :
    Freed α :=
  if n > 0 then { n := 0, array := none, calls := if array.isSome then [call] else [] }
  else { n := n, array := array, calls := [] }

/-- The body of the loop of `freeActions` (lines 1500-1565) on `action[i]`: the action
as it is left and the calls of `free`.  The member of the union that the switch reads
is the one that `actionType` names; when another member has been initialised the
value read is indeterminate.  In the case `ERRORMODELTYPE` the first pass of the
inner loop that finds a pointer sets `ndimensions` to 0, which ends the loop. -/
def freeAction (i : Nat) (a : ACTION) : Except XmlFault (ACTION × List XmlRelease) :=
  if a.actionType = COMPOSITETYPE then
    match a.u with
    | ActionUnion.composite c =>
      let d := freeDimensions i c.ndimensions c.dimensions
      let s := freeCounted (XmlRelease.subsets i) c.nsubsets c.subsets
      let m := freeCounted (XmlRelease.maps i) c.nmaps c.maps
      let c1 := { c with ndimensions := d.n, dimensions := d.array, nsubsets := s.n,
                         subsets := s.array, nmaps := m.n, maps := m.array }
      Except.ok ({ a with u := ActionUnion.composite c1 }, d.calls ++ s.calls ++ m.calls)
    | _ => Except.error XmlFault.indeterminate
  else if a.actionType = ERRORMODELTYPE then
    match a.u with
    | ActionUnion.errormodel e =>
      let d := if e.ndimensions > 0 then freeDimensions i e.ndimensions e.dimensions
               else { n := e.ndimensions, array := e.dimensions, calls := [] }
      let e1 := { e with param_n := 0, ndimensions := d.n, dimensions := d.array }
      Except.ok ({ a with u := ActionUnion.errormodel e1 }, d.calls)
    | _ => Except.error XmlFault.indeterminate
  else if a.actionType = CALIBRATIONTYPE then
    match a.u with
    | ActionUnion.calibration c =>
      let d := freeDimensions i c.ndimensions c.dimensions
      let c1 := { c with ndimensions := d.n, dimensions := d.array }
      Except.ok ({ a with u := ActionUnion.calibration c1 }, d.calls)
    | _ => Except.error XmlFault.indeterminate
  else if a.actionType = DOCUMENTATIONTYPE then
    match a.u with
    | ActionUnion.documentation c =>
      let d := freeDimensions i c.ndimensions c.dimensions
      let c1 := { c with ndimensions := d.n, dimensions := d.array }
      Except.ok ({ a with u := ActionUnion.documentation c1 }, d.calls)
    | _ => Except.error XmlFault.indeterminate
  else if a.actionType = SERVERSIDETYPE then
    match a.u with
    | ActionUnion.serverside c =>
      let s := freeCounted (XmlRelease.subsets i) c.nsubsets c.subsets
      let m := freeCounted (XmlRelease.maps i) c.nmaps c.maps
      let c1 := { c with nsubsets := s.n, subsets := s.array, nmaps := m.n, maps := m.array }
      Except.ok ({ a with u := ActionUnion.serverside c1 }, s.calls ++ m.calls)
    | _ => Except.error XmlFault.indeterminate
  else Except.ok (a, [])

/-- The loop of `freeActions` (lines 1499-1566) from index `i` on: the actions as they
are left and the calls of `free`, in order. -/
def freeActionLoop : Nat → List ACTION → Except XmlFault (List ACTION × List XmlRelease)
  | _, [] => Except.ok ([], [])
  | i, a :: rest =>
    match freeAction i a with
    | Except.error e => Except.error e
    | Except.ok r =>
      match freeActionLoop (i + 1) rest with
      | Except.error e => Except.error e
      | Except.ok rs => Except.ok (r.1 :: rs.1, r.2 ++ rs.2)

/-- `freeActions` (lines 1487-1573) on a live array: the structure as it is left and
the calls of `free`.  The loop reads `action[0]` to `action[nactions - 1]`; an element
that the array does not hold is indeterminate.  The array is released after the loop,
with the actions as the loop has left them. -/
def freeActions (actions : ACTIONS) : Except XmlFault (ACTIONS × List XmlRelease) :=
  if actions.nactions = 0 then Except.ok (actions, [])
  else if actions.nactions.toNat > (elements actions.action).length then
    Except.error XmlFault.indeterminate
  else
    match freeActionLoop 0 ((elements actions.action).take actions.nactions.toNat) with
    | Except.error e => Except.error e
    | Except.ok r =>
      Except.ok ({ nactions := 0, action := none },
                 r.2 ++ (if actions.action.isSome then [XmlRelease.action] else []))

/-- `copyActions` (lines 1577-1582) on two different structures: `*actions_out` and
`*actions_in` as they are left. -/
def copyActions (_actions_out actions_in : ACTIONS) : ACTIONS × ACTIONS :=
  (actions_in, { actions_in with action := none, nactions := 0 })

/-! ## result.cpp

The accessor functions of the client library (`accAPI.h`) are inputs.  A pointer to an
object of the wrapper is `some` of the object, `none` for a null pointer; an object
records the buffer it has been built from, not the values in the buffer. -/

/-- `UDA_TYPE_UNKNOWN` of the types header. -/
def UDA_TYPE_UNKNOWN : Int := 0

/-- `UDA_TYPE_CHAR` of the types header. -/
def UDA_TYPE_CHAR : Int := 1

/-- `UDA_TYPE_SHORT` of the types header. -/
def UDA_TYPE_SHORT : Int := 2

/-- `UDA_TYPE_LONG` of the types header. -/
def UDA_TYPE_LONG : Int := 5

/-- `UDA_TYPE_FLOAT` of the types header. -/
def UDA_TYPE_FLOAT : Int := 6

/-- `UDA_TYPE_UNSIGNED_CHAR` of the types header. -/
def UDA_TYPE_UNSIGNED_CHAR : Int := 8

/-- `UDA_TYPE_UNSIGNED_SHORT` of the types header. -/
def UDA_TYPE_UNSIGNED_SHORT : Int := 9

/-- `UDA_TYPE_UNSIGNED_LONG` of the types header. -/
def UDA_TYPE_UNSIGNED_LONG : Int := 10

/-- `UDA_TYPE_LONG64` of the types header. -/
def UDA_TYPE_LONG64 : Int := 11

/-- `UDA_TYPE_UNSIGNED_LONG64` of the types header. -/
def UDA_TYPE_UNSIGNED_LONG64 : Int := 12

/-- `UDA_TYPE_COMPLEX` of the types header. -/
def UDA_TYPE_COMPLEX : Int := 13

/-- `UDA_TYPE_DCOMPLEX` of the types header. -/
def UDA_TYPE_DCOMPLEX : Int := 14

/-- The types that `typeid` is applied to in `result.cpp`. -/
inductive TypeId where
  | char
  | short
  | int
  | unsignedInt
  | long
  | float
  | double
  | unsignedChar
  | unsignedShort
  | unsignedLong
  | longLong
  | unsignedLongLong
  | complexFloat
  | complexDouble
  | charPtr
  | void
  deriving DecidableEq, Repr

/-- `idamTypeToTypeID` (lines 17-53). -/
def idamTypeToTypeID (type : Int) : TypeId :=
  if type = UDA_TYPE_CHAR then TypeId.char
  else if type = UDA_TYPE_SHORT then TypeId.short
  else if type = UDA_TYPE_INT then TypeId.int
  else if type = UDA_TYPE_UNSIGNED_INT then TypeId.unsignedInt
  else if type = UDA_TYPE_LONG then TypeId.long
  else if type = UDA_TYPE_FLOAT then TypeId.float
  else if type = UDA_TYPE_DOUBLE then TypeId.double
  else if type = UDA_TYPE_UNSIGNED_CHAR then TypeId.unsignedChar
  else if type = UDA_TYPE_UNSIGNED_SHORT then TypeId.unsignedShort
  else if type = UDA_TYPE_UNSIGNED_LONG then TypeId.unsignedLong
  else if type = UDA_TYPE_LONG64 then TypeId.longLong
  else if type = UDA_TYPE_UNSIGNED_LONG64 then TypeId.unsignedLongLong
  else if type = UDA_TYPE_COMPLEX then TypeId.complexFloat
  else if type = UDA_TYPE_DCOMPLEX then TypeId.complexDouble
  else if type = UDA_TYPE_STRING then TypeId.charPtr
  else TypeId.void

/-- The accessor functions of the client library that `result.cpp` calls, by handle
(and dimension number); a text is `none` for a null pointer. -/
structure ClientApi where
  getIdamDataType : Int → Int
  getIdamErrorType : Int → Int
  getIdamRank : Int → Int
  getIdamDataNum : Int → Int
  getIdamOrder : Int → Int
  getIdamData : Int → Option Ptr
  getIdamError : Int → Option Ptr
  getIdamDataLabel : Int → Option (List Char)
  getIdamDataUnits : Int → Option (List Char)
  getIdamDataDesc : Int → Option (List Char)
  setIdamDataTree : Int → Int
  getIdamDimType : Int → Int → Int
  getIdamDimErrorType : Int → Int → Int
  getIdamDimNum : Int → Int → Int
  getIdamDimData : Int → Int → Option Ptr
  getIdamDimError : Int → Int → Option Ptr
  getIdamDimLabel : Int → Int → Option (List Char)
  getIdamDimUnits : Int → Int → Option (List Char)

/-- The enumeration `uda::Result::DataType`. -/
inductive DataType where
  | DATA
  | ERRORS
  deriving DecidableEq, Repr

/-- The ways in which `result.cpp` leaves defined behaviour: a division by zero, a
`std::string` built from a null pointer, a read through a null pointer. -/
inductive ResultFault where
  | divisionByZero
  | nullString
  | nullPointer
  deriving DecidableEq, Repr

/-- The members of `uda::Result` that the constructor sets from the handle (the map
of meta data apart); `dim_type` is `unsigned int`, `size_` is a `size_t` of 64 bits. -/
structure Result where
  handle_ : Int
  label_ : List Char
  units_ : List Char
  desc_ : List Char
  type_ : TypeId
  uda_type_ : Int
  rank_ : Nat
  size_ : Nat
  istree_ : Bool
  deriving DecidableEq, Repr

/-- The initialiser `text_(handle >= 0 ? accessor(handle) : "")` of a `std::string`
member. -/
def textMember (handle : Int) (text : Option (List Char)) : Except ResultFault (List Char) :=
  if handle ≥ 0 then
    match text with
    | some t => Except.ok t
    | none => Except.error ResultFault.nullString
  else Except.ok []

/-- The constructor `uda::Result::Result(int handle)` (lines 66-90). -/
def newResult (C : ClientApi) (handle : Int) : Except ResultFault Result :=
  match textMember handle (C.getIdamDataLabel handle) with
  | Except.error e => Except.error e
  | Except.ok label =>
    match textMember handle (C.getIdamDataUnits handle) with
    | Except.error e => Except.error e
    | Except.ok units =>
      match textMember handle (C.getIdamDataDesc handle) with
      | Except.error e => Except.error e
      | Except.ok desc =>
        Except.ok
          { handle_ := handle, label_ := label, units_ := units, desc_ := desc,
            type_ := if handle ≥ 0 then idamTypeToTypeID (C.getIdamDataType handle)
                     else TypeId.void,
            uda_type_ := if handle ≥ 0 then C.getIdamDataType handle else UDA_TYPE_UNKNOWN,
            rank_ := if handle ≥ 0 then toUInt32 (C.getIdamRank handle) else 0,
            size_ := if handle ≥ 0 then (C.getIdamDataNum handle % 2 ^ 64).toNat else 0,
            istree_ := decide (C.setIdamDataTree handle ≠ 0) }

/-- An object of class `uda::Dim`: `Dim::Null`, or a dimension built from its number,
the buffer of element type `type`, its size, label and units. -/
inductive Dim where
  | Null
  | mk (num : Nat) (type : TypeId) (data : Option Ptr) (size : Nat) (label units : List Char)
  deriving DecidableEq, Repr

/-- The template `getDim<T>` (lines 110-126), with `type` the `typeid` of `T`. -/
def getDim (C : ClientApi) (type : TypeId) (handle : Int) (num : Nat) (data_type : DataType) :
    Except ResultFault Dim :=
  match C.getIdamDimLabel handle (toInt32 num), C.getIdamDimUnits handle (toInt32 num) with
  | some label, some units =>
    let size := (C.getIdamDimNum handle (toInt32 num) % 2 ^ 64).toNat
    if data_type = DataType.DATA then
      Except.ok (Dim.mk num type (C.getIdamDimData handle (toInt32 num)) size label units)
    else
      Except.ok (Dim.mk num type (C.getIdamDimError handle (toInt32 num)) size
        (label ++ " error".toList) units)
  | _, _ => Except.error ResultFault.nullString

/-- `uda::Result::dim` (lines 142-181). -/
def Result.dim (C : ClientApi) (r : Result) (num : Nat) (data_type : DataType) :
    Except ResultFault Dim :=
  let type := if data_type = DataType.DATA then C.getIdamDimType r.handle_ (toInt32 num)
              else C.getIdamDimErrorType r.handle_ (toInt32 num)
  if type = UDA_TYPE_CHAR then getDim C TypeId.char r.handle_ num data_type
  else if type = UDA_TYPE_SHORT then getDim C TypeId.short r.handle_ num data_type
  else if type = UDA_TYPE_INT then getDim C TypeId.int r.handle_ num data_type
  else if type = UDA_TYPE_UNSIGNED_INT then getDim C TypeId.unsignedInt r.handle_ num data_type
  else if type = UDA_TYPE_LONG then getDim C TypeId.long r.handle_ num data_type
  else if type = UDA_TYPE_FLOAT then getDim C TypeId.float r.handle_ num data_type
  else if type = UDA_TYPE_DOUBLE then getDim C TypeId.double r.handle_ num data_type
  else if type = UDA_TYPE_UNSIGNED_CHAR then getDim C TypeId.unsignedChar r.handle_ num data_type
  else if type = UDA_TYPE_UNSIGNED_SHORT then
    getDim C TypeId.unsignedShort r.handle_ num data_type
  else if type = UDA_TYPE_UNSIGNED_LONG then getDim C TypeId.unsignedLong r.handle_ num data_type
  else if type = UDA_TYPE_LONG64 then getDim C TypeId.longLong r.handle_ num data_type
  else if type = UDA_TYPE_UNSIGNED_LONG64 then
    getDim C TypeId.unsignedLongLong r.handle_ num data_type
  else Except.ok Dim.Null

/-- `uda::Result::hasTimeDim` (lines 128-131). -/
def Result.hasTimeDim (C : ClientApi) (r : Result) : Bool :=
  decide (C.getIdamOrder r.handle_ ≥ 0)

/-- `uda::Result::timeDim` (lines 133-140). -/
def Result.timeDim (C : ClientApi) (r : Result) (data_type : DataType) :
    Except ResultFault Dim :=
  let order := C.getIdamOrder r.handle_
  if order ≥ 0 then r.dim C (toUInt32 order) data_type
  else Except.ok Dim.Null

/-- An object of a class derived from `uda::Data`, with the buffer and the sizes it
has been built from; `Null` is the static object `Array::Null`. -/
inductive Data where
  | Scalar (type : TypeId) (data : Ptr)
  | Vector (type : TypeId) (data : Option Ptr) (size : Nat)
  | Array (type : TypeId) (data : Option Ptr) (result : Result)
  | String (data : Option Ptr)
  | StringArray (data : Option Ptr) (str_len arr_len : Nat) (dims : List Dim)
  | Null
  deriving DecidableEq, Repr

/-- The template `getDataAs<T>` (lines 183-201), with `type` the `typeid` of `T`; a
scalar is built from `data[0]`. -/
def getDataAs (C : ClientApi) (type : TypeId) (handle : Int) (data_type : DataType)
    (result : Result) : Except ResultFault Data :=
  let data := if data_type = DataType.DATA then C.getIdamData handle else C.getIdamError handle
  if C.getIdamRank handle = 0 then
    if C.getIdamDataNum handle > 1 then
      Except.ok (Data.Vector type data (C.getIdamDataNum handle % 2 ^ 64).toNat)
    else
      match data with
      | some p => Except.ok (Data.Scalar type p)
      | none => Except.error ResultFault.nullPointer
  else Except.ok (Data.Array type data result)

/-- `getDataAsString` (lines 203-208). -/
def getDataAsString (C : ClientApi) (handle : Int) : Data :=
  Data.String (C.getIdamData handle)

/-- `getDataAsStringArray` (lines 210-237): the strings of length `str_len` in the
data buffer, with the dimensions from 1 on.  A first dimension of length 0 is a
division by zero. -/
def getDataAsStringArray (C : ClientApi) (handle : Int) : Except ResultFault Data :=
  let str_len := (C.getIdamDimNum handle 0 % 2 ^ 64).toNat
  if str_len = 0 then Except.error ResultFault.divisionByZero
  else
    let arr_len := (C.getIdamDataNum handle % 2 ^ 64).toNat / str_len
    let rank := toUInt32 (C.getIdamRank handle)
    let dims := ((List.range rank).drop 1).map (fun dim_n =>
      Dim.mk dim_n TypeId.char (C.getIdamDimData handle (toInt32 dim_n))
        (C.getIdamDimNum handle (toInt32 dim_n) % 2 ^ 64).toNat
        ((C.getIdamDimLabel handle (toInt32 dim_n)).getD [])
        ((C.getIdamDimUnits handle (toInt32 dim_n)).getD []))
    Except.ok (Data.StringArray (C.getIdamData handle) str_len arr_len dims)

/-- The statement `return getDataAs<T>(handle_, DATA, this);`. -/
def returnDataAs (C : ClientApi) (type : TypeId) (r : Result) :
    Except ResultFault (Option Data) :=
  match getDataAs C type r.handle_ DataType.DATA r with
  | Except.ok d => Except.ok (some d)
  | Except.error e => Except.error e

/-- `uda::Result::data` (lines 239-279): the pointer returned. -/
def Result.data (C : ClientApi) (r : Result) : Except ResultFault (Option Data) :=
  let rank := toUInt32 (C.getIdamRank r.handle_)
  let type := C.getIdamDataType r.handle_
  if type = UDA_TYPE_CHAR then returnDataAs C TypeId.char r
  else if type = UDA_TYPE_SHORT then returnDataAs C TypeId.short r
  else if type = UDA_TYPE_INT then returnDataAs C TypeId.int r
  else if type = UDA_TYPE_UNSIGNED_INT then returnDataAs C TypeId.unsignedInt r
  else if type = UDA_TYPE_LONG then returnDataAs C TypeId.long r
  else if type = UDA_TYPE_FLOAT then returnDataAs C TypeId.float r
  else if type = UDA_TYPE_DOUBLE then returnDataAs C TypeId.double r
  else if type = UDA_TYPE_UNSIGNED_CHAR then returnDataAs C TypeId.unsignedChar r
  else if type = UDA_TYPE_UNSIGNED_SHORT then returnDataAs C TypeId.unsignedShort r
  else if type = UDA_TYPE_UNSIGNED_LONG then returnDataAs C TypeId.unsignedLong r
  else if type = UDA_TYPE_LONG64 then returnDataAs C TypeId.longLong r
  else if type = UDA_TYPE_UNSIGNED_LONG64 then returnDataAs C TypeId.unsignedLongLong r
  else if type = UDA_TYPE_STRING then
    if rank = 1 ∨ rank = 0 then Except.ok (some (getDataAsString C r.handle_))
    else
      match getDataAsStringArray C r.handle_ with
      | Except.ok d => Except.ok (some d)
      | Except.error e => Except.error e
  else Except.ok (some Data.Null)

/-! ## Readin.c

The socket is an input: the outcome of each call of `select` and of `read`, in the
order of the calls.  The error stack is the list of the entries that `addIdamError`
has added. -/

/-- The outcome of a system call: the value returned and the value that the call
stores in `errno`, `none` when it leaves `errno` as it is. -/
structure SysCall where
  ret : Int
  errno : Option Int

/-- An entry of the error stack, as `addIdamError` is called: the type of the error,
the location, the code and the message. -/
structure IdamError where
  type : Int
  location : String
  code : Int
  msg : String
  deriving DecidableEq, Repr

/-- The constants of the headers that `idamClientReadin` uses, and the outcomes of the
calls of `select` and `read` on the client socket, numbered from 0. -/
structure SocketEnv where
  MAXLOOP : Int
  EINTR : Int
  SYSTEMERRORTYPE : Int
  CODEERRORTYPE : Int
  select : Nat → SysCall
  read : Nat → SysCall

/-- The loop of lines 35-37, `while (select(...) <= 0 && maxloop++ < MAXLOOP)`, before
the call of `select` number `maxloop`: the value of `errno` after the loop. -/
def selectLoop (S : SocketEnv) : Nat → Nat → Int → Int
  | 0, _, errno => errno
  | fuel + 1, maxloop, errno =>
    let c := S.select maxloop
    let errno1 := c.errno.getD errno
    if c.ret ≤ 0 ∧ (maxloop : Int) < S.MAXLOOP then selectLoop S fuel (maxloop + 1) errno1
    else errno1

/-- The loop of line 42, `while (((rc = read(...)) == -1) && (errno == EINTR)) {}`,
before the call of `read` number `k`: `rc` and `errno` after the loop, `none` when
`fuel` calls have all been interrupted. -/
def readLoop (S : SocketEnv) : Nat → Nat → Int → Option (Int × Int)
  | 0, _, _ => none
  | fuel + 1, k, errno =>
    let c := S.read k
    let errno1 := c.errno.getD errno
    if c.ret = -1 ∧ errno1 = S.EINTR then readLoop S fuel (k + 1) errno1
    else some (c.ret, errno1)

/-- `idamClientReadin` (lines 21-63, the branch without `_WIN32`): the value returned
and the error stack, `none` when the first `fuel` calls of `read` have all been
interrupted.  The first loop ends after at most `MAXLOOP + 1` calls of `select`. -/
def idamClientReadin (S : SocketEnv) (fuel : Nat) (idamerrorstack : List IdamError) :
    Option (Int × List IdamError) :=
  let errno0 := selectLoop S (S.MAXLOOP.toNat + 1) 0 0
  match readLoop S fuel 0 errno0 with
  | none => none
  | some (rc, serrno) =>
    if rc = 0 then
      let rc1 : Int := -1
      let stack1 :=
        if serrno ≠ 0 ∧ serrno ≠ S.EINTR then
          idamerrorstack ++ [{ type := S.SYSTEMERRORTYPE, location := "idamClientReadin",
                               code := rc1, msg := "" }]
        else idamerrorstack
      some (rc1, stack1 ++ [{ type := S.CODEERRORTYPE, location := "idamClientReadin",
                              code := rc1,
                              msg := "No Data waiting at Socket when Data Expected!" }])
    else some (rc, idamerrorstack)

/-! ## exp2imas_plugin.c

A character buffer is the list of its characters, the terminator among them.  The
calls into libxml2, the XPath evaluation of the mapping files and the MDS+ server are
inputs. -/

/-- The terminator of a C string. -/
def NUL : Char := Char.ofNat 0

/-- The single quote. -/
def QUOTE : Char := Char.ofNat 39

/-- `strlen`: the number of characters before the first terminator. -/
def strlen (buf : List Char) : Nat :=
  (buf.takeWhile (fun c => c != NUL)).length

/-- The text that a buffer holds: the characters before the first terminator. -/
def cstring (buf : List Char) : List Char :=
  buf.takeWhile (fun c => c != NUL)

/-- The loop of `deblank` (lines 482-488) before the test `i < strlen(input)`; `output`
and `input` are the same buffer.  The `j--` of the second branch and the `j++` of the
loop header leave `j` as it was.  Returns `j` and the buffer.  Each pass adds one to
`i`, so that the length of the buffer is fuel enough. -/
def deblankLoop : Nat → Nat → Nat → List Char → Nat × List Char
  | 0, _, j, buf => (j, buf)
  | fuel + 1, i, j, buf =>
    if i < strlen buf then
      let c := buf.getD i NUL
      if c ≠ ' ' ∧ c ≠ QUOTE then deblankLoop fuel (i + 1) (j + 1) (buf.set j c)
      else deblankLoop fuel (i + 1) j buf
    else (j, buf)

/-- `deblank` (lines 478-491): the buffer as it is left; the pointer returned is that
of the argument. -/
def deblank (input : List Char) : List Char :=
  let r := deblankLoop input.length 0 0 input
  r.2.set r.1 NUL

/-- The values of `enum MAPPING_TYPE` (line 18). -/
def NONE : Int := 0

/-- The mapping type `CONSTANT`. -/
def CONSTANT : Int := 1

/-- The mapping type `STATIC`. -/
def STATIC : Int := 2

/-- The mapping type `DYNAMIC`. -/
def DYNAMIC : Int := 3

/-- What the calls of libxml2 in `getMappingValue` report for a mapping file and a
request: whether `xmlParseFile` and `xmlXPathNewContext` succeed; for each of the two
XPath requests (the value and the type of the mapping) whether the evaluation
succeeds and the content of the first node found, copied by `xmlStrdup` or `strdup`
(the outer `none` when no node is found, the inner `none` for a null pointer). -/
structure MappingFile where
  parsed : Bool
  context : Bool
  valueEvaluated : Bool
  value : Option (Option (List Char))
  typeEvaluated : Bool
  type_str : Option (Option (List Char))

/-- What `getMappingValue` returns: the pointer returned, `*request_type` (`none` when
the function has not written it) and the entries added to the error stack. -/
structure MappingValue where
  value : Option (List Char)
  request_type : Option Int
  errors : List IdamError

/-- `getMappingValue` (lines 369-476).  `CODEERRORTYPE` is the constant of the header
`errorLog.h`. -/
def getMappingValue (CODEERRORTYPE : Int) (m : MappingFile) : MappingValue :=
  let error := fun (code : Int) (msg : String) =>
    ({ type := CODEERRORTYPE, location := "getMappingValue", code := code, msg := msg }
      : IdamError)
  if m.parsed = false then
    { value := none, request_type := none, errors := [error 999 "unable to parse file"] }
  else if m.context = false then
    { value := none, request_type := none,
      errors := [error 999 "unable to create new XPath context"] }
  else if m.valueEvaluated = false then
    { value := none, request_type := none,
      errors := [error 999 "unable to evaluate xpath expression"] }
  else
    let none998 := error 998 "no result on XPath request, no key attribute defined?"
    let value : Option (List Char) := m.value.getD none
    let errors1 := if m.value.isSome then [] else [none998]
    if m.typeEvaluated = false then
      { value := none, request_type := none,
        errors := errors1 ++ [error 999 "unable to evaluate xpath expression"] }
    else
      let type_str : Option (List Char) := m.type_str.getD none
      let errors2 := if m.type_str.isSome then errors1 else errors1 ++ [none998]
      match type_str with
      | none => { value := value, request_type := some NONE, errors := errors2 }
      | some t =>
        if STR_IEQUALS t "constant".toList then
          { value := value, request_type := some CONSTANT, errors := errors2 }
        else if STR_IEQUALS t "dynamic".toList then
          { value := value, request_type := some DYNAMIC, errors := errors2 }
        else if STR_IEQUALS t "static".toList then
          { value := value, request_type := some STATIC, errors := errors2 }
        else
          { value := none, request_type := none,
            errors := errors2 ++ [error 999 "unknown mapping type"] }

/-- The type codes of the header `udaTypes.h` that `do_read` tests, and the error type
of `errorLog.h`. -/
structure PluginEnv where
  TYPE_DOUBLE : Int
  TYPE_FLOAT : Int
  TYPE_LONG : Int
  TYPE_INT : Int
  TYPE_SHORT : Int
  TYPE_STRING : Int
  CODEERRORTYPE : Int

/-- What `execute_xpath_expression` reports: its return value, the type and the item
size of the data, and the data as far as `do_read` reads them: the number of items
of a numeric array, the strings of a string array. -/
structure XPathData where
  status : Int
  data_type : Int
  size : Int
  count : Nat
  strings : List (List Char)

/-- The request of `do_read` and the outcomes of the calls it makes.  `required` is
`none` when the four macros `FIND_REQUIRED_...` of the header `udaPlugin.h` find their
arguments, and otherwise the value that the first failing macro returns with the
entries it adds to the error stack; `index0` is `indices[0]`; `mds_status` and
`mds_len` are what `mds_get` returns and stores in `len`. -/
structure ReadRequest where
  required : Option (Int × List IdamError)
  element : List Char
  index0 : Int
  mapping : MappingFile
  xpath : XPathData
  mds_status : Int
  mds_len : Int

/-- What `do_read` has stored in the data block when it returns: nothing; the item
`index` of a numeric array through `setReturnData...Scalar`; a string through
`setReturnDataString`; or the `data_n` values of a signal of the MDS+ server, the
time vector itself (`time`) or the data from item `offset` on. -/
inductive Returned where
  | nothing
  | scalar (data_type : Int) (index : Int)
  | text (s : List Char)
  | signal (data_n : Int) (time : Bool) (offset : Int)
  deriving DecidableEq, Repr

/-- The ways in which `do_read` leaves defined behaviour: an item read outside the
array, a division by zero. -/
inductive PluginFault where
  | outOfRange
  | divisionByZero
  deriving DecidableEq, Repr

/-- What `do_read` returns: the return value, the entries added to the error stack and
the contents of the data block. -/
structure ReadResult where
  rc : Int
  errors : List IdamError
  block : Returned
  deriving DecidableEq, Repr

/-- The item that lines 225-229 (and the like) pass on: `indices[0] - 1` when
`indices[0] > 0`, item 0 otherwise. -/
def itemIndex (index0 : Int) : Int :=
  if index0 > 0 then index0 - 1 else 0

/-- `do_read` (lines 167-347). -/
def do_read (P : PluginEnv) (q : ReadRequest) : Except PluginFault ReadResult :=
  match q.required with
  | some r => Except.ok { rc := r.1, errors := r.2, block := Returned.nothing }
  | none =>
    let mv := getMappingValue P.CODEERRORTYPE q.mapping
    match mv.value with
    | none => Except.ok { rc := -1, errors := mv.errors, block := Returned.nothing }
    | some _ =>
      let unsupported : IdamError :=
        { type := P.CODEERRORTYPE, location := "do_read", code := 999,
          msg := "Unsupported data type" }
      if mv.request_type = some STATIC then
        if q.xpath.status ≠ 0 then
          Except.ok { rc := q.xpath.status, errors := mv.errors, block := Returned.nothing }
        else if q.xpath.data_type = P.TYPE_DOUBLE ∨ q.xpath.data_type = P.TYPE_FLOAT ∨
            q.xpath.data_type = P.TYPE_LONG ∨ q.xpath.data_type = P.TYPE_INT ∨
            q.xpath.data_type = P.TYPE_SHORT then
          if (itemIndex q.index0).toNat < q.xpath.count then
            Except.ok { rc := 0, errors := mv.errors,
                        block := Returned.scalar q.xpath.data_type (itemIndex q.index0) }
          else Except.error PluginFault.outOfRange
        else if q.xpath.data_type = P.TYPE_STRING then
          match q.xpath.strings.get? (itemIndex q.index0).toNat with
          | some s =>
            Except.ok { rc := 0, errors := mv.errors,
                        block := Returned.text (cstring (deblank (cstring s ++ [NUL]))) }
          | none => Except.error PluginFault.outOfRange
        else
          Except.ok { rc := 0, errors := mv.errors ++ [unsupported],
                      block := Returned.nothing }
      else
        if q.xpath.status ≠ 0 then
          Except.ok { rc := q.xpath.status, errors := mv.errors, block := Returned.nothing }
        else if q.xpath.data_type = P.TYPE_STRING then
          if q.xpath.strings.length = 0 then Except.error PluginFault.outOfRange
          else if q.mds_status ≠ 0 then
            Except.ok { rc := q.mds_status, errors := mv.errors, block := Returned.nothing }
          else if q.xpath.size = 0 then Except.error PluginFault.divisionByZero
          else
            let data_n := Int.tdiv q.mds_len q.xpath.size
            if "/time".toList.isSuffixOf q.element then
              Except.ok { rc := 0, errors := mv.errors,
                          block := Returned.signal data_n true 0 }
            else
              Except.ok { rc := 0, errors := mv.errors,
                          block := Returned.signal data_n false (itemIndex q.index0 * data_n) }
        else
          Except.ok { rc := 0, errors := mv.errors ++ [unsupported],
                      block := Returned.nothing }

/-! ## readIda2.c

A character array of the stack is the text it holds; a copy whose text and terminator
do not fit the array is an `IdaFault`.  The IDA library and the helpers of other files
are inputs. -/

/-- The error codes of `idamErrors.h` (lines 130-134). -/
def IDA_CLIENT_FILE_NAME_TOO_LONG : Int := 100

/-- The code for a signal name that is too long. -/
def IDA_CLIENT_SIGNAL_NAME_TOO_LONG : Int := 101

/-- The code for a file that cannot be opened. -/
def IDA_ERROR_OPENING_FILE : Int := 102

/-- The code for data that cannot be read. -/
def IDA_ERROR_READING_DATA : Int := 104

/-- A write past the end of a character array of `readIda3Plugin`. -/
inductive IdaFault where
  | overflow (array : String)
  deriving DecidableEq, Repr

/-- `strcpy(dest, src)` into an array of `size` characters: the text that the array
holds afterwards. -/
def strcpyInto (array : String) (size : Nat) (src : List Char) : Except IdaFault (List Char) :=
  if src.length + 1 ≤ size then Except.ok src else Except.error (IdaFault.overflow array)

/-- The members of `DATA_SOURCE` that `readIda3Plugin` reads. -/
structure DATA_SOURCE where
  exp_number : Int
  pass : Int
  type : Char
  source_alias : List Char
  filename : List Char
  path : List Char

/-- The sizes of the headers (`IDA_FSIZE`, `IDA_LSIZE` of `ida3.h`, `STRING_LENGTH`),
the error types, the helpers of other files (`TrimString`, `strlwr`, `nameIDA`,
`mastArchiveFilePath`) and the outcomes of the calls of the IDA library: whether
`ida_open` returns a file, the `errno` it leaves, the message of `ida_error_mess`, and
the values returned by `readIdaItem` and `ida_close`. -/
structure IdaEnv where
  IDA_FSIZE : Nat
  IDA_LSIZE : Nat
  STRING_LENGTH : Nat
  SYSTEMERRORTYPE : Int
  CODEERRORTYPE : Int
  TrimString : List Char → List Char
  strlwr : List Char → List Char
  nameIDA : List Char → Int → List Char
  mastArchiveFilePath : Int → Int → List Char → List Char
  opened : Bool
  open_errno : Int
  ida_errmsg : String
  readIdaItem : Int
  ida_close : Int

/-- What `readIda3Plugin` returns: `err`, the entries added to the error stack, and the
texts of `ida_file`, `ida_signal` and `ida_path` at the end. -/
structure IdaResult where
  err : Int
  errors : List IdamError
  ida_file : List Char
  ida_signal : List Char
  ida_path : List Char
  deriving DecidableEq, Repr

/-- The local arrays `ida_file`, `ida_signal` and `ida_path`. -/
structure IdaNames where
  ida_file : List Char
  ida_signal : List Char
  ida_path : List Char

/-- Lines 80-131: the names before the error trap loop, and the local copy of the data
source with its alias and file name trimmed and in lower case. -/
def idaSource (E : IdaEnv) (data_source : DATA_SOURCE) (signal_name : List Char) :
    Except IdaFault (DATA_SOURCE × IdaNames) :=
  let pulno := data_source.exp_number
  let pass := data_source.pass
  if pulno > 0 then
    let alias0 := if data_source.source_alias.length = 0 then signal_name.take 3
                  else data_source.source_alias
    let source_alias := E.strlwr (E.TrimString alias0)
    let filename := E.strlwr (E.TrimString data_source.filename)
    let ds := { data_source with source_alias := source_alias, filename := filename }
    let file := if STR_IEQUALS filename source_alias then
                  strcpyInto "ida_file" (E.IDA_FSIZE + 1) (E.nameIDA source_alias pulno)
                else strcpyInto "ida_file" (E.IDA_FSIZE + 1) filename
    match file with
    | Except.error e => Except.error e
    | Except.ok ida_file =>
      let path := if data_source.path.length = 0 then
                    strcpyInto "ida_path" E.STRING_LENGTH
                      (if data_source.type = 'R' then E.mastArchiveFilePath pulno (-1) ida_file
                       else E.mastArchiveFilePath pulno pass ida_file)
                  else strcpyInto "ida_path" E.STRING_LENGTH data_source.path
      match path with
      | Except.error e => Except.error e
      | Except.ok ida_path =>
        Except.ok (ds, { ida_file := ida_file, ida_signal := [], ida_path := ida_path })
  else
    match strcpyInto "ida_path" E.STRING_LENGTH data_source.path with
    | Except.error e => Except.error e
    | Except.ok ida_path =>
      Except.ok (data_source, { ida_file := [], ida_signal := [], ida_path := ida_path })

/-- The error trap loop (lines 145-217): `err`, the entries added to the error stack
and the names. -/
def idaTrap (E : IdaEnv) (ds : DATA_SOURCE) (signal_name : List Char) (n : IdaNames) :
    Except IdaFault (Int × List IdamError × IdaNames) :=
  let error := fun (type code : Int) (msg : String) =>
    ({ type := type, location := "readIDA2", code := code, msg := msg } : IdamError)
  if ds.filename.length ≤ E.IDA_FSIZE + 1 ∨ ds.exp_number < 0 then
    match strcpyInto "ida_file" (E.IDA_FSIZE + 1) ds.filename with
    | Except.error e => Except.error e
    | Except.ok ida_file =>
      let n1 := { n with ida_file := ida_file }
      if signal_name.length ≤ E.IDA_LSIZE + 1 then
        match strcpyInto "ida_signal" (E.IDA_LSIZE + 1) signal_name with
        | Except.error e => Except.error e
        | Except.ok ida_signal =>
          let n2 := { n1 with ida_signal := ida_signal }
          if E.opened = false ∨ E.open_errno ≠ 0 then
            Except.ok (IDA_ERROR_OPENING_FILE,
              (if E.open_errno ≠ 0 then [error E.SYSTEMERRORTYPE E.open_errno ""] else []) ++
                [error E.CODEERRORTYPE IDA_ERROR_OPENING_FILE E.ida_errmsg], n2)
          else if E.readIdaItem ≠ 0 then
            Except.ok (IDA_ERROR_READING_DATA,
              [error E.CODEERRORTYPE IDA_ERROR_READING_DATA "Unable to Read IDA Data Item"], n2)
          else Except.ok (0, [], n2)
      else
        Except.ok (IDA_CLIENT_SIGNAL_NAME_TOO_LONG,
          [error E.CODEERRORTYPE IDA_CLIENT_SIGNAL_NAME_TOO_LONG
            "IDA Signalname Length is too Long"], n1)
  else
    Except.ok (IDA_CLIENT_FILE_NAME_TOO_LONG,
      [error E.CODEERRORTYPE IDA_CLIENT_FILE_NAME_TOO_LONG "IDA Filename Length is too Long"],
      n)

/-- `readIda3Plugin` (lines 53-238, without `FILELISTTEST`). -/
def readIda3Plugin (E : IdaEnv) (data_source : DATA_SOURCE) (signal_name : List Char) :
    Except IdaFault IdaResult :=
  match idaSource E data_source signal_name with
  | Except.error e => Except.error e
  | Except.ok (ds, n) =>
    match idaTrap E ds signal_name n with
    | Except.error e => Except.error e
    | Except.ok (err, errors, n1) =>
      let closing :=
        if E.ida_close ≠ 0 then
          [({ type := E.CODEERRORTYPE, location := "readIDA2", code := 1,
              msg := "Problem Closing IDA File" } : IdamError),
           { type := E.CODEERRORTYPE, location := "readIDA2", code := 1,
             msg := E.ida_errmsg }]
        else []
      Except.ok { err := err, errors := errors ++ closing, ida_file := n1.ida_file,
                  ida_signal := n1.ida_signal, ida_path := n1.ida_path }

/-! ## Sample inputs and predicates of the statements -/

/-- The heap addresses held by one dimension. -/
def dimPtrs (d : DIMS) : List Ptr :=
  d.dim.toList ++ d.errhi.toList ++ d.errlo.toList ++
  (d.sams.map IntArray.addr).toList ++ d.offs.toList ++ d.ints.toList

/-- The addresses of the registry and ledger objects behind the two globals. -/
def registryPtrs (g : Globals) : List Ptr :=
  (g.userdefinedtypelist.map USERDEFINEDTYPELIST.addr).toList ++ g.logmalloclist.toList

/-- The heap addresses that a block holds apart from its data pointer and its opaque
block: error arrays, the buffers of the first rank dimensions, the dimension array. -/
def bufferPtrs (b : DATA_BLOCK) : List Ptr :=
  b.errhi.toList ++ b.errlo.toList ++
  (match b.dims with
   | some a => ((a.elems.take b.rank).map dimPtrs).flatten ++ [a.addr]
   | none => [])

/-- All heap addresses that `freeDataBlock` can pass to `free` for a structures block
apart from the data pointer. -/
def ownedPtrs (g : Globals) (b : DATA_BLOCK) : List Ptr :=
  registryPtrs g ++ bufferPtrs b

/-- The invariant of the order field: no time axis, or the index of a dimension. -/
def orderValid (b : DATA_BLOCK) : Prop :=
  b.order = -1 ∨ (0 ≤ b.order ∧ b.order < (b.rank : Int))

/-- A block with every pointer and count set, of the given opaque payload type:
rank 1, one dimension with its six buffers, data at 10, error arrays at 11 and 12,
the opaque block at 7 with opaque_count 3. -/
def sampleBlock (opaque_type : Int) : DATA_BLOCK :=
  { handle := 5, errcode := 0, rank := 1, order := 0, data_type := 6, error_type := 6,
    data_n := 4, error_param_n := 2, opaque_type := opaque_type, opaque_count := 3,
    opaque_block := some 7, data := some 10, errhi := some 11, errlo := some 12,
    dims := some { addr := 20,
                   elems := [{ data_type := 6, error_type := 6, dim_n := 4, compressed := 0,
                               dim0 := 0, diff := 0, method := 0, udoms := 0,
                               sams := some { addr := 24, vals := [4] },
                               offs := some 25, ints := some 26, dim := some 21,
                               errhi := some 22, errlo := some 23 }] } }

/-- Globals with a type registry at 30 (no entries) and an allocation ledger at 31. -/
def sampleGlobals : Globals :=
  { userdefinedtypelist := some { addr := 30, userdefinedtype := [] },
    logmalloclist := some 31 }

/-- Modelled from the spec: the size and alignment table of the atomic types (1, 2, 4
or 8 bytes keyed by type name, 8 for a pointer `*`, 0 for an unknown name); the
library functions `getsizeof` and `getalignmentof` are not part of the sources at
hand. -/
def atomicSize (t : List Char) : Int :=
  if t = "char".toList ∨ t = "unsigned char".toList then 1
  else if t = "short".toList ∨ t = "unsigned short".toList then 2
  else if t = "int".toList ∨ t = "unsigned int".toList ∨ t = "float".toList then 4
  else if t = "double".toList ∨ t = "long".toList ∨ t = "*".toList then 8
  else 0

/-- The value of a string of decimal digits. -/
def decimalValue (s : List Char) : Int :=
  s.foldl (fun v c => 10 * v + ((c.toNat - 48 : Nat) : Int)) 0

/-- Modelled from the spec: a 64-bit platform for the helpers that are not part of
the sources at hand.  Padding brings an offset up to the next multiple of the
alignment of the type, `newoffset` is the padded offset, a number is a non-empty
string of digits, and the trim functions remove blanks. -/
def sampleEnv : LayoutEnv :=
  { getsizeof := atomicSize,
    getalignmentof := atomicSize,
    gettypeof := fun _ => 0,
    padding := fun x t => (atomicSize t - x % atomicSize t) % atomicSize t,
    newoffset := fun x t => x + (atomicSize t - x % atomicSize t) % atomicSize t,
    sizeofPointer := 8,
    IsNumber := fun s => decide (s ≠ []) && s.all Char.isDigit,
    atoi := decimalValue,
    LeftTrimString := fun s => s.dropWhile (fun c => c == ' '),
    TrimString := fun s => (s.reverse.dropWhile (fun c => c == ' ')).reverse }

/-- No aliases and no `#define` values. -/
def noAliases : AliasTables :=
  { typeEnum := [], typeDefs := [], typeDefPtr := fun _ => 0, typeStrs := [],
    typeStrPtr := fun _ => 0, defs := [] }

/-- The tables after the lines `typedef int A;`, `typedef A B;`, `typedef B C;`. -/
def chainAliases : AliasTables :=
  ["typedef int A;".toList, "typedef A B;".toList, "typedef B C;".toList].foldl
    (parseTypedef sampleEnv) noAliases

/-- The tables after the lines `typedef int A;`, `typedef A B;`. -/
def pairAliases : AliasTables :=
  ["typedef int A;".toList, "typedef A B;".toList].foldl (parseTypedef sampleEnv) noAliases

/-- A structure element with type text `t` and name text `n`. -/
def decl (t n : String) : FieldDecl :=
  { type := t.toList, item := n.toList, desc := [] }

/-- An empty type registry at address 30. -/
def emptyRegistry : USERDEFINEDTYPELIST :=
  { addr := 30, userdefinedtype := [] }

/-- The elements `char a; int b[3]; double *c; double d;`. -/
def sampleDecls : List FieldDecl :=
  [decl "char" "a", decl "int" "b[3]", decl "double" "*c", decl "double" "d"]

/-- The registry after the structure `AAA` with the elements `sampleDecls` has been
parsed out of `sample.h` on the sample platform. -/
def sampleRegistered : USERDEFINEDTYPELIST :=
  match parseStructure sampleEnv noAliases "sample.h".toList "AAA".toList "AAA".toList
      "AAA".toList sampleDecls emptyRegistry with
  | Except.ok x => x.2
  | Except.error _ => emptyRegistry

/-- The registered form of the structure `AAA`. -/
def sampleType : USERDEFINEDTYPE :=
  sampleRegistered.userdefinedtype.headD
    { name := [], source := [], idamclass := 0, compoundfield := [], fieldcount := 0, size := 0 }

/-- Sample values for the error codes of the netCDF plugin. -/
def sampleErrors : NcErrors :=
  { NETCDF_ERROR_INQUIRING_DIM_1 := 201, NETCDF_ERROR_INQUIRING_DIM_2 := 202,
    NETCDF_ERROR_INQUIRING_DIM_3 := 203, NETCDF_ERROR_ALLOCATING_HEAP_1 := 204,
    NETCDF_ERROR_INQUIRING_VARIABLE_1 := 205, NC_MAX_VAR_DIMS := 1024 }

/-- A request without subset operations. -/
def noSubset : CDFSUBSET :=
  { subsetCount := 0, subset := fun _ => 0, start := fun _ => 0, stop := fun _ => 0,
    count := fun _ => 0, stride := fun _ => 1 }

/-- A coordinate variable of a compliant file: rank 1, `n` values of type double at
address 40, no domain attributes, label and class as given, no error array. -/
def plainCoord (n : Int) (label cls : String) : CoordFile :=
  { inq_dim_rc := 0, coord_rc := 0, inq_varndims_rc := 0, drank := 1, index_alloc := some 41,
    var_err := 0, var_dim_n := n, var_data_type := UDA_TYPE_DOUBLE, var_isIndex := 0,
    var_dim := some 40, check_err := 0, realloc_dim := some 42, calib_rc := 0,
    calib_data_type := UDA_TYPE_DOUBLE, calib_dim := some 40, count := none, count_vals := [],
    start := none, increment := none, calib_offs_rc := 0, calib_offs_type := UDA_TYPE_DOUBLE,
    calib_offs := none, calib_ints_rc := 0, calib_ints_type := UDA_TYPE_DOUBLE,
    calib_ints := none, atts_err := 0, dim_label := label.toList, classtxt := cls.toList,
    err_err := 0, error_n := 0, error_type := TYPE_UNKNOWN, errhi := none }

/-- The coordinate `plainCoord` with a domain representation: the `count` attribute
holds `counts` (array at 50), `start` and `increment` are arrays of the same length at
51 and 52. -/
def domainCoord (n : Int) (counts : List Nat) : CoordFile :=
  { plainCoord n "time" "time" with
    count := some { atttype_rc := 0, compliantType := true, read_err := 0,
                    n := counts.length, addr := some 50 },
    count_vals := counts,
    start := some { atttype_rc := 0, compliantType := true, read_err := 0,
                    n := counts.length, addr := some 51 },
    increment := some { atttype_rc := 0, compliantType := true, read_err := 0,
                        n := counts.length, addr := some 52 },
    calib_offs := some 51, calib_ints := some 52 }

/-- A rank 1 data variable of `extent` doubles along dimension 0, whose coordinate is
`coord`; dimension 0 is unlimited when `unlimited` is set. -/
def sampleVariable (extent : Nat) (unlimited : Bool) (coord : CoordFile) : VarFile :=
  { inq_varndims_rc := 0, rank := 1, inq_vardimid_rc := 0, dimids := [0],
    inq_unlimdims_rc := 0, unlimdimids := if unlimited then [0] else [],
    extent_alloc := some 60, dextent_alloc := some 61, dims_alloc := some 62,
    var_err := 0, extent := [extent, 0, 0], data_n := extent, data_type := UDA_TYPE_DOUBLE,
    isIndex := 0, data := some 63, udt := none, calib_rc := 0,
    calib_data_type := UDA_TYPE_DOUBLE, calib_data := some 63, atts_err := 0, err_err := 0,
    error_n := 0, error_type := TYPE_UNKNOWN, errhi := none, dims_realloc := 64,
    coords := fun _ => coord }

/-- A dimension without a coordinate variable: `nc_inq_varid` fails in every group. -/
def missingCoord : CoordFile :=
  { plainCoord 0 "" "" with coord_rc := -49 }

/-- An attribute look-up that is not taken in the samples. -/
def noAttribute : AttFile :=
  { read_rc := 0, data_n := 0, ndimatt := [0, 0], data_type := TYPE_UNKNOWN, data := none,
    udt := none, dims_alloc := none, dim_alloc := fun _ => none }

/-- A request whose name is that of the data variable `v`. -/
def sampleLookup (v : VarFile) : Lookup :=
  { reducedFound := false, variableFound := true, var := v, dimid_rc := -46, dimlen_rc := 0,
    dimlen := 0, data_alloc := none, dims_alloc := none, dim_alloc := none, groupAtt_rc := -43,
    groupAtt := noAttribute, hasDot := false, dotVar_rc := -49, dotAtt_rc := -43,
    dotAtt := noAttribute, hierarchical := true, isRoot := false, groupId_rc := -125,
    tree := { types_err := 0, meta_err := 0, data_err := 0, data := none, group_udt := none } }

/-- An empty data block, as a reader receives it: no buffers, order -1. -/
def emptyBlock : DATA_BLOCK :=
  { handle := 0, errcode := 0, rank := 0, order := -1, data_type := TYPE_UNKNOWN,
    error_type := TYPE_UNKNOWN, data_n := 0, error_param_n := 0,
    opaque_type := OPAQUE_TYPE_UNKNOWN, opaque_count := 0, opaque_block := none,
    data := none, errhi := none, errlo := none, dims := none }

/-- The sum of the first `udoms` entries of `sams`, read as `int`. -/
def samsTotal (d : DIMS) : Int :=
  match d.sams with
  | some a => ((a.vals.take d.udoms).map toInt32).sum
  | none => 0

/-- All entries of the dimension array of a block. -/
def allDims (b : DATA_BLOCK) : List DIMS :=
  match b.dims with
  | some a => a.elems
  | none => []

/-- A dimension entry without a domain list, in one of two forms: explicit only (no
analytic encoding), or the linear encoding `dim0 = 0`, `diff = 1` (method 0). -/
def plainForm (d : DIMS) : Prop :=
  (d.compressed = 0 ∧ d.method = 0 ∧ d.udoms = 0 ∧ d.sams = none ∧ d.offs = none ∧
    d.ints = none) ∨
  (d.compressed = 1 ∧ d.method = 0 ∧ d.dim0 = 0 ∧ d.diff = 1 ∧ d.udoms = 0 ∧ d.sams = none ∧
    d.offs = none ∧ d.ints = none)

/-- The counts of the domains of a coordinate as the file gives them, the first
replaced by the count of the subset when dimension `ii` is subset. -/
def domainCounts (sub : CDFSUBSET) (ii : Nat) (f : CoordFile) : List Nat :=
  if sub.subsetCount > 0 ∧ sub.subset ii ≠ 0 then f.count_vals.set 0 (toUInt32 (sub.count ii))
  else f.count_vals

/-- The domain list of the entry of dimension `ii`, from the coordinate variable `f`:
the attributes `count`, `start` and `increment` are present and of one length; `offs`
is the start array and `ints` the increment array (the calibrated arrays for raw
data); `sams` is the count array.  For a dimension that is not unlimited `udoms` is
the length of the attributes, `sams` holds the counts of the file and `dim_n` is the
length of the coordinate variable as read; for an unlimited dimension `dim_n` is the
extent read. -/
def domainList (cls : Int) (sub : CDFSUBSET) (ii : Nat) (isUnlimited : Bool) (extent_i : Nat)
    (f : CoordFile) (d : DIMS) : Prop :=
  ∃ c st inc, f.count = some c ∧ f.start = some st ∧ f.increment = some inc ∧
    c.n = st.n ∧ st.n = inc.n ∧
    d.offs = (if cls = RAW_DATA then f.calib_offs else st.addr) ∧
    d.ints = (if cls = RAW_DATA ∧ f.calib_offs_rc = 0 then f.calib_ints else inc.addr) ∧
    d.sams.map IntArray.addr = c.addr ∧
    (isUnlimited = false →
      d.udoms = toUInt32 c.n ∧
      d.sams = c.addr.map (fun a => { addr := a, vals := domainCounts sub ii f }) ∧
      d.dim_n = f.var_dim_n) ∧
    (isUnlimited = true → d.dim_n = toInt32 extent_i)

/-- The three forms of the entry of dimension `ii`: explicit only (no analytic
encoding); the linear encoding `dim0`, `diff` (method 0) without a domain list; the
domain list (method 1) built from the attributes of the coordinate variable `f`. -/
def dimForm (cls : Int) (sub : CDFSUBSET) (ii : Nat) (isUnlimited : Bool) (extent_i : Nat)
    (f : CoordFile) (d : DIMS) : Prop :=
  plainForm d ∨
  (d.compressed = 1 ∧ d.method = 1 ∧ domainList cls sub ii isUnlimited extent_i f d)

/-- The form of entry `k` of a block of the given rank that is read from the data
variable `v`: the entry belongs to data dimension `rank - k - 1`. -/
def entryForm (cls : Int) (sub : CDFSUBSET) (v : VarFile) (rank k : Nat) (d : DIMS) : Prop :=
  dimForm cls sub k (v.unlimdimids.contains (v.dimids.getD (rank - k - 1) 0))
    (v.extent.getD (rank - k - 1) 0) (v.coords (rank - k - 1)) d

/-- The subset operations in force in the dimension loop: those of the request as
`readCDFSubset` copies them, completed for the rank of the variable. -/
def loopSubset (datasubset : CDFSUBSET) (l : Lookup) : CDFSUBSET :=
  (completeSubset (readCDFSubset datasubset l) l.var.rank).getD (readCDFSubset datasubset l)

/-- The fields of a dimension entry that make up its encoding. -/
def encoding (d : DIMS) :
    Int × Int × Rat × Rat × Nat × Option IntArray × Option Ptr × Option Ptr :=
  (d.compressed, d.method, d.dim0, d.diff, d.udoms, d.sams, d.offs, d.ints)

/-- The entries of the type registry behind the global `userdefinedtypelist`, none
when the global is null. -/
def registryEntries (g : Globals) : List USERDEFINEDTYPE :=
  match g.userdefinedtypelist with
  | some l => l.userdefinedtype
  | none => []

/-- The block carries a structures payload: it is not null, its opaque type is
`OPAQUE_TYPE_STRUCTURES` and its opaque block is not null. -/
def structuresPayload (data_block : Option DATA_BLOCK) : Bool :=
  match data_block with
  | some b => decide (b.opaque_type = OPAQUE_TYPE_STRUCTURES) && b.opaque_block.isSome
  | none => false

/-- Globals whose type registry holds the structure `AAA` of `sampleRegistered`. -/
def registeredGlobals : Globals :=
  { userdefinedtypelist := some sampleRegistered, logmalloclist := some 31 }

/-- The elements `mystery m; int a;`: no table and no registry entry knows the type
name `mystery`. -/
def unresolvedDecls : List FieldDecl :=
  [decl "mystery" "m", decl "int" "a"]

/-- The size that lines 572-579 and 623-624 give an element, by its pointer flag and
type. -/
def sizeRule (env : LayoutEnv) (r : FieldRec) : Prop :=
  r.size = (if r.pointer ≠ 0 then env.sizeofPointer
            else if r.type = "STRING".toList then env.getsizeof "char".toList
            else env.getsizeof r.type)

/-- The test of lines 1527-1533 on the attributes that `readCDF4Atts` has read. -/
def timeMatch (compliance : Bool) (f : CoordFile) : Bool :=
  if compliance then decide (f.classtxt = "time".toList)
  else STR_IEQUALS f.dim_label "time".toList || STR_IEQUALS f.dim_label "time3".toList

/-- Iteration `i` of the dimension loop, started in state `st`, reaches the test of
line 1527: dimension data are wanted and the data are not strings (line 1214), the
dimension and its coordinate variable are found (lines 1229-1247), and the coordinate
variable, its domains and its attributes are read without error (lines 1283-1510). -/
def reachesTimeTest (E : NcErrors) (compliance : Bool) (cls : Int) (get_nodimdata : Bool)
    (sub : CDFSUBSET) (dimids unlimdimids : List Int) (extent : List Nat) (st : LoopState)
    (i : Nat) (f : CoordFile) : Bool :=
  let b := st.block
  let ii := b.rank - i - 1
  let d1 := { dimAt b ii with compressed := 0 }
  let isUnlimited := unlimdimids.contains (dimids.getD i 0)
  let v := readCoordVar E compliance cls isUnlimited st.isIndex f d1
  let dom := if compliance
             then readDomains cls sub ii isUnlimited (extent.getD i 0) f v.out.err v.out.dim
             else v.out
  !(get_nodimdata || decide (b.data_type = UDA_TYPE_STRING)) && decide (f.inq_dim_rc = 0) &&
    decide (f.coord_rc = 0) && !v.out.broke && !dom.broke && decide (f.atts_err = 0)

/-- The state in which `readCDF` enters the dimension loop of line 1208 for a data
variable, with the completed subset; `none` when it returns before. -/
def dimLoopEntry (E : NcErrors) (compliance : Bool) (cls : Int) (get_bytes : Bool)
    (sub0 : CDFSUBSET) (v : VarFile) (b : DATA_BLOCK) : Option (CDFSUBSET × LoopState) :=
  if v.inq_varndims_rc ≠ 0 then none
  else if v.rank > 0 ∧ v.inq_vardimid_rc ≠ 0 then none
  else
    match completeSubset sub0 v.rank with
    | none => none
    | some sub =>
      if v.inq_unlimdims_rc ≠ 0 then none
      else
        let a := allocateDims E v { b with rank := v.rank, order := -1 }
        if a.broke then none
        else
          let d := readVariableData compliance cls get_bytes v a.block
          if d.broke then none
          else
            some (sub, { block := extendStringRank v d.block, isIndex := v.isIndex, err := 0,
                         broke := false })

/-- Iteration `i` of the dimension loop is run (no `break` before it), reaches the
test of line 1527, and the test holds. -/
def timeHit (E : NcErrors) (compliance : Bool) (cls : Int) (get_nodimdata : Bool)
    (sub : CDFSUBSET) (dimids unlimdimids : List Int) (extent : List Nat)
    (coords : Nat → CoordFile) (st0 : LoopState) (i : Nat) : Bool :=
  let st := readCDFDims E compliance cls get_nodimdata sub dimids unlimdimids extent coords i 0 st0
  !st.broke &&
    reachesTimeTest E compliance cls get_nodimdata sub dimids unlimdimids extent st i (coords i) &&
    timeMatch compliance (coords i)

/-- A rank 1 data variable of 4 doubles whose coordinate variable, in a compliant
file, has the class attribute `time`; in a file that is not compliant, the label
`Time`. -/
def timeVariable : VarFile :=
  sampleVariable 4 false (plainCoord 4 "Time" "time")

/-- The state in which `readCDF` enters the dimension loop for `timeVariable` in a
compliant file. -/
def sampleLoopEntry : CDFSUBSET × LoopState :=
  (dimLoopEntry sampleErrors true 0 false noSubset timeVariable emptyBlock).getD
    (noSubset, { block := emptyBlock, isIndex := 0, err := 0, broke := false })

/-- The client library after the request `OPENDATA::help()` of the plugin test: handle
0 holds a string of rank 1 and 59 characters at address 70, without a time axis; no
other handle is valid. -/
def helpClient : ClientApi :=
  { getIdamDataType := fun h => if h = 0 then UDA_TYPE_STRING else UDA_TYPE_UNKNOWN,
    getIdamErrorType := fun _ => UDA_TYPE_UNKNOWN,
    getIdamRank := fun h => if h = 0 then 1 else 0,
    getIdamDataNum := fun h => if h = 0 then 59 else 0,
    getIdamOrder := fun _ => -1,
    getIdamData := fun h => if h = 0 then some 70 else none,
    getIdamError := fun _ => none,
    getIdamDataLabel := fun h => if h = 0 then some [] else none,
    getIdamDataUnits := fun h => if h = 0 then some [] else none,
    getIdamDataDesc := fun h => if h = 0 then some [] else none,
    setIdamDataTree := fun _ => 0,
    getIdamDimType := fun h n => if h = 0 ∧ n = 0 then UDA_TYPE_UNSIGNED_INT else UDA_TYPE_UNKNOWN,
    getIdamDimErrorType := fun _ _ => UDA_TYPE_UNKNOWN,
    getIdamDimNum := fun h n => if h = 0 ∧ n = 0 then 59 else 0,
    getIdamDimData := fun h n => if h = 0 ∧ n = 0 then some 71 else none,
    getIdamDimError := fun _ _ => none,
    getIdamDimLabel := fun h _ => if h = 0 then some [] else none,
    getIdamDimUnits := fun h _ => if h = 0 then some [] else none }

/-- The result object that the wrapper builds for handle 0 of `helpClient`. -/
def helpResult : Result :=
  { handle_ := 0, label_ := [], units_ := [], desc_ := [], type_ := TypeId.charPtr,
    uda_type_ := UDA_TYPE_STRING, rank_ := 1, size_ := 59, istree_ := false }

/-- The array behind `actions->action` is live and holds `nactions` elements. -/
def wellFormed (s : ParseState) : Prop :=
  s.stale = false ∧ s.actions.nactions = ((elements s.actions.action).length : Int)

/-- The locals of a rule parser after the actions `new` have been added to the array,
one `realloc` each. -/
def grown (st : ActionLoop) (new : List ACTION) : ActionLoop :=
  { n := st.n + (new.length : Int),
    str := if new.length = 0 then st.str else some (elements st.str ++ new),
    stale := st.stale }

/-- The `ACTIONS` structure after the actions `new` have been appended to its array. -/
def appended (s : ParseState) (new : List ACTION) : ParseState :=
  storeActions (grown (loadActions s) new)

/-- The action of a tag that is parsed without fault. -/
def tagAction (x : Except XmlFault ACTION) : ACTION :=
  match x with
  | Except.ok a => a
  | Except.error _ => initAction

/-- A tag is parsed without fault. -/
def tagParsed (x : Except XmlFault ACTION) : Bool :=
  match x with
  | Except.ok _ => true
  | Except.error _ => false

/-- The action that `parseSubset` stores for a `subset` tag: the action of the tag
with the subset structure as `idamParseOperation` leaves it. -/
def subsetRule (E : XmlEnv) (c : XmlNode) : ACTION :=
  { tagAction (subsetActionTag E c) with
    u := ActionUnion.subset
      (E.idamParseOperation (subsetOf E (tagAction (subsetActionTag E c)))).2 }

/-- A `subset` tag is parsed without fault and `idamParseOperation` accepts it. -/
def subsetAccepted (E : XmlEnv) (c : XmlNode) : Bool :=
  tagParsed (subsetActionTag E c) &&
    decide ((E.idamParseOperation (subsetOf E (tagAction (subsetActionTag E c)))).1 = 0)

/-- The rules of one `signal` element in the order in which `parseDoc` stores them:
category by category in the order of the six parser calls, each category in document
order. -/
def signalRules (E : XmlEnv) (sig : XmlNode) : List ACTION :=
  (matchingChildren sig "composite").map (fun c => tagAction (compositeTag E c)) ++
  (matchingChildren sig "documentation").map (documentationTag E) ++
  (matchingChildren sig "calibration").map (calibrationTag E) ++
  (matchingChildren sig "time_offset").map (timeOffsetTag E) ++
  (matchingChildren sig "errormodel").map (fun c => tagAction (errorModelTag E c)) ++
  (matchingChildren sig "subset").map (subsetRule E)

/-- Every rule tag of a `signal` element is parsed without fault, and every `subset`
tag among them is accepted by `idamParseOperation`. -/
def signalDefined (E : XmlEnv) (sig : XmlNode) : Bool :=
  (matchingChildren sig "composite").all (fun c => tagParsed (compositeTag E c)) &&
  (matchingChildren sig "errormodel").all (fun c => tagParsed (errorModelTag E c)) &&
  (matchingChildren sig "subset").all (subsetAccepted E)

/-- The document-level failures of `parseDoc`: the text does not parse, the document
has no root element, or the root element is not named `action`. -/
def documentFailure (doc : Option XmlDoc) : Bool :=
  match doc with
  | none => true
  | some d =>
    match d.root with
    | none => true
    | some cur => decide (cur.name ≠ "action".toList)

/-- The `signal` elements under the root of a document, in document order. -/
def signalsOf (doc : Option XmlDoc) : List XmlNode :=
  match doc with
  | none => []
  | some d =>
    match d.root with
    | none => []
    | some cur => matchingChildren cur "signal"

/-- Sample limits and helpers for the parser: arrays of 8 entries, `atoi` on decimal
digits, no unprintable characters, and an `idamParseOperation` that rejects (code
999) a subset with the operation `?` and leaves the structure as it is. -/
def sampleXmlEnv : XmlEnv :=
  { MAXDATARANK := 8, SXMLMAXSTRING := 56, MAXERRPARAMS := 8, XMLMAXLOOP := 1024,
    atoi := decimalValue, convertNonPrintable := id,
    idamParseOperation := fun sub =>
      (if sub.operation.contains "?".toList then 999 else 0, sub) }

/-- An element with attributes and child elements, without text. -/
def xmlTag (name : String) (properties : List (String × String)) (children : List XmlNode) :
    XmlNode :=
  XmlNode.mk name.toList (properties.map (fun p => (p.1.toList, p.2.toList))) none children

/-- An element that holds text only. -/
def xmlText (name text : String) : XmlNode :=
  XmlNode.mk name.toList [] (some text.toList) []

/-- The tag `<calibration><factor>text</factor></calibration>`. -/
def calibrationFactor (text : String) : XmlNode :=
  xmlTag "calibration" [] [xmlText "factor" text]

/-- A signal with two calibration tags, factor 2.0 then factor 3.0. -/
def twoCalibrations : XmlNode :=
  xmlTag "signal" [] [calibrationFactor "2.0", calibrationFactor "3.0"]

/-- An empty `ACTIONS` structure, as `initActions` leaves it. -/
def noActions : ParseState :=
  { actions := initActions, stale := false }

/-- An `ACTIONS` structure that holds one calibration rule. -/
def oneAction : ParseState :=
  { actions := { nactions := 1, action := some [calibrationTag sampleXmlEnv
                                                  (calibrationFactor "2.0")] },
    stale := false }

/-- A signal with two subset tags: the operation of the first is accepted, that of the
second is rejected. -/
def rejectedSubset : XmlNode :=
  xmlTag "signal" [] [xmlTag "subset" [("data", "X"), ("operation", "0:5")] [],
                      xmlTag "subset" [("data", "X"), ("operation", "?")] []]

/-- A signal whose one subset tag is rejected. -/
def onlyRejected : XmlNode :=
  xmlTag "signal" [] [xmlTag "subset" [("operation", "?")] []]

/-- A document whose one signal holds a calibration tag followed by a composite tag. -/
def calibrationFirst : Option XmlDoc :=
  some { root := some (xmlTag "action" []
    [xmlTag "signal" [] [calibrationFactor "2.0", xmlTag "composite" [("data", "X")] []]]) }

/-- A document with two signals: a subset, a documentation and two calibration tags
in the first, a time offset and a composite tag in the second. -/
def sampleDocument : Option XmlDoc :=
  some { root := some (xmlTag "action" []
    [xmlTag "signal" [] [xmlTag "subset" [("operation", "0:5")] [],
                         xmlTag "documentation" [] [xmlText "label" "Ip"],
                         calibrationFactor "2.0", calibrationFactor "3.0"],
     xmlTag "signal" [] [xmlTag "time_offset" [("value", "1.5")] [],
                         xmlTag "composite" [("data", "X")] []]]) }

/-- A document whose root element is not named `action`. -/
def otherRoot : Option XmlDoc :=
  some { root := some (xmlTag "rules" [] [twoCalibrations]) }

/-- The calibration structure inside an action. -/
def calibrationOf (a : ACTION) : CALIBRATION :=
  match a.u with
  | ActionUnion.calibration c => c
  | _ => initCalibration

/-- The multiplier that a scale name stands for: milli, micro and nano are powers of
a thousandth, every other name is 1. -/
def scaleMultiplier (scale : List Char) : Rat :=
  if scale = "milli".toList then 1 / 1000
  else if scale = "micro".toList then 1 / 1000000
  else if scale = "nano".toList then 1 / 1000000000
  else 1

/-- The tag `<calibration><factor scale="milli">2.5</factor><offset>0.5</offset>
</calibration>`. -/
def scaledCalibration : XmlNode :=
  xmlTag "calibration" []
    [XmlNode.mk "factor".toList [("scale".toList, "milli".toList)] (some "2.5".toList) [],
     xmlText "offset" "0.5"]

/-- The member of the union of an action that `freeActions` reads for its type is the
one that has been initialised. -/
def memberMatches (a : ACTION) : Bool :=
  if a.actionType = COMPOSITETYPE then
    (match a.u with
     | ActionUnion.composite _ => true
     | _ => false)
  else if a.actionType = ERRORMODELTYPE then
    (match a.u with
     | ActionUnion.errormodel _ => true
     | _ => false)
  else if a.actionType = CALIBRATIONTYPE then
    (match a.u with
     | ActionUnion.calibration _ => true
     | _ => false)
  else if a.actionType = DOCUMENTATIONTYPE then
    (match a.u with
     | ActionUnion.documentation _ => true
     | _ => false)
  else if a.actionType = SERVERSIDETYPE then
    (match a.u with
     | ActionUnion.serverside _ => true
     | _ => false)
  else true

/-- The state of an `ACTIONS` structure that `initActions` sets up and the parsers,
`copyActions` and `freeActions` keep: the array holds `nactions` elements, the pointer
is null when there are none, and each action carries the member of its type. -/
def consistent (a : ACTIONS) : Prop :=
  a.nactions = ((elements a.action).length : Int) ∧
  (a.nactions = 0 → a.action = none) ∧
  ∀ x ∈ elements a.action, memberMatches x = true

/-- The list that `parseDoc` builds from `sampleDocument`, starting from the empty
list. -/
def sampleActions : ACTIONS :=
  match parseDoc sampleXmlEnv sampleDocument noActions with
  | Except.ok r => r.2.actions
  | Except.error _ => initActions

/-- The tag `<subset operation="a,b,c,d,e,f,g,h,i" dimid="0,1,2,3,4,5,6,7,8"/>`: nine
items in each attribute, one more than `MAXDATARANK` of `sampleXmlEnv`. -/
def nineItems : XmlNode :=
  xmlTag "subset" [("operation", "a,b,c,d,e,f,g,h,i"), ("dimid", "0,1,2,3,4,5,6,7,8")] []

/-- The tag `<subset operation="a,b,c,d,e,f,g,h" dimid="0,1,2,3,4,5,6,7"/>`: eight
items in each attribute. -/
def eightItems : XmlNode :=
  xmlTag "subset" [("operation", "a,b,c,d,e,f,g,h"), ("dimid", "0,1,2,3,4,5,6,7")] []

/-- The composite structure inside an action. -/
def compositeOf (a : ACTION) : COMPOSITE :=
  match a.u with
  | ActionUnion.composite c => c
  | _ => initComposite

/-- The members `map_to_signal` and `aserror_signal` of the composite rules of a list,
as texts. -/
def mapAndAsError (r : Except XmlFault ParseState) : Option (List (String × String)) :=
  match r with
  | Except.ok s =>
    some ((elements s.actions.action).map
      (fun a => (String.mk (compositeOf a).map_to_signal,
                 String.mk (compositeOf a).aserror_signal)))
  | Except.error _ => none

/-- A signal with the one tag `<composite data="X" .../>` that has the attributes
given. -/
def compositeSignal (properties : List (String × String)) : XmlNode :=
  xmlTag "signal" [] [xmlTag "composite" (("data", "X") :: properties) []]

/-- The last index of a subset of a dimension of length `L`: `stop`, with -1 standing
for `L - 1`. -/
def lastIndex (stop : Int) (L : Nat) : Int :=
  if stop = -1 then (L : Int) - 1 else stop

/-- The number of the indices `start`, `start + stride`, `start + 2 * stride`, ...
of a dimension of length `L` that do not exceed `stop`. -/
def indexCount (start stop stride : Int) (L : Nat) : Nat :=
  ((List.range L).filter (fun (k : Nat) => decide (start + (k : Int) * stride ≤ stop))).length

/-- The request for an unwritten coordinate: no variable of the name, with or without
the text of the subset operations, a dimension of the name of length `L`, and the
three allocations of the path succeed. -/
def unwrittenLookup (L : Nat) : Lookup :=
  { sampleLookup (sampleVariable 0 false missingCoord) with
    variableFound := false, dimid_rc := 0, dimlen_rc := 0, dimlen := L,
    data_alloc := some 10, dims_alloc := some 20, dim_alloc := some 30 }

/-- The one subset `[start:stop:stride]` with the count unset. -/
def oneSubset (start stop stride : Int) : CDFSUBSET :=
  { subsetCount := 1, subset := fun _ => 1, start := fun _ => start, stop := fun _ => stop,
    count := fun _ => -1, stride := fun _ => stride }

/-- The entry that `idamClientReadin` adds when no data is waiting. -/
def noDataError (S : SocketEnv) : IdamError :=
  { type := S.CODEERRORTYPE, location := "idamClientReadin", code := -1,
    msg := "No Data waiting at Socket when Data Expected!" }

/-- A call of `read` that ends the loop of line 42 whatever `errno` was: it returns a
value other than -1, or it stores a value other than `EINTR` in `errno`. -/
def notInterrupted (S : SocketEnv) (c : SysCall) : Prop :=
  c.ret ≠ -1 ∨ ∃ e, c.errno = some e ∧ e ≠ S.EINTR

/-- A socket on which `select` reports one descriptor and the calls of `read` return
the values of the list in turn (-1 with `errno` set to `EINTR`), then `last`. -/
def sampleSocket (interrupted : Nat) (last : SysCall) : SocketEnv :=
  { MAXLOOP := 10, EINTR := 4, SYSTEMERRORTYPE := 1, CODEERRORTYPE := 2,
    select := fun _ => { ret := 1, errno := none },
    read := fun k => if k < interrupted then { ret := -1, errno := some 4 } else last }

/-- The characters that `deblank` keeps: neither a space nor a single quote. -/
def kept (c : Char) : Bool :=
  decide (c ≠ ' ' ∧ c ≠ QUOTE)

/-- The string of seven characters: space, a, space, b, single quote, c, space. -/
def quotedText : List Char :=
  " a b".toList ++ QUOTE :: "c ".toList

/-- Sample constants for the plugin: the type codes of `udaTypes.h`. -/
def samplePlugin : PluginEnv :=
  { TYPE_DOUBLE := UDA_TYPE_DOUBLE, TYPE_FLOAT := UDA_TYPE_FLOAT, TYPE_LONG := UDA_TYPE_LONG,
    TYPE_INT := UDA_TYPE_INT, TYPE_SHORT := UDA_TYPE_SHORT, TYPE_STRING := UDA_TYPE_STRING,
    CODEERRORTYPE := 2 }

/-- A mapping file in which the request has a value and the mapping type given. -/
def sampleMapping (type : String) : MappingFile :=
  { parsed := true, context := true, valueEvaluated := true,
    value := some (some "//signal".toList), typeEvaluated := true,
    type_str := some (some type.toList) }

/-- A request whose arguments are found, with the mapping type given, for which
`execute_xpath_expression` succeeds and reports two items of the data type given (as
strings: the two strings given, with blanks and with quotes), and for which `mds_get`
succeeds with 40 values. -/
def sampleRequest (type : String) (data_type : Int) : ReadRequest :=
  { required := none, element := "magnetics/ip".toList, index0 := 0,
    mapping := sampleMapping type,
    xpath := { status := 0, data_type := data_type, size := 4, count := 2,
               strings := [" a b ".toList, QUOTE :: "c".toList ++ [QUOTE]] },
    mds_status := 0, mds_len := 40 }

/-- The entry that `do_read` adds for data of a type it does not handle. -/
def unsupportedError (P : PluginEnv) : IdamError :=
  { type := P.CODEERRORTYPE, location := "do_read", code := 999,
    msg := "Unsupported data type" }

/-- Sample sizes and helpers for the IDA plugin: a file name array of 9 characters
(`IDA_FSIZE` 8), a signal name array of 17 (`IDA_LSIZE` 16), a path array of 56; the
file opens, the item is read and the file closes without error. -/
def sampleIda : IdaEnv :=
  { IDA_FSIZE := 8, IDA_LSIZE := 16, STRING_LENGTH := 56, SYSTEMERRORTYPE := 1,
    CODEERRORTYPE := 2,
    TrimString := fun s => s.filter (fun c => c != ' '),
    strlwr := fun s => s.map Char.toLower,
    nameIDA := fun a _ => a.take 3 ++ "0.00".toList,
    mastArchiveFilePath := fun _ _ f => "/data/".toList ++ f,
    opened := true, open_errno := 0, ida_errmsg := "", readIdaItem := 0, ida_close := 0 }

/-- A data source with the pulse number and the file name given, the path
`/data/x.ida` and no alias. -/
def sampleSource (exp_number : Int) (filename : String) : DATA_SOURCE :=
  { exp_number := exp_number, pass := 0, type := 'R', source_alias := [],
    filename := filename.toList, path := "/data/x.ida".toList }

/-- The return value of the plugin, and the fault when it leaves defined behaviour. -/
def idaOutcome (r : Except IdaFault IdaResult) : Except IdaFault Int :=
  match r with
  | Except.ok x => Except.ok x.err
  | Except.error e => Except.error e

/-! # Theorems -/

/-! ## Theorems: freeDataBlock -/

/-- C1: a second call of freeDataBlock on the state left by a first call changes no
field of the block, leaves the globals as they are and releases nothing. -/
theorem freeDataBlock_idempotent (GENERALSTRUCTS : Bool) (g : Globals)
    (data_block : Option DATA_BLOCK) :
    freeDataBlock GENERALSTRUCTS (freeDataBlock GENERALSTRUCTS g data_block).globals
        (freeDataBlock GENERALSTRUCTS g data_block).data_block
      = { data_block := (freeDataBlock GENERALSTRUCTS g data_block).data_block,
          globals := (freeDataBlock GENERALSTRUCTS g data_block).globals,
          calls := [] } := by
  cases data_block with
  | none => rfl
  | some b =>
    cases GENERALSTRUCTS <;>
    by_cases h1 : b.opaque_type = OPAQUE_TYPE_XML_DOCUMENT <;>
    by_cases h2 : b.opaque_type = OPAQUE_TYPE_STRUCTURES <;>
    by_cases h3 : b.opaque_type = OPAQUE_TYPE_XDRFILE <;>
    by_cases h4 : b.opaque_type = OPAQUE_TYPE_XDROBJECT <;>
    cases hob : b.opaque_block <;>
    simp [freeDataBlock, freeDataBlockAt, freeOpaque, freeIfSet, freeDims, h1, h2, h3, h4, hob,
      OPAQUE_TYPE_XML_DOCUMENT, OPAQUE_TYPE_STRUCTURES, OPAQUE_TYPE_XDRFILE,
      OPAQUE_TYPE_XDROBJECT, OPAQUE_TYPE_UNKNOWN, TYPE_UNKNOWN] <;>
    simp_all [OPAQUE_TYPE_XML_DOCUMENT, OPAQUE_TYPE_STRUCTURES, OPAQUE_TYPE_XDRFILE,
      OPAQUE_TYPE_XDROBJECT, OPAQUE_TYPE_UNKNOWN, TYPE_UNKNOWN]

/-- C2 (as stated, refuted): a block whose opaque type is OPAQUE_TYPE_UNKNOWN keeps
its opaque block and opaque count through freeDataBlock in the GENERALSTRUCTS build,
and so does a structures block in a build without GENERALSTRUCTS. -/
theorem freeDataBlock_keeps_unhandled_opaque :
    ((freeDataBlock true sampleGlobals (some (sampleBlock OPAQUE_TYPE_UNKNOWN))).data_block.map
        (fun r => (r.opaque_block, r.opaque_count)) = some (some 7, 3)) ∧
    ((freeDataBlock false sampleGlobals
        (some (sampleBlock OPAQUE_TYPE_STRUCTURES))).data_block.map
        (fun r => (r.opaque_block, r.opaque_count)) = some (some 7, 3)) := by
  constructor <;> decide

/-- C2 (amended): after freeDataBlock on a non-null block data, errhi, errlo and dims
are null and rank, data_n and error_param_n are 0; the opaque block is null and
the opaque count 0 when the payload is an XML document or, in the GENERALSTRUCTS build,
an XDR file, an XDR object or a structures payload with a non-null opaque block; for
every other payload type the opaque block and the opaque count are left unchanged. -/
theorem freeDataBlock_zeroes (GENERALSTRUCTS : Bool) (g : Globals) (b : DATA_BLOCK) :
    ∃ r, (freeDataBlock GENERALSTRUCTS g (some b)).data_block = some r ∧
      r.data = none ∧ r.errhi = none ∧ r.errlo = none ∧ r.dims = none ∧
      r.rank = 0 ∧ r.data_n = 0 ∧ r.error_param_n = 0 ∧
      (r.opaque_block, r.opaque_count) =
        (if b.opaque_type = OPAQUE_TYPE_XML_DOCUMENT ∨
            (GENERALSTRUCTS = true ∧
              (b.opaque_type = OPAQUE_TYPE_XDRFILE ∨ b.opaque_type = OPAQUE_TYPE_XDROBJECT ∨
                (b.opaque_type = OPAQUE_TYPE_STRUCTURES ∧ b.opaque_block ≠ none)))
         then (none, 0) else (b.opaque_block, b.opaque_count)) := by
  refine ⟨_, rfl, rfl, rfl, rfl, rfl, rfl, rfl, rfl, ?_⟩
  cases GENERALSTRUCTS <;>
  by_cases h1 : b.opaque_type = OPAQUE_TYPE_XML_DOCUMENT <;>
  by_cases h2 : b.opaque_type = OPAQUE_TYPE_STRUCTURES <;>
  by_cases h3 : b.opaque_type = OPAQUE_TYPE_XDRFILE <;>
  by_cases h4 : b.opaque_type = OPAQUE_TYPE_XDROBJECT <;>
  cases hob : b.opaque_block <;>
  simp [freeDataBlockAt, freeOpaque, h1, h2, h3, h4, hob] <;>
  simp_all [OPAQUE_TYPE_XML_DOCUMENT, OPAQUE_TYPE_STRUCTURES, OPAQUE_TYPE_XDRFILE,
    OPAQUE_TYPE_XDROBJECT]

theorem freeIfSet_eq_map (p : Option Ptr) : freeIfSet p = p.toList.map HeapCall.free := by
  cases p <;> rfl

theorem freeDim_eq_map (d : DIMS) : freeDim d = (dimPtrs d).map HeapCall.free := by
  simp [freeDim, dimPtrs, freeIfSet_eq_map]

theorem freeBuffers_eq_map (b : DATA_BLOCK) :
    freeIfSet b.errhi ++ freeIfSet b.errlo ++ freeDims b.rank b.dims
      = (bufferPtrs b).map HeapCall.free := by
  unfold bufferPtrs freeDims
  cases b.dims with
  | none => simp [freeIfSet_eq_map]
  | some a =>
    simp only [freeIfSet_eq_map, List.map_append, List.map_flatten, List.map_map, List.map_cons,
      List.map_nil, List.append_assoc]
    congr 4
    apply List.map_congr_left
    intro d _
    simp [freeDim_eq_map]

theorem freeGeneralStructs_nodup (g : Globals) (h : (registryPtrs g).Nodup) :
    (freeGeneralStructs g).Nodup := by
  unfold freeGeneralStructs
  unfold registryPtrs at h
  cases hu : g.userdefinedtypelist <;> cases hl : g.logmalloclist <;>
    simp_all

theorem freeGeneralStructs_target (g : Globals) (a : Ptr)
    (h : HeapCall.free a ∈ freeGeneralStructs g) : a ∈ registryPtrs g := by
  unfold freeGeneralStructs at h
  unfold registryPtrs
  cases hu : g.userdefinedtypelist <;> cases hl : g.logmalloclist <;>
    simp_all

/-- C3: in the GENERALSTRUCTS build, for a structures block with a non-null opaque
block, freeDataBlock issues the registry and ledger calls followed by the frees of the
error arrays and dimension buffers only: the ledger is released through
freeMallocLogList, the data pointer is never passed to free, no call is repeated when
the held addresses are distinct, both globals are null afterwards and so is the data
pointer. -/
theorem freeDataBlock_structures_via_ledger (g : Globals) (b : DATA_BLOCK) (ob : Ptr)
    (htype : b.opaque_type = OPAQUE_TYPE_STRUCTURES) (hblock : b.opaque_block = some ob) :
    (freeDataBlock true g (some b)).calls
        = freeGeneralStructs g ++ (bufferPtrs b).map HeapCall.free ∧
    (∀ l, g.logmalloclist = some l →
        (freeGeneralStructs g).count (HeapCall.freeMallocLogList l) = 1) ∧
    (∀ d, b.data = some d → d ∉ ownedPtrs g b →
        HeapCall.free d ∉ (freeDataBlock true g (some b)).calls) ∧
    ((ownedPtrs g b).Nodup → (freeDataBlock true g (some b)).calls.Nodup) ∧
    (freeDataBlock true g (some b)).globals
        = { userdefinedtypelist := none, logmalloclist := none } ∧
    (freeDataBlock true g (some b)).data_block.map DATA_BLOCK.data = some none := by
  have hcalls : (freeDataBlock true g (some b)).calls
      = freeGeneralStructs g ++ (bufferPtrs b).map HeapCall.free := by
    rw [← freeBuffers_eq_map]
    simp [freeDataBlock, freeDataBlockAt, freeOpaque, htype, hblock, freeIfSet,
      OPAQUE_TYPE_XML_DOCUMENT, OPAQUE_TYPE_STRUCTURES]
  refine ⟨hcalls, ?_, ?_, ?_, ?_, ?_⟩
  · intro l hl
    unfold freeGeneralStructs
    cases hu : g.userdefinedtypelist <;> simp [hl]
  · intro d _ hd hmem
    rw [hcalls, List.mem_append] at hmem
    apply hd
    unfold ownedPtrs
    rw [List.mem_append]
    rcases hmem with hmem | hmem
    · exact Or.inl (freeGeneralStructs_target g d hmem)
    · right
      rw [List.mem_map] at hmem
      obtain ⟨a, ha, hfa⟩ := hmem
      cases hfa
      exact ha
  · intro hnd
    unfold ownedPtrs at hnd
    rw [List.nodup_append] at hnd
    obtain ⟨h1, h2, h3⟩ := hnd
    rw [hcalls, List.nodup_append]
    refine ⟨freeGeneralStructs_nodup g h1, ?_, ?_⟩
    · exact h2.map (fun x y hxy => by cases hxy; rfl)
    · intro c hc1 hc2
      rw [List.mem_map] at hc2
      obtain ⟨a, ha, rfl⟩ := hc2
      exact h3 (freeGeneralStructs_target g a hc1) ha
  · simp [freeDataBlock, freeDataBlockAt, freeOpaque, htype, hblock,
      OPAQUE_TYPE_XML_DOCUMENT, OPAQUE_TYPE_STRUCTURES]
  · simp [freeDataBlock, freeDataBlockAt]

/-- Witness for C3 at a fully populated structures block with registry and ledger set. -/
theorem freeDataBlock_structures_via_ledger_witness :
    (freeDataBlock true sampleGlobals (some (sampleBlock OPAQUE_TYPE_STRUCTURES))).calls
        = [HeapCall.freeUserDefinedTypeList 30, HeapCall.free 30,
           HeapCall.freeMallocLogList 31, HeapCall.free 31,
           HeapCall.free 11, HeapCall.free 12, HeapCall.free 21, HeapCall.free 22,
           HeapCall.free 23, HeapCall.free 24, HeapCall.free 25, HeapCall.free 26,
           HeapCall.free 20] ∧
    (freeDataBlock true sampleGlobals (some (sampleBlock OPAQUE_TYPE_STRUCTURES))).calls.Nodup :=
  ⟨by decide,
   (freeDataBlock_structures_via_ledger sampleGlobals (sampleBlock OPAQUE_TYPE_STRUCTURES) 7
      rfl rfl).2.2.2.1 (by decide)⟩

/-! ## Theorems: readCDF -/

@[simp] theorem setDim_rank (b : DATA_BLOCK) (ii : Nat) (d : DIMS) :
    (setDim b ii d).rank = b.rank := rfl

@[simp] theorem setDim_order (b : DATA_BLOCK) (ii : Nat) (d : DIMS) :
    (setDim b ii d).order = b.order := rfl

theorem timeOrder_cases (compliance : Bool) (f : CoordFile) (ii : Nat) (order : Int) :
    timeOrder compliance f ii order = order ∨ timeOrder compliance f ii order = (ii : Int) := by
  unfold timeOrder
  split_ifs <;> simp

theorem readCoordinate_rank (E : NcErrors) (compliance : Bool) (cls : Int) (sub : CDFSUBSET)
    (dimids unlimdimids : List Int) (extent : List Nat) (st : LoopState) (i : Nat)
    (f : CoordFile) (d1 : DIMS) :
    (readCoordinate E compliance cls sub dimids unlimdimids extent st i f d1).block.rank
      = st.block.rank := by
  unfold readCoordinate
  simp only []
  split_ifs <;> rfl

theorem readCoordinate_order (E : NcErrors) (compliance : Bool) (cls : Int) (sub : CDFSUBSET)
    (dimids unlimdimids : List Int) (extent : List Nat) (st : LoopState) (i : Nat)
    (f : CoordFile) (d1 : DIMS) :
    (readCoordinate E compliance cls sub dimids unlimdimids extent st i f d1).block.order
        = st.block.order ∨
    (readCoordinate E compliance cls sub dimids unlimdimids extent st i f d1).block.order
        = ((st.block.rank - i - 1 : Nat) : Int) := by
  unfold readCoordinate
  simp only []
  split_ifs <;> first | exact Or.inl rfl | exact timeOrder_cases _ _ _ _

theorem readCDFDim_rank (E : NcErrors) (compliance : Bool) (cls : Int) (get_nodimdata : Bool)
    (sub : CDFSUBSET) (dimids unlimdimids : List Int) (extent : List Nat) (st : LoopState)
    (i : Nat) (f : CoordFile) :
    (readCDFDim E compliance cls get_nodimdata sub dimids unlimdimids extent st i f).block.rank
      = st.block.rank := by
  unfold readCDFDim
  simp only []
  split_ifs
  · rfl
  · rfl
  · split <;> rfl
  · rfl
  · exact readCoordinate_rank _ _ _ _ _ _ _ _ _ _ _

theorem readCDFDim_order (E : NcErrors) (compliance : Bool) (cls : Int) (get_nodimdata : Bool)
    (sub : CDFSUBSET) (dimids unlimdimids : List Int) (extent : List Nat) (st : LoopState)
    (i : Nat) (f : CoordFile) :
    (readCDFDim E compliance cls get_nodimdata sub dimids unlimdimids extent st i f).block.order
        = st.block.order ∨
    (readCDFDim E compliance cls get_nodimdata sub dimids unlimdimids extent st i f).block.order
        = ((st.block.rank - i - 1 : Nat) : Int) := by
  unfold readCDFDim
  simp only []
  split_ifs
  · exact Or.inl rfl
  · exact Or.inl rfl
  · split <;> exact Or.inl rfl
  · exact Or.inl rfl
  · exact readCoordinate_order _ _ _ _ _ _ _ _ _ _ _

/-- The dimension loop keeps the rank and leaves a valid order valid. -/
theorem readCDFDims_order (E : NcErrors) (compliance : Bool) (cls : Int) (get_nodimdata : Bool)
    (sub : CDFSUBSET) (dimids unlimdimids : List Int) (extent : List Nat)
    (coords : Nat → CoordFile) (n i : Nat) (st : LoopState) (h : orderValid st.block)
    (hin : i + n ≤ st.block.rank) :
    (readCDFDims E compliance cls get_nodimdata sub dimids unlimdimids extent coords n i
        st).block.rank = st.block.rank ∧
    orderValid (readCDFDims E compliance cls get_nodimdata sub dimids unlimdimids extent coords
        n i st).block := by
  induction n generalizing i st with
  | zero => exact ⟨rfl, h⟩
  | succ n ih =>
    have hr := readCDFDim_rank E compliance cls get_nodimdata sub dimids unlimdimids extent st i
      (coords i)
    have ho := readCDFDim_order E compliance cls get_nodimdata sub dimids unlimdimids extent st i
      (coords i)
    have hv : orderValid (readCDFDim E compliance cls get_nodimdata sub dimids unlimdimids
        extent st i (coords i)).block := by
      unfold orderValid at h ⊢
      rw [hr]
      rcases ho with ho | ho
      · rw [ho]; exact h
      · rw [ho]
        right
        omega
    unfold readCDFDims
    simp only []
    split_ifs
    · exact ⟨hr, hv⟩
    · obtain ⟨h1, h2⟩ := ih (i + 1) _ hv (by rw [hr]; omega)
      exact ⟨h1.trans hr, h2⟩

theorem allocateDims_order (E : NcErrors) (v : VarFile) (b1 : DATA_BLOCK) :
    (allocateDims E v b1).block.rank = b1.rank ∧
    (allocateDims E v b1).block.order = b1.order := by
  unfold allocateDims
  split_ifs
  · exact ⟨rfl, rfl⟩
  · split <;> exact ⟨rfl, rfl⟩
  · exact ⟨rfl, rfl⟩

theorem readVariableData_order (compliance : Bool) (cls : Int) (get_bytes : Bool) (v : VarFile)
    (b2 : DATA_BLOCK) :
    (readVariableData compliance cls get_bytes v b2).block.rank = b2.rank ∧
    (readVariableData compliance cls get_bytes v b2).block.order = b2.order := by
  unfold readVariableData
  cases v.udt <;> simp only [] <;> split_ifs <;> exact ⟨rfl, rfl⟩

theorem extendStringRank_order (v : VarFile) (b6 : DATA_BLOCK) (h : b6.order = -1) :
    orderValid (extendStringRank v b6) := by
  unfold extendStringRank orderValid
  split_ifs <;> exact Or.inl h

theorem readCDFVariable_order (E : NcErrors) (compliance : Bool) (cls : Int)
    (get_bytes get_nodimdata : Bool) (sub0 : CDFSUBSET) (v : VarFile) (b : DATA_BLOCK) :
    ((readCDFVariable E compliance cls get_bytes get_nodimdata sub0 v b).2.rank = b.rank ∧
      (readCDFVariable E compliance cls get_bytes get_nodimdata sub0 v b).2.order = b.order) ∨
    orderValid (readCDFVariable E compliance cls get_bytes get_nodimdata sub0 v b).2 := by
  have ha := allocateDims_order E v { b with rank := v.rank, order := -1 }
  have hd := readVariableData_order compliance cls get_bytes v
    (allocateDims E v { b with rank := v.rank, order := -1 }).block
  unfold readCDFVariable
  cases completeSubset sub0 v.rank <;> simp only [] <;> split_ifs <;>
    first
      | exact Or.inl ⟨rfl, rfl⟩
      | exact Or.inr (Or.inl ha.2)
      | exact Or.inr (Or.inl (hd.2.trans ha.2))
      | exact Or.inr (readCDFDims_order _ _ _ _ _ _ _ _ _ _ _ _
          (extendStringRank_order v _ (hd.2.trans ha.2)) (by simp)).2

theorem readCDFUnwritten_order (E : NcErrors) (sub : CDFSUBSET) (dimlen_rc : Int) (dimlen : Nat)
    (data_alloc dims_alloc dim_alloc : Option Ptr) (b : DATA_BLOCK) :
    ((readCDFUnwritten E sub dimlen_rc dimlen data_alloc dims_alloc dim_alloc b).2.rank = b.rank ∧
      (readCDFUnwritten E sub dimlen_rc dimlen data_alloc dims_alloc dim_alloc b).2.order
        = b.order) ∨
    orderValid (readCDFUnwritten E sub dimlen_rc dimlen data_alloc dims_alloc dim_alloc b).2 := by
  unfold readCDFUnwritten
  cases dims_alloc <;> simp only [] <;> split_ifs <;>
    first
      | exact Or.inl ⟨rfl, rfl⟩
      | exact Or.inr (Or.inl rfl)

theorem attributeDims_order (E : NcErrors) (a : AttFile) (n i : Nat) (err : Int)
    (b : DATA_BLOCK) :
    (attributeDims E a n i err b).2.rank = b.rank ∧
    (attributeDims E a n i err b).2.order = b.order := by
  induction n generalizing i b with
  | zero => exact ⟨rfl, rfl⟩
  | succ n ih =>
    unfold attributeDims
    simp only []
    split_ifs
    · exact ⟨rfl, rfl⟩
    · exact ih _ _

theorem readCDFAttribute_order (E : NcErrors) (a : AttFile) (b : DATA_BLOCK) :
    ((readCDFAttribute E a b).2.rank = b.rank ∧ (readCDFAttribute E a b).2.order = b.order) ∨
    orderValid (readCDFAttribute E a b).2 := by
  unfold readCDFAttribute
  simp only []
  split_ifs
  · exact Or.inl ⟨rfl, rfl⟩
  · right
    cases a.dims_alloc with
    | none => exact Or.inl rfl
    | some p =>
      simp only []
      unfold orderValid
      rw [(attributeDims_order E a _ 0 0 _).2]
      exact Or.inl rfl
  · right
    cases a.dims_alloc with
    | none => exact Or.inl rfl
    | some p =>
      simp only []
      unfold orderValid
      rw [(attributeDims_order E a _ 0 0 _).2]
      exact Or.inl rfl

theorem setSubTree_order (t : TreeFile) (b : DATA_BLOCK) :
    ((setSubTree t b).rank = b.rank ∧ (setSubTree t b).order = b.order) ∨
    orderValid (setSubTree t b) := by
  unfold setSubTree
  cases t.group_udt with
  | none => exact Or.inl ⟨rfl, rfl⟩
  | some u =>
    simp only []
    split_ifs
    · exact Or.inr (Or.inl rfl)
    · exact Or.inl ⟨rfl, rfl⟩

theorem readCDFSubTree_order (isRoot : Bool) (t : TreeFile) (b : DATA_BLOCK) :
    ((readCDFSubTree isRoot t b).2.rank = b.rank ∧
      (readCDFSubTree isRoot t b).2.order = b.order) ∨
    orderValid (readCDFSubTree isRoot t b).2 := by
  unfold readCDFSubTree
  split_ifs
  · exact Or.inl ⟨rfl, rfl⟩
  · exact Or.inl ⟨rfl, rfl⟩
  · exact setSubTree_order t b

theorem readCDF_order (E : NcErrors) (compliance : Bool) (cls : Int)
    (get_bytes get_nodimdata : Bool) (sub : CDFSUBSET) (l : Lookup) (b : DATA_BLOCK) :
    ((readCDF E compliance cls get_bytes get_nodimdata sub l b).2.rank = b.rank ∧
      (readCDF E compliance cls get_bytes get_nodimdata sub l b).2.order = b.order) ∨
    orderValid (readCDF E compliance cls get_bytes get_nodimdata sub l b).2 := by
  unfold readCDF
  simp only []
  split_ifs
  · exact Or.inl ⟨rfl, rfl⟩
  · exact readCDFVariable_order _ _ _ _ _ _ _ _
  · exact readCDFUnwritten_order _ _ _ _ _ _ _ _
  · exact readCDFAttribute_order _ _ _
  · exact readCDFAttribute_order _ _ _
  · exact readCDFSubTree_order _ _ _
  · exact Or.inl ⟨rfl, rfl⟩

theorem readCDFGlobalMeta_order (open_rc : Int) (netcdf4 : Bool) (t : TreeFile)
    (b : DATA_BLOCK) :
    ((readCDFGlobalMeta open_rc netcdf4 t b).2.rank = b.rank ∧
      (readCDFGlobalMeta open_rc netcdf4 t b).2.order = b.order) ∨
    orderValid (readCDFGlobalMeta open_rc netcdf4 t b).2 := by
  unfold readCDFGlobalMeta
  simp only []
  split_ifs
  · exact Or.inl ⟨rfl, rfl⟩
  · exact Or.inl ⟨rfl, rfl⟩
  · exact Or.inl ⟨rfl, rfl⟩
  · exact setSubTree_order t b
  · exact setSubTree_order t b

/-- C4 (as stated, refuted): freeDataBlock leaves a block of rank 0 whose order is 0,
which is neither -1 nor the index of a dimension. -/
theorem freeDataBlock_order_zero :
    (freeDataBlock true sampleGlobals (some (sampleBlock OPAQUE_TYPE_UNKNOWN))).data_block.map
        (fun r => (r.rank, r.order)) = some (0, 0) ∧
    ¬ orderValid (freeDataBlockAt true sampleGlobals (sampleBlock OPAQUE_TYPE_UNKNOWN)).block := by
  refine ⟨by decide, ?_⟩
  unfold orderValid
  simp [freeDataBlockAt]

/-- C4 (amended): readCDF and readCDFGlobalMeta either leave rank and order as they
were or return a block whose order is -1 or the index of one of its dimensions
(0 <= order < rank), so that a block of rank 0 written by them has order -1;
freeDataBlock zeroes the integer fields, leaving rank 0 and order 0. -/
theorem order_after_write (E : NcErrors) (compliance : Bool) (cls : Int)
    (get_bytes get_nodimdata : Bool) (sub : CDFSUBSET) (l : Lookup) (open_rc : Int)
    (netcdf4 : Bool) (t : TreeFile) (GENERALSTRUCTS : Bool) (g : Globals) (b : DATA_BLOCK) :
    (((readCDF E compliance cls get_bytes get_nodimdata sub l b).2.rank = b.rank ∧
        (readCDF E compliance cls get_bytes get_nodimdata sub l b).2.order = b.order) ∨
      orderValid (readCDF E compliance cls get_bytes get_nodimdata sub l b).2) ∧
    (((readCDFGlobalMeta open_rc netcdf4 t b).2.rank = b.rank ∧
        (readCDFGlobalMeta open_rc netcdf4 t b).2.order = b.order) ∨
      orderValid (readCDFGlobalMeta open_rc netcdf4 t b).2) ∧
    (freeDataBlock GENERALSTRUCTS g (some b)).data_block.map (fun r => (r.rank, r.order))
      = some (0, 0) :=
  ⟨readCDF_order E compliance cls get_bytes get_nodimdata sub l b,
   readCDFGlobalMeta_order open_rc netcdf4 t b, rfl⟩

/-- The cut made by the scan, when the running total does not overflow: the scan
stops at the first domain `j + i` in which the total exceeds the extent, and the
counts before it together with the reduced count `c` make up the extent.  The
domains before the cut alone therefore sum to `extent - c`. -/
theorem truncateScan_cut (extent : Nat) : ∀ (rest : List Nat) (j counter k c : Nat),
    counter ≤ extent → counter + rest.sum < 2 ^ 32 →
    truncateScan extent j counter rest = some (k, c) →
    ∃ i, k = j + i ∧ i < rest.length ∧ counter + (rest.take i).sum + c = extent ∧
      c < rest.getD i 0
  | [], j, counter, k, c, _, _, h => by
    unfold truncateScan at h
    cases h
  | c0 :: rest, j, counter, k, c, hle, hsum, h => by
    unfold truncateScan at h
    simp only [List.sum_cons] at hsum
    have h1 : (counter + c0) % 2 ^ 32 = counter + c0 := Nat.mod_eq_of_lt (by omega)
    simp only [h1] at h
    split_ifs at h with hgt
    · simp only [Option.some.injEq, Prod.mk.injEq] at h
      obtain ⟨hk, hc⟩ := h
      refine ⟨0, by omega, by simp, ?_, ?_⟩
      · simp only [List.take_zero, List.sum_nil, add_zero]
        omega
      · simp only [List.getD_cons_zero]
        omega
    · obtain ⟨i, hk, hi, hs, hc⟩ :=
        truncateScan_cut extent rest (j + 1) (counter + c0) k c (by omega) (by omega) h
      refine ⟨i + 1, by omega, by simpa using hi, ?_, ?_⟩
      · simp only [List.take_succ_cons, List.sum_cons]
        omega
      · simpa using hc

/-- C5 (code evaluated at the failing input): a compliant file whose unlimited
coordinate has domain counts 5 and 5 while 7 samples were read.  readCDF returns
without error with dim_n = 7, the counts reduced to 5 and 2, but udoms = 1, so the
counts of the domains kept sum to 5 and not to 7. -/
theorem readCDF_truncation_drops_cut_domain :
    (readCDFVariable sampleErrors true 0 false false noSubset
        (sampleVariable 7 true (domainCoord 10 [5, 5])) emptyBlock).1 = 0 ∧
    ((readCDFVariable sampleErrors true 0 false false noSubset
        (sampleVariable 7 true (domainCoord 10 [5, 5])) emptyBlock).2.dims.map
      (fun a => a.elems.map
        (fun d => (d.compressed, d.method, d.dim_n, d.udoms, d.sams.map IntArray.vals,
                   samsTotal d))))
      = some [((1 : Int), (1 : Int), (7 : Int), (1 : Nat), some [5, 2], (5 : Int))] := by
  constructor
  · decide
  · rfl

/-! ## Theorems: parseIncludeFile -/

theorem parseField_first (env : LayoutEnv) (T : AliasTables) (d : FieldDecl) (r : FieldRec)
    (h : parseField env T none d = Except.ok r) : r.offset = 0 ∧ r.offpad = 0 := by
  unfold parseField at h
  simp only [] at h
  split at h
  · cases h
  · cases h
    exact ⟨rfl, rfl⟩

theorem parseField_next (env : LayoutEnv) (T : AliasTables) (q : FieldRec) (d : FieldDecl)
    (r : FieldRec) (hnew : ∀ x t, env.newoffset x t = x + env.padding x t)
    (h : parseField env T (some q) d = Except.ok r) : offsetRule q r := by
  unfold parseField at h
  simp only [] at h
  split at h
  · cases h
  · cases h
    unfold offsetRule
    simp only [hnew]

theorem parseFields_chain (env : LayoutEnv) (T : AliasTables)
    (hnew : ∀ x t, env.newoffset x t = x + env.padding x t) (decls : List FieldDecl) :
    ∀ (acc fields : List FieldRec),
      (∀ r, acc.head? = some r → r.offset = 0 ∧ r.offpad = 0) → List.Chain' offsetRule acc →
      parseFields env T acc decls = Except.ok fields →
      (∀ r, fields.head? = some r → r.offset = 0 ∧ r.offpad = 0) ∧
        List.Chain' offsetRule fields := by
  induction decls with
  | nil =>
    intro acc fields h0 hc h
    unfold parseFields at h
    cases h
    exact ⟨h0, hc⟩
  | cons d ds ih =>
    intro acc fields h0 hc h
    unfold parseFields at h
    cases hr : parseField env T acc.getLast? d with
    | error e => rw [hr] at h; cases h
    | ok r =>
      rw [hr] at h
      simp only [] at h
      apply ih (acc ++ [r]) fields _ _ h
      · intro r1 hr1
        cases acc with
        | nil =>
          simp only [List.nil_append, List.head?_cons, Option.some.injEq] at hr1
          rw [← hr1]
          exact parseField_first env T d r hr
        | cons a acc1 =>
          exact h0 r1 (by simpa using hr1)
      · apply List.Chain'.append hc (List.chain'_singleton r)
        intro x hx y hy
        simp only [List.head?_cons, Option.mem_def, Option.some.injEq] at hy
        rw [← hy]
        rw [Option.mem_def] at hx
        rw [hx] at hr
        exact parseField_next env T x d r hnew hr

theorem chain_index : ∀ (fs : List FieldRec), List.Chain' offsetRule fs →
    ∀ (i : Nat) (q r : FieldRec), fs[i]? = some q → fs[i + 1]? = some r → offsetRule q r
  | [], _, i, q, r, hq, _ => by simp at hq
  | a :: l, hc, 0, q, r, hq, hr => by
    simp only [List.getElem?_cons_zero, Option.some.injEq] at hq
    simp only [List.getElem?_cons_succ] at hr
    rw [← hq]
    apply hc.rel_head?
    cases l with
    | nil => simp at hr
    | cons b l1 =>
      simp only [List.getElem?_cons_zero, Option.some.injEq] at hr
      simp [hr]
  | a :: l, hc, i + 1, q, r, hq, hr =>
    chain_index l hc.tail i q r (by simpa using hq) (by simpa using hr)

/-- What a successful registration appends, in terms of the parsed elements. -/
theorem parseStructure_registered (env : LayoutEnv) (T : AliasTables)
    (header name name1 name2 : List Char) (decls : List FieldDecl) (reg reg1 : USERDEFINEDTYPELIST)
    (err : Int) (u : USERDEFINEDTYPE)
    (h : parseStructure env T header name name1 name2 decls reg = Except.ok (err, reg1))
    (hu : reg1.userdefinedtype = reg.userdefinedtype ++ [u]) :
    ∃ fields, parseFields env T [] decls = Except.ok fields ∧ fields ≠ [] ∧
      maxAlignOf env fields ≠ 0 ∧
      u.compoundfield = fields.map (compoundField env) ∧
      u.size = byteCountOf fields +
        Int.tmod (maxAlignOf env fields - Int.tmod (byteCountOf fields) (maxAlignOf env fields))
          (maxAlignOf env fields) := by
  unfold parseStructure at h
  cases hf : parseFields env T [] decls with
  | error e => rw [hf] at h; cases h
  | ok fields =>
    rw [hf] at h
    simp only [] at h
    unfold endStructure at h
    simp only [] at h
    have hno : reg.userdefinedtype ≠ reg.userdefinedtype ++ [u] := by
      intro hc
      have := congrArg List.length hc
      simp at this
    split_ifs at h with h1 h2 h3
    · simp only [Except.ok.injEq, Prod.mk.injEq] at h
      obtain ⟨_, hreg⟩ := h
      rw [← hreg] at hu
      simp only [List.append_cancel_left_eq, List.cons.injEq, and_true] at hu
      refine ⟨fields, rfl, ?_, h3, ?_, ?_⟩
      · intro hnil
        rw [hnil] at h2
        simp at h2
      · rw [← hu]
      · rw [← hu]
    · simp only [Except.ok.injEq, Prod.mk.injEq] at h
      rw [← h.2] at hu
      exact absurd hu hno
    · simp only [Except.ok.injEq, Prod.mk.injEq] at h
      rw [← h.2] at hu
      exact absurd hu hno

/-- C7: in every structure that parseIncludeFile registers, the first element has
offset 0 and padding 0, and each later element has offset[i] = offset[i-1] +
size[i-1]*count[i-1] + offpad[i], when the alignment helpers satisfy
newoffset(x, t) = x + padding(x, t). -/
theorem parseIncludeFile_offsets (env : LayoutEnv) (T : AliasTables)
    (header name name1 name2 : List Char) (decls : List FieldDecl) (reg reg1 : USERDEFINEDTYPELIST)
    (err : Int) (u : USERDEFINEDTYPE)
    (hnew : ∀ x t, env.newoffset x t = x + env.padding x t)
    (h : parseStructure env T header name name1 name2 decls reg = Except.ok (err, reg1))
    (hu : reg1.userdefinedtype = reg.userdefinedtype ++ [u]) :
    (∃ c, u.compoundfield.head? = some c ∧ c.offset = 0 ∧ c.offpad = 0) ∧
    ∀ (i : Nat) (q r : COMPOUNDFIELD), u.compoundfield[i]? = some q →
      u.compoundfield[i + 1]? = some r → r.offset = q.offset + q.size * q.count + r.offpad := by
  obtain ⟨fields, hf, hne, _, hcf, _⟩ :=
    parseStructure_registered env T header name name1 name2 decls reg reg1 err u h hu
  obtain ⟨h0, hc⟩ := parseFields_chain env T hnew decls [] fields
    (fun r hr => by cases hr) List.chain'_nil hf
  rw [hcf]
  constructor
  · cases fields with
    | nil => exact absurd rfl hne
    | cons a l => exact ⟨compoundField env a, rfl, h0 a rfl⟩
  · intro i q r hq hr
    rw [List.getElem?_map] at hq hr
    cases hq1 : fields[i]? with
    | none => rw [hq1] at hq; cases hq
    | some q1 =>
      cases hr1 : fields[i + 1]? with
      | none => rw [hr1] at hr; cases hr
      | some r1 =>
        rw [hq1] at hq
        rw [hr1] at hr
        simp only [Option.map_some', Option.some.injEq] at hq hr
        rw [← hq, ← hr]
        exact chain_index fields hc i q1 r1 hq1 hr1

/-- Witness for C7: the structure AAA with elements char a; int b[3]; double *c;
double d; on the sample platform has offsets 0, 4, 16, 24 and paddings 0, 3, 0, 0. -/
theorem parseIncludeFile_offsets_witness :
    sampleType.compoundfield.map (fun c => (c.offset, c.offpad, c.size, c.count))
      = [((0 : Int), (0 : Int), (1 : Int), (1 : Int)), (4, 3, 4, 3), (16, 0, 8, 1),
         (24, 0, 8, 1)] ∧
    ∃ c, sampleType.compoundfield.head? = some c ∧ c.offset = 0 ∧ c.offpad = 0 :=
  ⟨rfl, (parseIncludeFile_offsets sampleEnv noAliases "sample.h".toList "AAA".toList
    "AAA".toList "AAA".toList sampleDecls emptyRegistry sampleRegistered 0 sampleType
    (fun _ _ => rfl) rfl rfl).1⟩

theorem tmod_of_neg (b m : Int) (hb : b < 0) (hm : 0 < m) :
    Int.tmod b m = -((-b) % m) := by
  have h1 : Int.tmod (-b) m = (-b) % m := Int.tmod_eq_emod (by omega) (by omega)
  rw [← h1, Int.tmod_def, Int.tmod_def, Int.neg_tdiv]
  ring

/-- The final packing of line 403 brings `b` up to the next multiple of `m`. -/
theorem finalPacking (b m : Int) (hm : 0 < m) :
    m ∣ (b + Int.tmod (m - Int.tmod b m) m) ∧
    b ≤ b + Int.tmod (m - Int.tmod b m) m ∧
    b + Int.tmod (m - Int.tmod b m) m < b + m := by
  rcases lt_or_le b 0 with hb | hb
  · rw [tmod_of_neg b m hb hm]
    have hr0 : 0 ≤ (-b) % m := Int.emod_nonneg _ (by omega)
    have hr1 : (-b) % m < m := Int.emod_lt_of_pos _ hm
    have h2 : Int.tmod (m - -((-b) % m)) m = (-b) % m := by
      rw [Int.tmod_eq_emod (by omega) (by omega)]
      rw [show m - -((-b) % m) = (-b) % m + m by ring, Int.add_emod_self]
      exact Int.emod_emod_of_dvd _ (dvd_refl m)
    rw [h2]
    refine ⟨?_, by omega, by omega⟩
    have h3 : m ∣ (-b - (-b) % m) := Int.dvd_sub_of_emod_eq rfl
    have h4 : b + (-b) % m = -(-b - (-b) % m) := by ring
    rw [h4]
    exact (Int.dvd_neg).2 h3
  · rw [Int.tmod_eq_emod hb (by omega)]
    have hr0 : 0 ≤ b % m := Int.emod_nonneg _ (by omega)
    have hr1 : b % m < m := Int.emod_lt_of_pos _ hm
    rw [Int.tmod_eq_emod (by omega) (by omega)]
    have h3 : m ∣ (b - b % m) := Int.dvd_sub_of_emod_eq rfl
    rcases eq_or_lt_of_le hr0 with h0 | h0
    · rw [← h0]
      simp only [sub_zero, Int.emod_self, add_zero]
      refine ⟨?_, by omega, by omega⟩
      rw [← h0] at h3
      simpa using h3
    · have h5 : (m - b % m) % m = m - b % m := Int.emod_eq_of_lt (by omega) (by omega)
      rw [h5]
      refine ⟨?_, by omega, by omega⟩
      have h6 : b + (m - b % m) = (b - b % m) + m := by ring
      rw [h6]
      exact dvd_add h3 (dvd_refl m)

theorem foldl_max_ge (l : List Int) :
    ∀ m : Int, m ≤ l.foldl (fun m a => if a > m then a else m) m := by
  induction l with
  | nil => intro m; exact le_refl m
  | cons a l ih =>
    intro m
    simp only [List.foldl_cons]
    split_ifs with h
    · exact le_trans (le_of_lt h) (ih a)
    · exact ih m

/-- Along a chain of elements the byte count telescopes to the end of the last. -/
theorem byteCount_chain : ∀ (a : FieldRec) (l : List FieldRec), List.Chain' offsetRule (a :: l) →
    byteCountOf (a :: l) =
      ((a :: l).getLast (List.cons_ne_nil a l)).offset +
        ((a :: l).getLast (List.cons_ne_nil a l)).size *
          ((a :: l).getLast (List.cons_ne_nil a l)).count - a.offset + a.offpad
  | a, [], _ => by
    simp only [byteCountOf, List.map_cons, List.map_nil, List.sum_cons, List.sum_nil,
      List.getLast_singleton]
    ring
  | a, b :: l, hc => by
    have ih := byteCount_chain b l hc.tail
    have hab : offsetRule a b := hc.rel_head
    unfold offsetRule at hab
    simp only [byteCountOf, List.map_cons, List.sum_cons] at ih ⊢
    rw [List.getLast_cons (List.cons_ne_nil b l), ih]
    linarith

/-- C8: for every structure that parseIncludeFile registers, the recorded size is
the end address of the last element (offset + size*count, which is the sum over the
elements of size*count + offpad) rounded up to the next multiple of the largest
element alignment: a multiple of maxAlign, at least the end address and less than
the end address plus maxAlign, when newoffset(x, t) = x + padding(x, t). -/
theorem parseIncludeFile_size (env : LayoutEnv) (T : AliasTables)
    (header name name1 name2 : List Char) (decls : List FieldDecl) (reg reg1 : USERDEFINEDTYPELIST)
    (err : Int) (u : USERDEFINEDTYPE)
    (hnew : ∀ x t, env.newoffset x t = x + env.padding x t)
    (h : parseStructure env T header name name1 name2 decls reg = Except.ok (err, reg1))
    (hu : reg1.userdefinedtype = reg.userdefinedtype ++ [u]) :
    ∃ c, u.compoundfield.getLast? = some c ∧
      c.offset + c.size * c.count
        = (u.compoundfield.map (fun c => c.size * c.count + c.offpad)).sum ∧
      0 < maxAlignment u.compoundfield ∧
      maxAlignment u.compoundfield ∣ u.size ∧
      c.offset + c.size * c.count ≤ u.size ∧
      u.size < c.offset + c.size * c.count + maxAlignment u.compoundfield := by
  obtain ⟨fields, hf, hne, hma, hcf, hsize⟩ :=
    parseStructure_registered env T header name name1 name2 decls reg reg1 err u h hu
  obtain ⟨h0, hc⟩ := parseFields_chain env T hnew decls [] fields
    (fun r hr => by cases hr) List.chain'_nil hf
  have hpos : 0 < maxAlignOf env fields :=
    lt_of_le_of_ne (foldl_max_ge _ 0) (Ne.symm hma)
  cases fields with
  | nil => exact absurd rfl hne
  | cons a l =>
    have hbc := byteCount_chain a l hc
    obtain ⟨ha0, hap⟩ := h0 a rfl
    rw [ha0, hap] at hbc
    simp only [sub_zero, add_zero] at hbc
    have hsum : (u.compoundfield.map (fun c => c.size * c.count + c.offpad)).sum
        = byteCountOf (a :: l) := by
      rw [hcf, List.map_map]
      rfl
    have hmax : maxAlignment u.compoundfield = maxAlignOf env (a :: l) := by
      rw [hcf]; rfl
    obtain ⟨p1, p2, p3⟩ := finalPacking (byteCountOf (a :: l)) (maxAlignOf env (a :: l)) hpos
    refine ⟨compoundField env ((a :: l).getLast (List.cons_ne_nil a l)), ?_, ?_, ?_, ?_, ?_, ?_⟩
    · rw [hcf, List.getLast?_map, List.getLast?_eq_getLast _ (List.cons_ne_nil a l)]
      rfl
    · rw [hsum, hbc]
      rfl
    · rw [hmax]; exact hpos
    · rw [hmax, hsize]; exact p1
    · rw [hsize]
      show ((a :: l).getLast _).offset + ((a :: l).getLast _).size * ((a :: l).getLast _).count ≤ _
      rw [← hbc]; exact p2
    · rw [hsize, hmax]
      show _ < ((a :: l).getLast _).offset +
        ((a :: l).getLast _).size * ((a :: l).getLast _).count + _
      rw [← hbc]; exact p3

/-- Witness for C8: the structure AAA has its last element at offset 24 with size 8,
alignment 8 at most, and recorded size 32. -/
theorem parseIncludeFile_size_witness :
    (sampleType.size, maxAlignment sampleType.compoundfield) = ((32 : Int), (8 : Int)) ∧
    ∃ c, sampleType.compoundfield.getLast? = some c ∧
      c.offset + c.size * c.count
        = (sampleType.compoundfield.map (fun c => c.size * c.count + c.offpad)).sum ∧
      0 < maxAlignment sampleType.compoundfield ∧
      maxAlignment sampleType.compoundfield ∣ sampleType.size ∧
      c.offset + c.size * c.count ≤ sampleType.size ∧
      sampleType.size < c.offset + c.size * c.count + maxAlignment sampleType.compoundfield :=
  ⟨rfl, parseIncludeFile_size sampleEnv noAliases "sample.h".toList "AAA".toList
    "AAA".toList "AAA".toList sampleDecls emptyRegistry sampleRegistered 0 sampleType
    (fun _ _ => rfl) rfl rfl⟩

theorem strchrFrom_ge (s : List Char) (c : Char) (start k : Nat)
    (h : strchrFrom s c start = some k) : start ≤ k := by
  unfold strchrFrom at h
  split at h
  · cases h; omega
  · cases h

/-- The fuel given to the array loop is never exhausted: the loop ends in its first
or second pass. -/
theorem shapeLoop_fuel (env : LayoutEnv) (T : AliasTables) (item : List Char) (n p : Nat)
    (st : ShapeState) :
    shapeLoop env T item (n + 2) p st ≠ Except.error ParseFault.outOfFuel := by
  unfold shapeLoop
  cases h2 : strchrFrom item ']' 0 with
  | none => simp
  | some p2 =>
    simp only []
    split_ifs
    · simp
    · cases h1 : strchrFrom item '[' p2 with
      | none => simp
      | some p1 =>
        simp only []
        unfold shapeLoop
        rw [h2]
        simp only []
        have hge := strchrFrom_ge item '[' p2 p1 h1
        rw [if_pos (by omega)]
        simp

theorem parseShape_fuel (env : LayoutEnv) (T : AliasTables) (pointer : Int)
    (item : List Char) :
    parseShape env T pointer item ≠ Except.error ParseFault.outOfFuel := by
  unfold parseShape
  simp only []
  split_ifs
  · cases h : strchrFrom item '[' 0 with
    | none => simp
    | some p =>
      simp only []
      have hf := shapeLoop_fuel env T item item.length p { rnk := 0, shape := [], count := 0 }
      cases hl : shapeLoop env T item (item.length + 2) p { rnk := 0, shape := [], count := 0 } with
      | ok st => simp
      | error e =>
        rw [hl] at hf
        simpa using hf
  · simp

/-- C9 (code evaluated at the failing input): the element int a[2][3]; makes the
second pass of the array loop call strncpy with a negative length (undefined
behaviour, the documented seg fault), so no count is recorded; int b[3]; records
rank 1, shape 3 and count 3, and a scalar records count 1. -/
theorem parseField_rank_two :
    parseField sampleEnv noAliases none (decl "int" "a[2][3]")
      = Except.error ParseFault.negativeLength ∧
    (match parseField sampleEnv noAliases none (decl "int" "b[3]") with
     | Except.ok r => some (r.rank, r.shape, r.count)
     | Except.error _ => none) = some ((1 : Int), [(3 : Int)], (3 : Int)) ∧
    (match parseField sampleEnv noAliases none (decl "int" "c") with
     | Except.ok r => some (r.rank, r.shape, r.count)
     | Except.error _ => none) = some ((0 : Int), [], (1 : Int)) := by
  refine ⟨rfl, rfl, rfl⟩

/-- C10 (as stated, refuted): with typedef int A; typedef A B; typedef B C; a field
declared with type C is recorded with type A, which one more round of substitution
would still change (to int), and its size on the sample platform is 0. -/
theorem substituteAliases_chain_of_three :
    chainAliases.typeDefs
      = [("A".toList, "int".toList), ("B".toList, "A".toList), ("C".toList, "B".toList)] ∧
    (substituteAliases chainAliases ("C".toList, 0)).1 = "A".toList ∧
    (substituteOnce chainAliases (substituteAliases chainAliases ("C".toList, 0))).1
      = "int".toList ∧
    (match parseField sampleEnv chainAliases none (decl "C" "x") with
     | Except.ok r => some (r.type, r.size)
     | Except.error _ => none) = some ("A".toList, (0 : Int)) := by
  refine ⟨by decide, by decide, by decide, rfl⟩

/-- C10 (amended): parseIncludeFile makes two rounds of substitution.  For a chain of
two type definitions (t defined as t1, t1 defined as t2, where t2 is in no table and
neither t nor t1 is an enumerated type, a structure synonym or STRING), the name
recorded for a field declared with t is the underlying type t2, and a further round
of substitution leaves it as it is. -/
theorem substituteAliases_two_links (T : AliasTables) (t t1 t2 : List Char) (j1 j2 : Nat)
    (p : Int)
    (hE : T.typeEnum.contains t = false) (hE1 : T.typeEnum.contains t1 = false)
    (hE2 : T.typeEnum.contains t2 = false)
    (ht : t ≠ "STRING".toList) (ht1 : t1 ≠ "STRING".toList)
    (h1 : firstMatch t 0 T.typeDefs = some (j1, t1))
    (h2 : firstMatch t1 0 T.typeDefs = some (j2, t2))
    (h3 : firstMatch t2 0 T.typeDefs = none)
    (hS1 : firstMatch t1 0 T.typeStrs = none)
    (hS2 : firstMatch t2 0 T.typeStrs = none) :
    (substituteAliases T (t, p)).1 = t2 ∧
    (substituteOnce T (substituteAliases T (t, p))).1 = t2 := by
  have r1 : ∀ q, (substituteOnce T (t, q)).1 = t1 := by
    intro q
    unfold substituteOnce
    simp only [hE, Bool.false_eq_true, reduceIte, ht, h1, hS1]
  have r2 : ∀ q, (substituteOnce T (t1, q)).1 = t2 := by
    intro q
    unfold substituteOnce
    simp only [hE1, Bool.false_eq_true, reduceIte, ht1, h2, hS2]
  have r3 : ∀ q, (substituteOnce T (t2, q)).1 = t2 := by
    intro q
    unfold substituteOnce
    simp only [hE2, Bool.false_eq_true, reduceIte, h3]
    split_ifs <;> simp only [hS2]
  have e1 : substituteOnce T (t, p) = (t1, (substituteOnce T (t, p)).2) :=
    Prod.ext (r1 p) rfl
  have e2 : substituteAliases T (t, p) = (t2, (substituteAliases T (t, p)).2) := by
    unfold substituteAliases
    rw [e1]
    exact Prod.ext (r2 _) rfl
  constructor
  · rw [e2]
  · rw [e2]; exact r3 _

/-- Witness for C10 (amended): with typedef int A; typedef A B; a field declared
with type B is recorded with type int. -/
theorem substituteAliases_two_links_witness :
    (substituteAliases pairAliases ("B".toList, 0)).1 = "int".toList ∧
    (substituteOnce pairAliases (substituteAliases pairAliases ("B".toList, 0))).1
      = "int".toList :=
  substituteAliases_two_links pairAliases "B".toList "A".toList "int".toList 1 0 0
    (by decide) (by decide) (by decide) (by decide) (by decide) (by decide) (by decide)
    (by decide) (by decide) (by decide)

/-- A round of substitution never clears the pointer flag. -/
theorem substituteOnce_pointer (T : AliasTables) (s : List Char × Int) (h : s.2 ≠ 0) :
    (substituteOnce T s).2 ≠ 0 := by
  unfold substituteOnce
  simp only []
  repeat' split
  all_goals first | exact one_ne_zero | exact h

theorem substituteAliases_pointer (T : AliasTables) (s : List Char × Int) (h : s.2 ≠ 0) :
    (substituteAliases T s).2 ≠ 0 :=
  substituteOnce_pointer T _ (substituteOnce_pointer T s h)

theorem detectPointer_star (env : LayoutEnv) (d : FieldDecl)
    (h : d.item.head? = some '*' ∨ d.type.getLast? = some '*') :
    (detectPointer env d).2.2 = 1 := by
  unfold detectPointer
  split_ifs with h1 h2
  · rfl
  · rfl
  · cases h with
    | inl h => exact absurd h h1
    | inr h => exact absurd h h2

/-- C13: a structure element that parseIncludeFile marks as a pointer (a star in front
of the name, a star at the end of the type, or a pointer flag set by the substitution
of type definitions) is always parsed, whatever the element before it, and its
registered form has rank 0, no shape, count 1, the size of a pointer on the platform
and the alignment getalignmentof("*"); none of these depends on the type pointed to. -/
theorem parseIncludeFile_pointer_field (env : LayoutEnv) (T : AliasTables)
    (prev : Option FieldRec) (d : FieldDecl)
    (h : d.item.head? = some '*' ∨ d.type.getLast? = some '*' ∨
      (substituteAliases T ((detectPointer env d).1, (detectPointer env d).2.2)).2 ≠ 0) :
    ∃ r, parseField env T prev d = Except.ok r ∧ r.pointer ≠ 0 ∧
      (compoundField env r).pointer = r.pointer ∧
      (compoundField env r).rank = 0 ∧ (compoundField env r).shape = none ∧
      (compoundField env r).count = 1 ∧ (compoundField env r).size = env.sizeofPointer ∧
      (compoundField env r).alignment = env.getalignmentof "*".toList := by
  have hp : (substituteAliases T ((detectPointer env d).1, (detectPointer env d).2.2)).2 ≠ 0 := by
    rcases h with h | h | h
    · apply substituteAliases_pointer
      simp only [detectPointer_star env d (Or.inl h)]
      exact one_ne_zero
    · apply substituteAliases_pointer
      simp only [detectPointer_star env d (Or.inr h)]
      exact one_ne_zero
    · exact h
  unfold parseField
  simp only []
  unfold parseShape
  simp only [hp, reduceIte]
  cases prev with
  | none =>
    refine ⟨_, rfl, hp, rfl, ?_, ?_, ?_, ?_, ?_⟩ <;> simp [compoundField, hp]
  | some q =>
    refine ⟨_, rfl, hp, rfl, ?_, ?_, ?_, ?_, ?_⟩ <;> simp [compoundField, hp]

/-- Witness for C13: the element double *c; on the sample platform. -/
theorem parseIncludeFile_pointer_field_witness :
    ∃ r, parseField sampleEnv noAliases none (decl "double" "*c") = Except.ok r ∧
      r.pointer ≠ 0 ∧
      (compoundField sampleEnv r).pointer = r.pointer ∧
      (compoundField sampleEnv r).rank = 0 ∧ (compoundField sampleEnv r).shape = none ∧
      (compoundField sampleEnv r).count = 1 ∧
      (compoundField sampleEnv r).size = sampleEnv.sizeofPointer ∧
      (compoundField sampleEnv r).alignment = sampleEnv.getalignmentof "*".toList :=
  parseIncludeFile_pointer_field sampleEnv noAliases none (decl "double" "*c")
    (Or.inl (by decide))

theorem parseField_sizeRule (env : LayoutEnv) (T : AliasTables) (prev : Option FieldRec)
    (d : FieldDecl) (r : FieldRec) (h : parseField env T prev d = Except.ok r) :
    sizeRule env r := by
  unfold parseField at h
  simp only [] at h
  split at h
  · cases h
  · cases prev with
    | none => cases h; rfl
    | some q => cases h; rfl

theorem parseFields_sizeRule (env : LayoutEnv) (T : AliasTables) (decls : List FieldDecl) :
    ∀ (acc fields : List FieldRec), (∀ r ∈ acc, sizeRule env r) →
      parseFields env T acc decls = Except.ok fields → ∀ r ∈ fields, sizeRule env r := by
  induction decls with
  | nil =>
    intro acc fields hacc h
    unfold parseFields at h
    cases h
    exact hacc
  | cons d ds ih =>
    intro acc fields hacc h
    unfold parseFields at h
    cases hr : parseField env T acc.getLast? d with
    | error e => rw [hr] at h; cases h
    | ok r =>
      rw [hr] at h
      simp only [] at h
      apply ih (acc ++ [r]) fields _ h
      intro x hx
      rcases List.mem_append.mp hx with hx | hx
      · exact hacc x hx
      · rw [List.mem_singleton.mp hx]
        exact parseField_sizeRule env T _ d r hr

/-- C11 (as stated, refuted): on the sample platform the structure BBB with the
elements mystery m; int a; where getsizeof yields 0 for the type name mystery and no
alias table knows it, is parsed with error 0 and appended to the empty registry: the
element m is registered with type mystery and size 0. -/
theorem parseIncludeFile_registers_unresolved :
    sampleEnv.getsizeof "mystery".toList = 0 ∧
    (match parseStructure sampleEnv noAliases "sample.h".toList "BBB".toList "BBB".toList
        "BBB".toList unresolvedDecls emptyRegistry with
     | Except.ok x =>
       some (x.1, x.2.userdefinedtype.map (fun u =>
         (u.name, u.fieldcount, u.size, u.compoundfield.map (fun c => (c.name, c.type, c.size)))))
     | Except.error _ => none)
      = some ((0 : Int), [("BBB".toList, (2 : Int), (4 : Int),
          [("m".toList, "mystery".toList, (0 : Int)), ("a".toList, "int".toList, (4 : Int))])]) := by
  refine ⟨rfl, rfl⟩

/-- C11 (amended): parseIncludeFile does not test whether the type name of an element
resolves.  When the elements of a structure parse, there is at least one and the
largest alignment is not 0, a definition whose names agree is registered with error
0: the structure is appended to the registry, and each element that is not a pointer
and not of type STRING is registered with the size that getsizeof yields for its type
name, so with size 0 when that is 0.  The one error at registration is 999, for names
that do not agree, and then the registry is as before. -/
theorem parseIncludeFile_unresolved_size (env : LayoutEnv) (T : AliasTables)
    (header name : List Char) (decls : List FieldDecl) (reg : USERDEFINEDTYPELIST)
    (fields : List FieldRec)
    (hf : parseFields env T [] decls = Except.ok fields) (hne : fields ≠ [])
    (hal : maxAlignOf env fields ≠ 0) :
    (∃ u, parseStructure env T header name name name decls reg
        = Except.ok (0, { reg with userdefinedtype := reg.userdefinedtype ++ [u] }) ∧
      u.compoundfield = fields.map (compoundField env) ∧
      ∀ c ∈ u.compoundfield, c.pointer = 0 → c.type ≠ "STRING".toList →
        c.size = env.getsizeof c.type) ∧
    ∀ name1 name2, ¬ (name = name1 ∧ name = name2) →
      parseStructure env T header name name1 name2 decls reg = Except.ok (999, reg) := by
  constructor
  · refine ⟨{ name := name, source := header, idamclass := TYPE_COMPOUND,
               compoundfield := fields.map (compoundField env), fieldcount := fields.length,
               size := byteCountOf fields +
                 Int.tmod (maxAlignOf env fields -
                   Int.tmod (byteCountOf fields) (maxAlignOf env fields))
                   (maxAlignOf env fields) }, ?_, rfl, ?_⟩
    · unfold parseStructure
      rw [hf]
      simp only []
      unfold endStructure
      have hlen : fields.length > 0 := List.length_pos.mpr hne
      simp only [and_self, reduceIte, hlen, hal]
    · intro c hc hp ht
      simp only [List.mem_map] at hc
      obtain ⟨r, hr, rfl⟩ := hc
      have hs := parseFields_sizeRule env T decls [] fields (by intro r hr; cases hr) hf r hr
      unfold sizeRule at hs
      simp only [compoundField] at hp ht ⊢
      rw [hs]
      simp only [hp, ne_eq, not_true_eq_false, reduceIte, ht]
  · intro name1 name2 hn
    unfold parseStructure
    rw [hf]
    simp only []
    unfold endStructure
    simp only [hn, reduceIte]

/-- Witness for C11 (amended): the structure BBB with the elements mystery m; int a;
on the sample platform. -/
theorem parseIncludeFile_unresolved_size_witness :
    (∃ u, parseStructure sampleEnv noAliases "sample.h".toList "BBB".toList "BBB".toList
          "BBB".toList unresolvedDecls emptyRegistry
        = Except.ok (0, { emptyRegistry with
            userdefinedtype := emptyRegistry.userdefinedtype ++ [u] }) ∧
      u.compoundfield
        = (match parseFields sampleEnv noAliases [] unresolvedDecls with
           | Except.ok fs => fs
           | Except.error _ => []).map (compoundField sampleEnv) ∧
      ∀ c ∈ u.compoundfield, c.pointer = 0 → c.type ≠ "STRING".toList →
        c.size = sampleEnv.getsizeof c.type) ∧
    ∀ name1 name2, ¬ ("BBB".toList = name1 ∧ "BBB".toList = name2) →
      parseStructure sampleEnv noAliases "sample.h".toList "BBB".toList name1 name2
        unresolvedDecls emptyRegistry = Except.ok (999, emptyRegistry) :=
  parseIncludeFile_unresolved_size sampleEnv noAliases "sample.h".toList "BBB".toList
    unresolvedDecls emptyRegistry
    (match parseFields sampleEnv noAliases [] unresolvedDecls with
     | Except.ok fs => fs
     | Except.error _ => [])
    rfl (by decide) (by decide)

/-! ## Theorems: the type registry -/

/-- C12 (as stated, refuted): in a GENERALSTRUCTS build freeDataBlock, on a block with
a structures payload, turns a registry holding the structure AAA into a null
registry, and so does freeReducedDataBlock in a build that also defines FATCLIENT:
the entry is removed, and the list before is not a prefix of the list after. -/
theorem freeDataBlock_clears_registry :
    (registryEntries registeredGlobals).map USERDEFINEDTYPE.name = ["AAA".toList] ∧
    (freeDataBlock true registeredGlobals
      (some (sampleBlock OPAQUE_TYPE_STRUCTURES))).globals.userdefinedtypelist = none ∧
    (freeReducedDataBlock true true registeredGlobals
      (some (sampleBlock OPAQUE_TYPE_STRUCTURES))).globals.userdefinedtypelist = none ∧
    ¬ (registryEntries registeredGlobals <+:
        registryEntries (freeDataBlock true registeredGlobals
          (some (sampleBlock OPAQUE_TYPE_STRUCTURES))).globals) ∧
    ¬ (registryEntries registeredGlobals <+:
        registryEntries (freeReducedDataBlock true true registeredGlobals
          (some (sampleBlock OPAQUE_TYPE_STRUCTURES))).globals) := by
  refine ⟨rfl, rfl, rfl, ?_, ?_⟩
  · intro h
    have hl := h.length_le
    revert hl
    decide
  · intro h
    have hl := h.length_le
    revert hl
    decide

/-- What the opaque-payload switch of freeDataBlock does to the registry global. -/
theorem freeOpaque_registry (GENERALSTRUCTS : Bool) (g : Globals) (b : DATA_BLOCK) :
    (freeOpaque GENERALSTRUCTS g b).globals.userdefinedtypelist
      = (if GENERALSTRUCTS = true ∧ structuresPayload (some b) = true then none
         else g.userdefinedtypelist) := by
  unfold freeOpaque structuresPayload
  cases GENERALSTRUCTS <;> cases hb : b.opaque_block <;>
    by_cases h1 : b.opaque_type = OPAQUE_TYPE_XML_DOCUMENT <;>
    by_cases h2 : b.opaque_type = OPAQUE_TYPE_STRUCTURES <;>
    simp [h1, h2] <;>
    simp_all [OPAQUE_TYPE_XML_DOCUMENT, OPAQUE_TYPE_STRUCTURES] <;>
    split_ifs <;> rfl

/-- C12 (amended): parseIncludeFile only appends to the registry: when it returns,
the registry object is the same and the list of entries before is a prefix of the
list after.  freeDataBlock in a GENERALSTRUCTS build, and freeReducedDataBlock in a
build with GENERALSTRUCTS and FATCLIENT, release the whole registry and leave the
global null when the block carries a structures payload (opaque type
OPAQUE_TYPE_STRUCTURES, opaque block not null); in every other case they leave the
registry as it was. -/
theorem registry_appended_or_released (env : LayoutEnv) (T : AliasTables)
    (header name name1 name2 : List Char) (decls : List FieldDecl) (reg : USERDEFINEDTYPELIST)
    (GENERALSTRUCTS FATCLIENT : Bool) (g : Globals) (data_block : Option DATA_BLOCK) :
    (match parseStructure env T header name name1 name2 decls reg with
     | Except.ok x => x.2.addr = reg.addr ∧ reg.userdefinedtype <+: x.2.userdefinedtype
     | Except.error _ => True) ∧
    (freeDataBlock GENERALSTRUCTS g data_block).globals.userdefinedtypelist
      = (if GENERALSTRUCTS = true ∧ structuresPayload data_block = true then none
         else g.userdefinedtypelist) ∧
    (freeReducedDataBlock GENERALSTRUCTS FATCLIENT g data_block).globals.userdefinedtypelist
      = (if GENERALSTRUCTS = true ∧ FATCLIENT = true ∧ structuresPayload data_block = true
         then none else g.userdefinedtypelist) := by
  refine ⟨?_, ?_, ?_⟩
  · unfold parseStructure
    cases hf : parseFields env T [] decls with
    | error e => simp only []
    | ok fields =>
      simp only []
      unfold endStructure
      simp only []
      split_ifs <;> simp
  · cases data_block with
    | none => simp [freeDataBlock, structuresPayload]
    | some b =>
      simp only [freeDataBlock, freeDataBlockAt]
      exact freeOpaque_registry GENERALSTRUCTS g b
  · cases data_block with
    | none => cases GENERALSTRUCTS <;> cases FATCLIENT <;>
        simp [freeReducedDataBlock, structuresPayload]
    | some b =>
      cases GENERALSTRUCTS <;> cases FATCLIENT <;> cases hb : b.opaque_block <;>
        by_cases h2 : b.opaque_type = OPAQUE_TYPE_STRUCTURES <;>
        simp [freeReducedDataBlock, structuresPayload, hb, h2]

/-! ## Theorems: the time axis in readCDF -/

theorem timeOrder_eq (compliance : Bool) (f : CoordFile) (ii : Nat) (order : Int) :
    timeOrder compliance f ii order = if timeMatch compliance f = true then (ii : Int) else order := by
  unfold timeOrder timeMatch
  cases compliance <;> simp

/-- The order after one iteration of the dimension loop. -/
theorem readCDFDim_order_eq (E : NcErrors) (compliance : Bool) (cls : Int) (get_nodimdata : Bool)
    (sub : CDFSUBSET) (dimids unlimdimids : List Int) (extent : List Nat) (st : LoopState)
    (i : Nat) (f : CoordFile) :
    (readCDFDim E compliance cls get_nodimdata sub dimids unlimdimids extent st i f).block.order
      = if (reachesTimeTest E compliance cls get_nodimdata sub dimids unlimdimids extent st i f
            && timeMatch compliance f) = true
        then ((st.block.rank - i - 1 : Nat) : Int) else st.block.order := by
  unfold readCDFDim reachesTimeTest
  simp only []
  by_cases hA : get_nodimdata = true ∨ st.block.data_type = UDA_TYPE_STRING
  · have hA2 : (get_nodimdata || decide (st.block.data_type = UDA_TYPE_STRING)) = true := by
      simpa using hA
    simp only [hA, reduceIte, hA2, Bool.not_true, Bool.false_and, Bool.false_eq_true]
    rfl
  · have hA2 : (get_nodimdata || decide (st.block.data_type = UDA_TYPE_STRING)) = false := by
      simpa using hA
    simp only [hA, reduceIte, hA2, Bool.not_false, Bool.true_and]
    by_cases h1 : f.inq_dim_rc = 0
    · by_cases h2 : f.coord_rc = 0
      · simp only [h1, h2, ne_eq, not_true_eq_false, reduceIte, decide_True, Bool.true_and]
        unfold readCoordinate
        simp only []
        split_ifs <;> simp_all [timeOrder_eq]
      · simp only [h1, h2, ne_eq, not_true_eq_false, not_false_eq_true, reduceIte, decide_True,
          decide_False, Bool.true_and, Bool.false_and, Bool.false_eq_true]
        split_ifs
        · split <;> rfl
        · rfl
    · simp only [h1, ne_eq, not_false_eq_true, reduceIte, decide_False, Bool.false_and,
        Bool.false_eq_true]
      rfl

theorem readCDFDims_rank (E : NcErrors) (compliance : Bool) (cls : Int) (get_nodimdata : Bool)
    (sub : CDFSUBSET) (dimids unlimdimids : List Int) (extent : List Nat)
    (coords : Nat → CoordFile) (n : Nat) : ∀ (i : Nat) (st : LoopState),
    (readCDFDims E compliance cls get_nodimdata sub dimids unlimdimids extent coords n i
        st).block.rank = st.block.rank := by
  induction n with
  | zero => intro i st; rfl
  | succ n ih =>
    intro i st
    have hr := readCDFDim_rank E compliance cls get_nodimdata sub dimids unlimdimids extent st i
      (coords i)
    unfold readCDFDims
    simp only []
    split_ifs
    · exact hr
    · exact (ih (i + 1) _).trans hr

/-- One more iteration of the dimension loop, at its end. -/
theorem readCDFDims_succ (E : NcErrors) (compliance : Bool) (cls : Int) (get_nodimdata : Bool)
    (sub : CDFSUBSET) (dimids unlimdimids : List Int) (extent : List Nat)
    (coords : Nat → CoordFile) (k : Nat) : ∀ (i : Nat) (st : LoopState), st.broke = false →
    readCDFDims E compliance cls get_nodimdata sub dimids unlimdimids extent coords (k + 1) i st
      = if (readCDFDims E compliance cls get_nodimdata sub dimids unlimdimids extent coords k i
              st).broke = true
        then readCDFDims E compliance cls get_nodimdata sub dimids unlimdimids extent coords k i st
        else readCDFDim E compliance cls get_nodimdata sub dimids unlimdimids extent
               (readCDFDims E compliance cls get_nodimdata sub dimids unlimdimids extent coords
                  k i st) (i + k) (coords (i + k)) := by
  induction k with
  | zero =>
    intro i st hst
    rw [readCDFDims, readCDFDims]
    simp only [readCDFDims, hst, Bool.false_eq_true, reduceIte, Nat.add_zero]
    split_ifs <;> rfl
  | succ k ih =>
    intro i st hst
    rw [readCDFDims]
    by_cases hb : (readCDFDim E compliance cls get_nodimdata sub dimids unlimdimids extent st i
        (coords i)).broke = true
    · simp only [hb, reduceIte]
      rw [readCDFDims]
      simp only [hb, reduceIte]
    · simp only [hb, reduceIte]
      rw [ih (i + 1) _ (by simpa using hb)]
      conv_rhs => rw [readCDFDims]
      simp only [hb, reduceIte]
      have e : i + 1 + k = i + (k + 1) := by omega
      rw [e]
      simp only [Bool.false_eq_true, reduceIte]
/-- The order after the first n + 1 iterations of the dimension loop, from the order
after the first n. -/
theorem readCDFDims_order_succ (E : NcErrors) (compliance : Bool) (cls : Int)
    (get_nodimdata : Bool) (sub : CDFSUBSET) (dimids unlimdimids : List Int) (extent : List Nat)
    (coords : Nat → CoordFile) (st0 : LoopState) (h0 : st0.broke = false) (n : Nat) :
    (readCDFDims E compliance cls get_nodimdata sub dimids unlimdimids extent coords (n + 1) 0
        st0).block.order
      = if timeHit E compliance cls get_nodimdata sub dimids unlimdimids extent coords st0 n = true
        then ((st0.block.rank - n - 1 : Nat) : Int)
        else (readCDFDims E compliance cls get_nodimdata sub dimids unlimdimids extent coords n 0
                st0).block.order := by
  rw [readCDFDims_succ E compliance cls get_nodimdata sub dimids unlimdimids extent coords n 0 st0
    h0]
  unfold timeHit
  simp only [Nat.zero_add]
  by_cases hb : (readCDFDims E compliance cls get_nodimdata sub dimids unlimdimids extent coords
      n 0 st0).broke = true
  · simp only [hb, reduceIte, Bool.not_true, Bool.false_and, Bool.false_eq_true]
  · have hb2 : (readCDFDims E compliance cls get_nodimdata sub dimids unlimdimids extent coords
      n 0 st0).broke = false := by simpa using hb
    simp only [hb2, Bool.false_eq_true, reduceIte, Bool.not_false, Bool.true_and]
    rw [readCDFDim_order_eq, readCDFDims_rank]

/-- The order after the dimension loop: that of the last iteration whose test held,
the order at the start when there is none. -/
theorem readCDFDims_last_hit (E : NcErrors) (compliance : Bool) (cls : Int)
    (get_nodimdata : Bool) (sub : CDFSUBSET) (dimids unlimdimids : List Int) (extent : List Nat)
    (coords : Nat → CoordFile) (st0 : LoopState) (h0 : st0.broke = false) (n : Nat) :
    ((∀ i, i < n →
        timeHit E compliance cls get_nodimdata sub dimids unlimdimids extent coords st0 i = false) →
      (readCDFDims E compliance cls get_nodimdata sub dimids unlimdimids extent coords n 0
        st0).block.order = st0.block.order) ∧
    (∀ i, i < n →
      timeHit E compliance cls get_nodimdata sub dimids unlimdimids extent coords st0 i = true →
      (∀ j, i < j → j < n →
        timeHit E compliance cls get_nodimdata sub dimids unlimdimids extent coords st0 j = false) →
      (readCDFDims E compliance cls get_nodimdata sub dimids unlimdimids extent coords n 0
        st0).block.order = ((st0.block.rank - i - 1 : Nat) : Int)) := by
  induction n with
  | zero =>
    constructor
    · intro _; rfl
    · intro i hi; omega
  | succ n ih =>
    have hs := readCDFDims_order_succ E compliance cls get_nodimdata sub dimids unlimdimids extent
      coords st0 h0 n
    constructor
    · intro hno
      rw [hs, hno n (by omega)]
      simp only [Bool.false_eq_true, reduceIte]
      exact ih.1 (fun i hi => hno i (by omega))
    · intro i hi hhit hafter
      rw [hs]
      by_cases hin : i = n
      · rw [← hin, hhit]
        simp only [reduceIte]
      · rw [hafter n (by omega) (by omega)]
        simp only [Bool.false_eq_true, reduceIte]
        exact ih.2 i (by omega) hhit (fun j h1 h2 => hafter j h1 (by omega))

theorem extendStringRank_order_eq (v : VarFile) (b6 : DATA_BLOCK) :
    (extendStringRank v b6).order = b6.order := by
  unfold extendStringRank
  split_ifs <;> rfl

theorem dimLoopEntry_spec (E : NcErrors) (compliance : Bool) (cls : Int)
    (get_bytes get_nodimdata : Bool) (sub0 : CDFSUBSET) (v : VarFile) (b : DATA_BLOCK)
    (e : CDFSUBSET × LoopState)
    (h : dimLoopEntry E compliance cls get_bytes sub0 v b = some e) :
    e.2.block.order = -1 ∧ e.2.broke = false ∧
    readCDFVariable E compliance cls get_bytes get_nodimdata sub0 v b
      = ((readCDFDims E compliance cls get_nodimdata e.1 v.dimids v.unlimdimids v.extent v.coords
            e.2.block.rank 0 e.2).err,
         (readCDFDims E compliance cls get_nodimdata e.1 v.dimids v.unlimdimids v.extent v.coords
            e.2.block.rank 0 e.2).block) := by
  unfold dimLoopEntry at h
  unfold readCDFVariable
  by_cases h1 : v.inq_varndims_rc ≠ 0
  · rw [if_pos h1] at h
    cases h
  · rw [if_neg h1] at h ⊢
    by_cases h2 : v.rank > 0 ∧ v.inq_vardimid_rc ≠ 0
    · rw [if_pos h2] at h
      cases h
    · rw [if_neg h2] at h ⊢
      cases hc : completeSubset sub0 v.rank with
      | none => rw [hc] at h; cases h
      | some sub =>
        rw [hc] at h
        simp only [] at h ⊢
        by_cases h3 : v.inq_unlimdims_rc ≠ 0
        · rw [if_pos h3] at h
          cases h
        · rw [if_neg h3] at h ⊢
          by_cases h4 : (allocateDims E v { b with rank := v.rank, order := -1 }).broke = true
          · rw [if_pos h4] at h
            cases h
          · rw [if_neg h4] at h ⊢
            by_cases h5 : (readVariableData compliance cls get_bytes v
                (allocateDims E v { b with rank := v.rank, order := -1 }).block).broke = true
            · rw [if_pos h5] at h
              cases h
            · rw [if_neg h5] at h ⊢
              cases h
              refine ⟨?_, rfl, rfl⟩
              have ha := (allocateDims_order E v { b with rank := v.rank, order := -1 }).2
              have hd := (readVariableData_order compliance cls get_bytes v
                (allocateDims E v { b with rank := v.rank, order := -1 }).block).2
              simp only [extendStringRank_order_eq]
              exact hd.trans ha
/-- C19 (as stated, refuted): the coordinate variable of the one dimension has the
class attribute time (and the label Time).  When the client asks for no dimension
data readCDF returns without error and order -1, for a compliant and for a
non-compliant file: the dimension is given an index (line 1214) and never tested.
With dimension data the same files give order 0. -/
theorem readCDF_time_axis_not_read :
    timeMatch true (timeVariable.coords 0) = true ∧
    timeMatch false (timeVariable.coords 0) = true ∧
    readCDF sampleErrors true 0 false true noSubset (sampleLookup timeVariable) emptyBlock
      = (0, (readCDF sampleErrors true 0 false true noSubset (sampleLookup timeVariable)
              emptyBlock).2) ∧
    (readCDF sampleErrors true 0 false true noSubset (sampleLookup timeVariable)
      emptyBlock).2.order = -1 ∧
    (readCDF sampleErrors false 0 false true noSubset (sampleLookup timeVariable)
      emptyBlock).2.order = -1 ∧
    (readCDF sampleErrors true 0 false false noSubset (sampleLookup timeVariable)
      emptyBlock).2.order = 0 ∧
    (readCDF sampleErrors false 0 false false noSubset (sampleLookup timeVariable)
      emptyBlock).2.order = 0 := by
  refine ⟨by decide, by decide, rfl, rfl, rfl, rfl, rfl⟩

/-- C19 (amended): when readCDF reads a data variable and reaches the dimension loop
(entry state e), order is -1 there.  An iteration changes order only if it reaches
the test of line 1527, that is if dimension data are wanted, the data are not
strings, the coordinate variable exists and it, its domains and its attributes are
read without error; then dimension ii = rank - i - 1 becomes the order exactly when,
for a file that is not compliant, its label equals time or time3 ignoring case, and
for a compliant file, its class attribute equals time.  If no iteration that is run
and reaches the test matches, order is -1 on return; otherwise order is the index ii
of the last such iteration, the smallest matching ii. -/
theorem readCDF_time_axis (E : NcErrors) (compliance : Bool) (cls : Int)
    (get_bytes get_nodimdata : Bool) (sub0 : CDFSUBSET) (l : Lookup) (b : DATA_BLOCK)
    (e : CDFSUBSET × LoopState)
    (hm : ¬ (sub0.subsetCount > 0 ∧ sub0.subsetCount > E.NC_MAX_VAR_DIMS))
    (hl : (sub0.subsetCount > 0 ∧ l.reducedFound = true) ∨ l.variableFound = true)
    (h : dimLoopEntry E compliance cls get_bytes (readCDFSubset sub0 l) l.var b = some e) :
    e.2.block.order = -1 ∧
    (∀ (st : LoopState) (i : Nat) (f : CoordFile),
      (readCDFDim E compliance cls get_nodimdata e.1 l.var.dimids l.var.unlimdimids l.var.extent
          st i f).block.order
        = if (reachesTimeTest E compliance cls get_nodimdata e.1 l.var.dimids l.var.unlimdimids
                l.var.extent st i f && timeMatch compliance f) = true
          then ((st.block.rank - i - 1 : Nat) : Int) else st.block.order) ∧
    (∀ f : CoordFile,
      timeMatch false f
        = (STR_IEQUALS f.dim_label "time".toList || STR_IEQUALS f.dim_label "time3".toList) ∧
      timeMatch true f = decide (f.classtxt = "time".toList)) ∧
    ((∀ i, i < e.2.block.rank →
        timeHit E compliance cls get_nodimdata e.1 l.var.dimids l.var.unlimdimids l.var.extent
          l.var.coords e.2 i = false) →
      (readCDF E compliance cls get_bytes get_nodimdata sub0 l b).2.order = -1) ∧
    (∀ i, i < e.2.block.rank →
      timeHit E compliance cls get_nodimdata e.1 l.var.dimids l.var.unlimdimids l.var.extent
        l.var.coords e.2 i = true →
      (∀ j, i < j → j < e.2.block.rank →
        timeHit E compliance cls get_nodimdata e.1 l.var.dimids l.var.unlimdimids l.var.extent
          l.var.coords e.2 j = false) →
      (readCDF E compliance cls get_bytes get_nodimdata sub0 l b).2.order
        = ((e.2.block.rank - i - 1 : Nat) : Int)) := by
  obtain ⟨ho, hb, hv⟩ := dimLoopEntry_spec E compliance cls get_bytes get_nodimdata
    (readCDFSubset sub0 l) l.var b e h
  have hr : readCDF E compliance cls get_bytes get_nodimdata sub0 l b
      = readCDFVariable E compliance cls get_bytes get_nodimdata (readCDFSubset sub0 l)
          l.var b := by
    unfold readCDF
    rw [if_neg hm]
    simp only []
    rw [if_pos hl]
  have hlast := readCDFDims_last_hit E compliance cls get_nodimdata e.1 l.var.dimids
    l.var.unlimdimids l.var.extent l.var.coords e.2 hb e.2.block.rank
  refine ⟨ho, ?_, ?_, ?_, ?_⟩
  · intro st i f
    exact readCDFDim_order_eq _ _ _ _ _ _ _ _ _ _ _
  · intro f
    exact ⟨rfl, rfl⟩
  · intro hno
    rw [hr, hv]
    exact (hlast.1 hno).trans ho
  · intro i hi hhit hafter
    rw [hr, hv]
    exact hlast.2 i hi hhit hafter

/-- Witness for C19 (amended): the compliant file with the class attribute time on
the coordinate of the one dimension, read with dimension data, has order 0. -/
theorem readCDF_time_axis_witness :
    sampleLoopEntry.2.block.rank = 1 ∧
    (readCDF sampleErrors true 0 false false noSubset (sampleLookup timeVariable)
      emptyBlock).2.order = ((sampleLoopEntry.2.block.rank - 0 - 1 : Nat) : Int) :=
  ⟨rfl, (readCDF_time_axis sampleErrors true 0 false false noSubset (sampleLookup timeVariable)
    emptyBlock sampleLoopEntry (by decide) (Or.inr rfl) rfl).2.2.2.2 0 (by decide) rfl
    (fun j h1 h2 => absurd h2 (by
      have hr : sampleLoopEntry.2.block.rank = 1 := rfl
      rw [hr]
      omega))⟩

/-! ## Theorems: the forms of the dimension entries in readCDF -/

theorem plainForm_of_encoding {d d1 : DIMS} (h : encoding d1 = encoding d) (hd : plainForm d) :
    plainForm d1 := by
  simp only [encoding, Prod.mk.injEq] at h
  obtain ⟨h1, h2, h3, h4, h5, h6, h7, h8⟩ := h
  unfold plainForm at hd ⊢
  rw [h1, h2, h3, h4, h5, h6, h7, h8]
  exact hd

theorem dimForm_of_encoding {cls : Int} {sub : CDFSUBSET} {ii : Nat} {isUnlimited : Bool}
    {extent_i : Nat} {f : CoordFile} {d d1 : DIMS} (h : encoding d1 = encoding d)
    (hn : d1.dim_n = d.dim_n) (hd : dimForm cls sub ii isUnlimited extent_i f d) :
    dimForm cls sub ii isUnlimited extent_i f d1 := by
  rcases hd with hd | hd
  · exact Or.inl (plainForm_of_encoding h hd)
  · simp only [encoding, Prod.mk.injEq] at h
    obtain ⟨h1, h2, h3, h4, h5, h6, h7, h8⟩ := h
    refine Or.inr ⟨h1.trans hd.1, h2.trans hd.2.1, ?_⟩
    unfold domainList at hd ⊢
    rw [h5, h6, h7, h8, hn]
    exact hd.2.2

theorem initDimBlock_form : plainForm initDimBlock :=
  Or.inl ⟨rfl, rfl, rfl, rfl, rfl, rfl⟩

theorem truncateDomains_form (d : DIMS) (extent : Nat) (ncount : Int) (addr : Option Ptr)
    (count : List Nat) :
    (truncateDomains d extent ncount addr count).compressed = d.compressed ∧
    (truncateDomains d extent ncount addr count).method = d.method ∧
    (truncateDomains d extent ncount addr count).offs = d.offs ∧
    (truncateDomains d extent ncount addr count).ints = d.ints ∧
    (truncateDomains d extent ncount addr count).dim_n = toInt32 extent ∧
    (d.sams.map IntArray.addr = addr →
      (truncateDomains d extent ncount addr count).sams.map IntArray.addr = addr) := by
  unfold truncateDomains
  split
  · refine ⟨rfl, rfl, rfl, rfl, rfl, fun _ => ?_⟩
    cases addr <;> rfl
  · exact ⟨rfl, rfl, rfl, rfl, rfl, fun h => h⟩

/-- Lines 1441-1493 on an entry without domain list whose length is that of the
coordinate variable: the entry is left as it is, or it holds the domain list of the
file. -/
theorem packDomains_form (cls : Int) (sub : CDFSUBSET) (ii : Nat) (isUnlimited : Bool)
    (extent_i : Nat) (f : CoordFile) (c st inc : DomainAtt) (d : DIMS) (hd : plainForm d)
    (hn : d.dim_n = f.var_dim_n) (hc : f.count = some c) (hs : f.start = some st)
    (hi : f.increment = some inc) :
    dimForm cls sub ii isUnlimited extent_i f
      (packDomains cls sub ii isUnlimited extent_i f c st inc d).dim := by
  unfold packDomains
  simp only []
  by_cases heq : c.n = st.n ∧ st.n = inc.n
  · rw [if_pos heq]
    have hcnt : (if sub.subsetCount > 0 ∧ sub.subset ii ≠ 0
        then f.count_vals.set 0 (toUInt32 (sub.count ii)) else f.count_vals)
        = domainCounts sub ii f := rfl
    rw [hcnt]
    have hsams : ∀ vals : List Nat,
        (c.addr.map (fun a => ({ addr := a, vals := vals } : IntArray))).map IntArray.addr
          = c.addr := by
      intro vals
      cases c.addr <;> rfl
    have ht := fun (d0 : DIMS) => truncateDomains_form d0 extent_i c.n c.addr
      (domainCounts sub ii f)
    refine Or.inr ?_
    unfold domainList
    cases isUnlimited <;> by_cases hraw : cls = RAW_DATA <;>
      by_cases h1 : f.calib_offs_rc = 0 <;> by_cases h2 : f.calib_ints_rc = 0 <;>
      refine ⟨?_, ?_, c, st, inc, hc, hs, hi, heq.1, heq.2, ?_, ?_, ?_, ?_, ?_⟩ <;>
      simp [hraw, h1, h2, hn, hsams, ht]
  · rw [if_neg heq]
    exact Or.inl hd

theorem readDomains_form (cls : Int) (sub : CDFSUBSET) (ii : Nat) (isUnlimited : Bool)
    (extent_i : Nat) (f : CoordFile) (err : Int) (d : DIMS) (hd : plainForm d)
    (hn : d.dim_n = f.var_dim_n) :
    dimForm cls sub ii isUnlimited extent_i f
      (readDomains cls sub ii isUnlimited extent_i f err d).dim := by
  have hp : dimForm cls sub ii isUnlimited extent_i f d := Or.inl hd
  unfold readDomains
  cases hc : f.count with
  | none => exact hp
  | some c =>
    simp only []
    split_ifs
    · exact hp
    · exact hp
    · exact hp
    · cases hs : f.start with
      | none => exact hp
      | some s =>
        simp only []
        split_ifs
        · exact hp
        · exact hp
        · cases hi : f.increment with
          | none => exact hp
          | some inc =>
            simp only []
            split_ifs
            · exact hp
            · exact hp
            · exact packDomains_form _ _ _ _ _ _ _ _ _ _ hd hn hc hs hi

theorem checkCoordinate_encoding (f : CoordFile) (drank : Int) (d2 : DIMS) :
    encoding (checkCoordinate f drank d2).out.dim = encoding d2 ∧
    (checkCoordinate f drank d2).out.dim.dim_n = d2.dim_n := by
  unfold checkCoordinate
  split_ifs <;> exact ⟨rfl, rfl⟩

theorem calibrateCoordinate_encoding (compliance : Bool) (cls : Int) (drank : Int)
    (f : CoordFile) (o : VarOutcome) :
    encoding (calibrateCoordinate compliance cls drank f o).out.dim = encoding o.out.dim ∧
    (calibrateCoordinate compliance cls drank f o).out.dim.dim_n = o.out.dim.dim_n := by
  unfold calibrateCoordinate
  simp only []
  split_ifs <;> exact ⟨rfl, rfl⟩

theorem readCoordVar_encoding (E : NcErrors) (compliance : Bool) (cls : Int)
    (isUnlimited : Bool) (isIndex0 : Int) (f : CoordFile) (d1 : DIMS) :
    encoding (readCoordVar E compliance cls isUnlimited isIndex0 f d1).out.dim = encoding d1 := by
  unfold readCoordVar
  simp only []
  split_ifs
  all_goals first
    | rfl
    | exact (checkCoordinate_encoding _ _ _).1
    | exact (calibrateCoordinate_encoding _ _ _ _ _).1.trans (checkCoordinate_encoding _ _ _).1

/-- The length of an entry that `readCoordVar` returns without `break` is that of the
coordinate variable as `readCDF4Var` reports it. -/
theorem readCoordVar_dim_n (E : NcErrors) (compliance : Bool) (cls : Int)
    (isUnlimited : Bool) (isIndex0 : Int) (f : CoordFile) (d1 : DIMS)
    (h : (readCoordVar E compliance cls isUnlimited isIndex0 f d1).out.broke = false) :
    (readCoordVar E compliance cls isUnlimited isIndex0 f d1).out.dim.dim_n = f.var_dim_n := by
  unfold readCoordVar at h ⊢
  simp only [] at h ⊢
  split_ifs at h ⊢
  all_goals first
    | exact (checkCoordinate_encoding _ _ _).2
    | exact (calibrateCoordinate_encoding _ _ _ _ _).2.trans (checkCoordinate_encoding _ _ _).2

theorem readCoordError_encoding (f : CoordFile) (d : DIMS) :
    encoding (readCoordError f d).dim = encoding d ∧ (readCoordError f d).dim.dim_n = d.dim_n := by
  unfold readCoordError
  simp only []
  split_ifs <;> exact ⟨rfl, rfl⟩

theorem allDims_setDim (b : DATA_BLOCK) (ii : Nat) (d : DIMS) :
    allDims (setDim b ii d) = (allDims b).set ii d := by
  unfold allDims setDim
  cases b.dims <;> rfl

theorem dimAt_eq_getD (b : DATA_BLOCK) (ii : Nat) :
    dimAt b ii = (allDims b).getD ii initDimBlock := by
  unfold dimAt allDims
  cases b.dims <;> rfl

theorem readCoordinate_dims (E : NcErrors) (compliance : Bool) (cls : Int) (sub : CDFSUBSET)
    (dimids unlimdimids : List Int) (extent : List Nat) (st : LoopState) (i : Nat)
    (f : CoordFile) (d1 : DIMS) (hd : plainForm d1) :
    ∃ X, dimForm cls sub (st.block.rank - i - 1) (unlimdimids.contains (dimids.getD i 0))
        (extent.getD i 0) f X ∧
      allDims (readCoordinate E compliance cls sub dimids unlimdimids extent st i f d1).block
        = (allDims st.block).set (st.block.rank - i - 1) X := by
  have hv := plainForm_of_encoding
    (readCoordVar_encoding E compliance cls (unlimdimids.contains (dimids.getD i 0))
      st.isIndex f d1) hd
  have hn := readCoordVar_dim_n E compliance cls (unlimdimids.contains (dimids.getD i 0))
      st.isIndex f d1
  unfold readCoordinate
  simp only []
  by_cases hb : (readCoordVar E compliance cls (unlimdimids.contains (dimids.getD i 0))
      st.isIndex f d1).out.broke = true
  · rw [if_pos hb]
    exact ⟨_, Or.inl hv, allDims_setDim _ _ _⟩
  · rw [if_neg hb]
    have hn1 := hn (by simpa using hb)
    cases compliance with
    | false =>
      simp only [Bool.false_eq_true, reduceIte]
      split_ifs <;> exact ⟨_, Or.inl hv, allDims_setDim _ _ _⟩
    | true =>
      simp only [reduceIte]
      have hdom := readDomains_form cls sub (st.block.rank - i - 1)
        (unlimdimids.contains (dimids.getD i 0)) (extent.getD i 0) f
        (readCoordVar E true cls (unlimdimids.contains (dimids.getD i 0)) st.isIndex f
          d1).out.err _ hv hn1
      split_ifs
      · exact ⟨_, hdom, allDims_setDim _ _ _⟩
      · exact ⟨_, hdom, allDims_setDim _ _ _⟩
      · exact ⟨_, dimForm_of_encoding (readCoordError_encoding _ _).1
          (readCoordError_encoding _ _).2 hdom, allDims_setDim _ _ _⟩

theorem readCDFDim_dims (E : NcErrors) (compliance : Bool) (cls : Int) (get_nodimdata : Bool)
    (sub : CDFSUBSET) (dimids unlimdimids : List Int) (extent : List Nat) (st : LoopState)
    (i : Nat) (f : CoordFile) (h0 : dimAt st.block (st.block.rank - i - 1) = initDimBlock) :
    ∃ X, dimForm cls sub (st.block.rank - i - 1) (unlimdimids.contains (dimids.getD i 0))
        (extent.getD i 0) f X ∧
      allDims (readCDFDim E compliance cls get_nodimdata sub dimids unlimdimids extent st i
        f).block = (allDims st.block).set (st.block.rank - i - 1) X := by
  unfold readCDFDim
  simp only []
  rw [h0]
  split_ifs
  · exact ⟨_, Or.inl (Or.inr ⟨rfl, rfl, rfl, rfl, rfl, rfl, rfl, rfl⟩), allDims_setDim _ _ _⟩
  · exact ⟨_, Or.inl (Or.inl ⟨rfl, rfl, rfl, rfl, rfl, rfl⟩), allDims_setDim _ _ _⟩
  · split
    · exact ⟨_, Or.inl (Or.inr ⟨rfl, rfl, rfl, rfl, rfl, rfl, rfl, rfl⟩), allDims_setDim _ _ _⟩
    · exact ⟨_, Or.inl (Or.inr ⟨rfl, rfl, rfl, rfl, rfl, rfl, rfl, rfl⟩), allDims_setDim _ _ _⟩
  · exact ⟨_, Or.inl (Or.inr ⟨rfl, rfl, rfl, rfl, rfl, rfl, rfl, rfl⟩), allDims_setDim _ _ _⟩
  · exact readCoordinate_dims _ _ _ _ _ _ _ _ _ _ _ (Or.inl ⟨rfl, rfl, rfl, rfl, rfl, rfl⟩)

/-- The dimension loop: when every entry is one that `P` describes or has the form of
its dimension, and the entries not yet visited are as `initDimBlock` left them, the
same holds afterwards. -/
theorem readCDFDims_dims (E : NcErrors) (compliance : Bool) (cls : Int) (get_nodimdata : Bool)
    (sub : CDFSUBSET) (v : VarFile) (P : DIMS → Prop) (n i : Nat) (st : LoopState)
    (hform : ∀ k d, (allDims st.block)[k]? = some d →
      P d ∨ entryForm cls sub v st.block.rank k d)
    (hinit : ∀ j, j < st.block.rank - i → (allDims st.block).getD j initDimBlock = initDimBlock)
    (hin : i + n ≤ st.block.rank) :
    ∀ k d, (allDims (readCDFDims E compliance cls get_nodimdata sub v.dimids v.unlimdimids
      v.extent v.coords n i st).block)[k]? = some d →
      P d ∨ entryForm cls sub v st.block.rank k d := by
  induction n generalizing i st with
  | zero => exact hform
  | succ n ih =>
    have hr := readCDFDim_rank E compliance cls get_nodimdata sub v.dimids v.unlimdimids
      v.extent st i (v.coords i)
    have h0 : dimAt st.block (st.block.rank - i - 1) = initDimBlock := by
      rw [dimAt_eq_getD]
      exact hinit _ (by omega)
    obtain ⟨X, hX, hset⟩ := readCDFDim_dims E compliance cls get_nodimdata sub v.dimids
      v.unlimdimids v.extent st i (v.coords i) h0
    have hform1 : ∀ k d, (allDims (readCDFDim E compliance cls get_nodimdata sub v.dimids
        v.unlimdimids v.extent st i (v.coords i)).block)[k]? = some d →
        P d ∨ entryForm cls sub v st.block.rank k d := by
      intro k d hk
      rw [hset] at hk
      by_cases hki : k = st.block.rank - i - 1
      · have hd : d = X := by
          rw [hki, List.getElem?_set] at hk
          simp only [reduceIte] at hk
          split_ifs at hk
          · exact (Option.some.inj hk).symm
        rw [hd]
        refine Or.inr ?_
        unfold entryForm
        have hi : st.block.rank - k - 1 = i := by omega
        rw [hi, hki]
        exact hX
      · rw [List.getElem?_set_ne (fun h => hki h.symm)] at hk
        exact hform k d hk
    unfold readCDFDims
    simp only []
    split_ifs
    · exact hform1
    · have := ih (i + 1) _ (by rw [hr]; exact hform1)
        (by
          intro j hj
          rw [hr] at hj
          rw [hset, List.getD_eq_getElem?_getD, List.getElem?_set_ne (by omega),
            ← List.getD_eq_getElem?_getD]
          exact hinit j (by omega))
        (by rw [hr]; omega)
      rw [hr] at this
      exact this

theorem allocateDims_dims (E : NcErrors) (v : VarFile) (b1 : DATA_BLOCK) :
    (∀ d ∈ allDims (allocateDims E v b1).block, d ∈ allDims b1 ∨ d = initDimBlock) ∧
    ((allocateDims E v b1).broke = false → ∀ j, j < (allocateDims E v b1).block.rank →
      (allDims (allocateDims E v b1).block).getD j initDimBlock = initDimBlock) := by
  unfold allocateDims
  split_ifs with h1 h2
  · exact ⟨fun d hd => Or.inl hd, fun h => by cases h⟩
  · cases v.dims_alloc with
    | none =>
      refine ⟨fun d hd => ?_, fun h => ?_⟩
      · cases hd
      · cases h
    | some a =>
      refine ⟨fun d hd => ?_, fun _ j _ => ?_⟩
      · exact Or.inr (List.eq_of_mem_replicate hd)
      · show (List.replicate b1.rank initDimBlock).getD j initDimBlock = initDimBlock
        rw [List.getD_eq_getElem?_getD]
        exact List.getElem?_getD_replicate_default_eq _ _ _
  · exact ⟨fun d hd => Or.inl hd, fun _ j hj => absurd hj (by simp only [] ; omega)⟩

theorem readVariableData_dims (compliance : Bool) (cls : Int) (get_bytes : Bool) (v : VarFile)
    (b2 : DATA_BLOCK) :
    allDims (readVariableData compliance cls get_bytes v b2).block = allDims b2 := by
  unfold readVariableData
  cases v.udt <;> simp only [] <;> split_ifs <;> rfl

theorem extendStringRank_dims (v : VarFile) (b6 : DATA_BLOCK)
    (hinit : ∀ j, j < b6.rank → (allDims b6).getD j initDimBlock = initDimBlock) :
    (∀ d ∈ allDims (extendStringRank v b6), d ∈ allDims b6 ∨ d = initDimBlock) ∧
    (∀ j, j < (extendStringRank v b6).rank →
      (allDims (extendStringRank v b6)).getD j initDimBlock = initDimBlock) := by
  unfold extendStringRank
  split_ifs
  · refine ⟨fun d hd => ?_, fun j hj => ?_⟩
    · have hd1 : d ∈ [initDimBlock, initDimBlock] := hd
      simp only [List.mem_cons, List.mem_singleton, List.not_mem_nil, or_false, or_self] at hd1
      exact Or.inr hd1
    · have hj2 : j < 2 := hj
      interval_cases j <;> rfl
  · exact ⟨fun d hd => Or.inl hd, hinit⟩

/-- The entries of the block that `readCDFVariable` returns: entries of the block
passed in, or entries of the form of their dimension. -/
theorem readCDFVariable_dims (E : NcErrors) (compliance : Bool) (cls : Int)
    (get_bytes get_nodimdata : Bool) (sub0 : CDFSUBSET) (v : VarFile) (b : DATA_BLOCK)
    (k : Nat) (d : DIMS)
    (hk : (allDims (readCDFVariable E compliance cls get_bytes get_nodimdata sub0 v b).2)[k]?
      = some d) :
    d ∈ allDims b ∨
    entryForm cls ((completeSubset sub0 v.rank).getD sub0) v
      (readCDFVariable E compliance cls get_bytes get_nodimdata sub0 v b).2.rank k d := by
  have ha := allocateDims_dims E v { b with rank := v.rank, order := -1 }
  have hd := readVariableData_dims compliance cls get_bytes v
    (allocateDims E v { b with rank := v.rank, order := -1 }).block
  have hdr := (readVariableData_order compliance cls get_bytes v
    (allocateDims E v { b with rank := v.rank, order := -1 }).block).1
  have hmem : ∀ (l : List DIMS), l[k]? = some d → d ∈ l := fun l h => List.getElem?_mem h
  have hinitForm : ∀ s r, d = initDimBlock → entryForm cls s v r k d := by
    intro s r h
    rw [h]
    exact Or.inl initDimBlock_form
  unfold readCDFVariable at hk ⊢
  cases hcs : completeSubset sub0 v.rank with
  | none =>
    rw [hcs] at hk
    simp only [] at hk ⊢
    split_ifs at hk ⊢ <;> exact Or.inl (hmem _ hk)
  | some sub =>
    rw [hcs] at hk
    simp only [Option.getD_some] at hk ⊢
    split_ifs at hk ⊢ with h1 h2 h3 h4 h5
    · exact Or.inl (hmem _ hk)
    · exact Or.inl (hmem _ hk)
    · exact Or.inl (hmem _ hk)
    · rcases ha.1 d (hmem _ hk) with h | h
      · exact Or.inl h
      · exact Or.inr (hinitForm _ _ h)
    · rw [hd] at hk
      rcases ha.1 d (hmem _ hk) with h | h
      · exact Or.inl h
      · exact Or.inr (hinitForm _ _ h)
    · have hready := extendStringRank_dims v
        (readVariableData compliance cls get_bytes v
          (allocateDims E v { b with rank := v.rank, order := -1 }).block).block
        (by
          intro j hj
          rw [hd]
          rw [hdr] at hj
          exact ha.2 (by simpa using h4) j hj)
      have hrank := readCDFDims_rank E compliance cls get_nodimdata sub v.dimids v.unlimdimids
        v.extent v.coords
      have hloop := readCDFDims_dims E compliance cls get_nodimdata sub v
        (fun x => x ∈ allDims b) _ 0 _
        (by
          intro k1 d1 hk1
          rcases hready.1 d1 (List.getElem?_mem hk1) with h | h
          · rw [hd] at h
            rcases ha.1 d1 h with h' | h'
            · exact Or.inl h'
            · rw [h']
              exact Or.inr (Or.inl initDimBlock_form)
          · rw [h]
            exact Or.inr (Or.inl initDimBlock_form))
        (by intro j hj; exact hready.2 j (by simpa using hj)) (by simp) k d hk
      simp only [hrank]
      exact hloop

theorem readCDFUnwritten_dims (E : NcErrors) (sub : CDFSUBSET) (dimlen_rc : Int) (dimlen : Nat)
    (data_alloc dims_alloc dim_alloc : Option Ptr) (b : DATA_BLOCK) :
    ∀ d ∈ allDims (readCDFUnwritten E sub dimlen_rc dimlen data_alloc dims_alloc dim_alloc b).2,
      d ∈ allDims b ∨ plainForm d := by
  have hone : ∀ (X d : DIMS), plainForm X → d ∈ [X] → d ∈ allDims b ∨ plainForm d := by
    intro X d hX hd
    rw [List.mem_singleton] at hd
    rw [hd]; exact Or.inr hX
  unfold readCDFUnwritten
  cases dims_alloc <;> simp only [] <;> split_ifs <;>
    first
      | exact fun d hd => Or.inl hd
      | exact fun d hd => hone _ d (Or.inl ⟨rfl, rfl, rfl, rfl, rfl, rfl⟩) hd
      | (intro d hd; cases hd)

theorem attributeDims_dims (E : NcErrors) (a : AttFile) (P : DIMS → Prop) (n i : Nat)
    (err : Int) (b : DATA_BLOCK) (hb : ∀ d ∈ allDims b, P d ∨ plainForm d) :
    ∀ d ∈ allDims (attributeDims E a n i err b).2, P d ∨ plainForm d := by
  induction n generalizing i b with
  | zero => exact hb
  | succ n ih =>
    have hset : ∀ X, plainForm X → ∀ d ∈ allDims (setDim b (b.rank - i - 1) X),
        P d ∨ plainForm d := by
      intro X hX d hd
      rw [allDims_setDim] at hd
      rcases List.mem_or_eq_of_mem_set hd with hd | hd
      · exact hb d hd
      · rw [hd]; exact Or.inr hX
    unfold attributeDims
    simp only []
    split_ifs
    · exact hset _ (Or.inl ⟨rfl, rfl, rfl, rfl, rfl, rfl⟩)
    · exact ih _ _ (hset _ (Or.inl ⟨rfl, rfl, rfl, rfl, rfl, rfl⟩))

theorem readCDFAttribute_dims (E : NcErrors) (a : AttFile) (b : DATA_BLOCK) :
    ∀ d ∈ allDims (readCDFAttribute E a b).2, d ∈ allDims b ∨ plainForm d := by
  have hrep : ∀ (n : Nat) (d : DIMS), d ∈ List.replicate n initDimBlock →
      d ∈ allDims b ∨ plainForm d := by
    intro n d hd
    rw [List.eq_of_mem_replicate hd]; exact Or.inr initDimBlock_form
  unfold readCDFAttribute
  simp only []
  split_ifs
  · cases a.udt <;> exact fun d hd => Or.inl hd
  · cases a.dims_alloc with
    | none => intro d hd; cases hd
    | some p => exact attributeDims_dims E a _ _ 0 0 _ (hrep _)
  · cases a.dims_alloc with
    | none => intro d hd; cases hd
    | some p => exact attributeDims_dims E a _ _ 0 0 _ (hrep _)

theorem setSubTree_dims (t : TreeFile) (b : DATA_BLOCK) :
    allDims (setSubTree t b) = allDims b := by
  unfold setSubTree
  cases t.group_udt with
  | none => rfl
  | some u =>
    simp only []
    split_ifs <;> rfl

/-- The entries of the block that `readCDF` returns: entries of the block passed in,
or entries of the form of their dimension. -/
theorem readCDF_dims (E : NcErrors) (compliance : Bool) (cls : Int)
    (get_bytes get_nodimdata : Bool) (sub : CDFSUBSET) (l : Lookup) (b : DATA_BLOCK)
    (k : Nat) (d : DIMS)
    (hk : (allDims (readCDF E compliance cls get_bytes get_nodimdata sub l b).2)[k]? = some d) :
    d ∈ allDims b ∨
    entryForm cls (loopSubset sub l) l.var
      (readCDF E compliance cls get_bytes get_nodimdata sub l b).2.rank k d := by
  have hplain : ∀ r, d ∈ allDims b ∨ plainForm d →
      d ∈ allDims b ∨ entryForm cls (loopSubset sub l) l.var r k d := by
    intro r h
    rcases h with h | h
    · exact Or.inl h
    · exact Or.inr (Or.inl h)
  have hmem : ∀ (x : List DIMS), x[k]? = some d → d ∈ x := fun x h => List.getElem?_mem h
  unfold readCDF at hk ⊢
  simp only [] at hk ⊢
  split_ifs at hk ⊢
  · exact Or.inl (hmem _ hk)
  · exact readCDFVariable_dims _ _ _ _ _ _ _ _ k d hk
  · exact hplain _ (readCDFUnwritten_dims _ _ _ _ _ _ _ _ d (hmem _ hk))
  · exact hplain _ (readCDFAttribute_dims _ _ _ d (hmem _ hk))
  · exact hplain _ (readCDFAttribute_dims _ _ _ d (hmem _ hk))
  · refine hplain _ (Or.inl ?_)
    unfold readCDFSubTree at hk
    split_ifs at hk
    · exact hmem _ hk
    · exact hmem _ hk
    · rw [setSubTree_dims] at hk; exact hmem _ hk
  · exact Or.inl (hmem _ hk)

/-- C6 (as stated, refuted): for a dimension without a coordinate variable readCDF
returns compressed = 1 with dim0 = 0, diff = 1 and also the index array in dim; for a
coordinate with domain attributes it returns the domain list and also the array read
into dim, and on a dimension that is not unlimited the counts (2 and 2) need not sum
to dim_n (10). -/
theorem readCDF_both_representations :
    ((readCDF sampleErrors false 0 false false noSubset
        (sampleLookup (sampleVariable 3 false missingCoord)) emptyBlock).2.dims.map
      (fun a => a.elems.map (fun d => (d.compressed, d.method, d.dim0, d.diff, d.dim_n, d.dim))))
      = some [((1 : Int), (0 : Int), (0 : Rat), (1 : Rat), (3 : Int), some 41)] ∧
    ((readCDF sampleErrors true 0 false false noSubset
        (sampleLookup (sampleVariable 10 false (domainCoord 10 [2, 2]))) emptyBlock).2.dims.map
      (fun a => a.elems.map
        (fun d => (d.compressed, d.method, d.dim, d.sams.map IntArray.vals, d.udoms,
                   samsTotal d, d.dim_n))))
      = some [((1 : Int), (1 : Int), some 40, some [2, 2], (2 : Nat), (4 : Int), (10 : Int))] := by
  constructor <;> rfl

/-- C6 (amended): every DIMS entry of the block that readCDF returns is an entry of the
block passed in, or has one of three forms: compressed = 0 with no analytic encoding
(method 0, udoms 0, no offs, ints or sams); compressed = 1 with method 0, dim0 = 0,
diff = 1 and no domain list; or compressed = 1 with method 1 and the domain list of its
coordinate variable: the count, start and increment attributes have equal length, offs
and ints are the start and increment arrays (for raw data the calibrated ones), sams is
the count array, and for a dimension that is not unlimited udoms is their length, sams
holds the counts of the file (the first replaced by the count of a subset of that
dimension) and dim_n is the length of the coordinate variable; for an unlimited one
dim_n is the extent read.  The explicit array dim is not part of the forms: it may be
set together with either analytic encoding. -/
theorem readCDF_dim_forms (E : NcErrors) (compliance : Bool) (cls : Int)
    (get_bytes get_nodimdata : Bool) (sub : CDFSUBSET) (l : Lookup) (b : DATA_BLOCK)
    (k : Nat) (d : DIMS)
    (hk : (allDims (readCDF E compliance cls get_bytes get_nodimdata sub l b).2)[k]? = some d) :
    d ∈ allDims b ∨
    entryForm cls (loopSubset sub l) l.var
      (readCDF E compliance cls get_bytes get_nodimdata sub l b).2.rank k d :=
  readCDF_dims E compliance cls get_bytes get_nodimdata sub l b k d hk

/-- Witness for C6 (amended): the coordinate of length 10 with domain counts 2 and 2
read into an empty block; its entry is the one the loop returns. -/
theorem readCDF_dim_forms_witness :
    (allDims (readCDF sampleErrors true 0 false false noSubset
      (sampleLookup (sampleVariable 10 false (domainCoord 10 [2, 2]))) emptyBlock).2)[0]?
      = some (dimAt (readCDF sampleErrors true 0 false false noSubset
          (sampleLookup (sampleVariable 10 false (domainCoord 10 [2, 2]))) emptyBlock).2 0) ∧
    (dimAt (readCDF sampleErrors true 0 false false noSubset
        (sampleLookup (sampleVariable 10 false (domainCoord 10 [2, 2]))) emptyBlock).2 0
      ∈ allDims emptyBlock ∨
     entryForm 0 (loopSubset noSubset (sampleLookup (sampleVariable 10 false
        (domainCoord 10 [2, 2])))) (sampleLookup (sampleVariable 10 false
        (domainCoord 10 [2, 2]))).var
      (readCDF sampleErrors true 0 false false noSubset
        (sampleLookup (sampleVariable 10 false (domainCoord 10 [2, 2]))) emptyBlock).2.rank 0
      (dimAt (readCDF sampleErrors true 0 false false noSubset
        (sampleLookup (sampleVariable 10 false (domainCoord 10 [2, 2]))) emptyBlock).2 0)) :=
  ⟨rfl, readCDF_dim_forms sampleErrors true 0 false false noSubset
    (sampleLookup (sampleVariable 10 false (domainCoord 10 [2, 2]))) emptyBlock 0 _ rfl⟩

/-! ## Theorems: the C++ result wrapper -/

/-- C17: for a result object built from a handle, whose data type is UDA_TYPE_STRING
and whose rank is 0 or 1, data() returns a pointer that is not null, to a uda::String
built from the data buffer of the handle (not an array), and the type of the result
is typeid(char*). -/
theorem result_data_string (C : ClientApi) (handle : Int) (r : Result)
    (hr : newResult C handle = Except.ok r) (ht : r.uda_type_ = UDA_TYPE_STRING)
    (hk : r.rank_ = 0 ∨ r.rank_ = 1) :
    r.data C = Except.ok (some (Data.String (C.getIdamData handle))) ∧
    r.type_ = TypeId.charPtr := by
  unfold newResult at hr
  cases h1 : textMember handle (C.getIdamDataLabel handle) with
  | error e => rw [h1] at hr; cases hr
  | ok label =>
    cases h2 : textMember handle (C.getIdamDataUnits handle) with
    | error e => rw [h1, h2] at hr; cases hr
    | ok units =>
      cases h3 : textMember handle (C.getIdamDataDesc handle) with
      | error e => rw [h1, h2, h3] at hr; cases hr
      | ok desc =>
        rw [h1, h2, h3] at hr
        simp only [Except.ok.injEq] at hr
        subst hr
        simp only [] at ht hk ⊢
        by_cases hh : handle ≥ 0
        · simp only [hh, reduceIte] at ht hk ⊢
          have hk2 : toUInt32 (C.getIdamRank handle) = 1 ∨ toUInt32 (C.getIdamRank handle) = 0 :=
            hk.symm
          constructor
          · unfold Result.data
            simp only [ht, hk2, reduceIte, getDataAsString]
            simp [UDA_TYPE_STRING, UDA_TYPE_CHAR, UDA_TYPE_SHORT, UDA_TYPE_INT,
              UDA_TYPE_UNSIGNED_INT, UDA_TYPE_LONG, UDA_TYPE_FLOAT, UDA_TYPE_DOUBLE,
              UDA_TYPE_UNSIGNED_CHAR, UDA_TYPE_UNSIGNED_SHORT, UDA_TYPE_UNSIGNED_LONG,
              UDA_TYPE_LONG64, UDA_TYPE_UNSIGNED_LONG64]
          · rw [ht]
            rfl
        · simp only [hh, reduceIte] at ht
          exact absurd ht (by decide)

/-- Witness for C17: the result of the request OPENDATA::help() of the plugin test. -/
theorem result_data_string_witness :
    newResult helpClient 0 = Except.ok helpResult ∧
    helpResult.data helpClient = Except.ok (some (Data.String (helpClient.getIdamData 0))) ∧
    helpResult.type_ = TypeId.charPtr :=
  ⟨rfl, result_data_string helpClient 0 helpResult rfl rfl (Or.inr rfl)⟩

/-- C18: for every result object, hasTimeDim() is true exactly when the order of the
block behind the handle is at least 0; timeDim(t) is then dim(order, t), the
conversion of an order from 0 to 2^32 - 1 to dim_type leaving its value as it is, and
timeDim(t) is Dim::Null otherwise, so when order is -1. -/
theorem result_time_dim (C : ClientApi) (r : Result) (t : DataType) :
    (r.hasTimeDim C = true ↔ 0 ≤ C.getIdamOrder r.handle_) ∧
    r.timeDim C t
      = (if r.hasTimeDim C = true then r.dim C (toUInt32 (C.getIdamOrder r.handle_)) t
         else Except.ok Dim.Null) ∧
    (if 0 ≤ C.getIdamOrder r.handle_ ∧ C.getIdamOrder r.handle_ < 2 ^ 32
     then ((toUInt32 (C.getIdamOrder r.handle_) : Nat) : Int) = C.getIdamOrder r.handle_
     else True) ∧
    (if C.getIdamOrder r.handle_ = -1
     then r.hasTimeDim C = false ∧ r.timeDim C t = Except.ok Dim.Null else True) := by
  refine ⟨?_, ?_, ?_, ?_⟩
  · simp [Result.hasTimeDim]
  · unfold Result.timeDim Result.hasTimeDim
    simp only [ge_iff_le, decide_eq_true_eq]
  · split_ifs with h
    · unfold toUInt32
      rw [Int.emod_eq_of_lt h.1 h.2]
      exact Int.toNat_of_nonneg h.1
  · split_ifs with h
    · unfold Result.timeDim Result.hasTimeDim
      rw [h]
      exact ⟨by decide, rfl⟩

/-- An instance of C18: the result of the request OPENDATA::help() has order -1, no
time dimension, and timeDim gives Dim::Null. -/
theorem result_time_dim_help :
    helpClient.getIdamOrder helpResult.handle_ = -1 ∧
    helpResult.hasTimeDim helpClient = false ∧
    helpResult.timeDim helpClient DataType.DATA = Except.ok Dim.Null := by
  refine ⟨rfl, rfl, rfl⟩

/-! ## Theorems: parseXML -/

theorem grown_nil (st : ActionLoop) : grown st [] = st := by
  cases st
  simp [grown]

theorem elements_grown (st : ActionLoop) (new : List ACTION) :
    elements (grown st new).str = elements st.str ++ new := by
  unfold grown
  cases new with
  | nil => simp
  | cons a l => simp [elements]

theorem grown_grown (st : ActionLoop) (a b : List ACTION) :
    grown (grown st a) b = grown st (a ++ b) := by
  cases a with
  | nil => rw [grown_nil]; rfl
  | cons x l =>
    cases b with
    | nil => rw [grown_nil, List.append_nil]
    | cons y m =>
      simp only [grown, List.length_cons, List.length_append, elements, Option.getD_some,
        List.append_assoc, List.cons_append, Nat.cast_add, Nat.cast_one, Nat.add_eq_zero,
        one_ne_zero, and_false, reduceIte, ActionLoop.mk.injEq, and_true]
      omega

/-- Adding one action to a live array that holds n elements. -/
theorem growActions_ok (tag : XmlNode → Except XmlFault ACTION) (st : ActionLoop) (c : XmlNode)
    (a : ACTION) (hs : st.stale = false) (hn : st.n = ((elements st.str).length : Int))
    (ht : tag c = Except.ok a) : growActions tag st c = Except.ok (grown st [a]) := by
  unfold growActions
  simp only [hs, Bool.false_eq_true, reduceIte, hn, ne_eq, not_true_eq_false, ht, grown,
    List.length_singleton, Nat.cast_one, one_ne_zero]

/-- The loop of a rule parser on a live array that holds n elements, when every tag
of its name is parsed without fault: one action for each such tag, in document
order, after the elements held before. -/
theorem ruleLoop_ok (name : String) (tag : XmlNode → Except XmlFault ACTION)
    (f : XmlNode → ACTION) : ∀ (cs : List XmlNode) (st : ActionLoop), st.stale = false →
    st.n = ((elements st.str).length : Int) →
    (∀ c ∈ cs, c.name = name.toList → tag c = Except.ok (f c)) →
    ruleLoop name tag cs st
      = Except.ok (grown st ((cs.filter (fun c => c.name = name.toList)).map f)) := by
  intro cs
  induction cs with
  | nil =>
    intro st _ _ _
    simp only [ruleLoop, List.filter_nil, List.map_nil, grown_nil]
  | cons c rest ih =>
    intro st hs hn hf
    unfold ruleLoop
    by_cases hc : c.name = name.toList
    · rw [if_pos hc, growActions_ok tag st c (f c) hs hn (hf c (List.mem_cons_self _ _) hc)]
      simp only []
      rw [ih (grown st [f c]) (by simpa [grown] using hs)
        (by rw [elements_grown]; simp [grown, hn])
        (fun x hx => hf x (List.mem_cons_of_mem _ hx)), grown_grown]
      have hc2 : (decide (c.name = name.toList)) = true := by simpa using hc
      rw [@List.filter_cons_of_pos XmlNode (fun c => decide (c.name = name.toList)) c rest hc2]
      rfl
    · rw [if_neg hc, ih st hs hn (fun x hx => hf x (List.mem_cons_of_mem _ hx))]
      have hc2 : ¬ (decide (c.name = name.toList)) = true := by simpa using hc
      rw [@List.filter_cons_of_neg XmlNode (fun c => decide (c.name = name.toList)) c rest hc2]

theorem wellFormed_appended (s : ParseState) (new : List ACTION) (h : wellFormed s) :
    wellFormed (appended s new) := by
  unfold wellFormed at h ⊢
  unfold appended storeActions loadActions
  simp only []
  refine ⟨h.1, ?_⟩
  rw [elements_grown]
  simp [grown, h.2]

theorem appended_appended (s : ParseState) (a b : List ACTION) :
    appended (appended s a) b = appended s (a ++ b) := by
  unfold appended
  have : loadActions (storeActions (grown (loadActions s) a)) = grown (loadActions s) a := rfl
  rw [this, grown_grown]

theorem appended_nil (s : ParseState) : appended s [] = s := by
  unfold appended
  rw [grown_nil]
  rfl

/-- A rule parser on a well-formed `ACTIONS` structure, when every tag of its name
is parsed without fault. -/
theorem ruleParser_ok (name : String) (tag : XmlNode → Except XmlFault ACTION)
    (f : XmlNode → ACTION) (cur : XmlNode) (s : ParseState) (hs : wellFormed s)
    (hf : ∀ c ∈ matchingChildren cur name, tag c = Except.ok (f c)) :
    ruleParser name tag cur s
      = Except.ok (appended s ((matchingChildren cur name).map f)) := by
  unfold ruleParser
  rw [ruleLoop_ok name tag f cur.children (loadActions s) hs.1 hs.2]
  · rfl
  · intro c hc hn
    apply hf
    unfold matchingChildren
    simp [hc, hn]

theorem tagAction_of_parsed (x : Except XmlFault ACTION) (h : tagParsed x = true) :
    x = Except.ok (tagAction x) := by
  cases x with
  | error e => cases h
  | ok a => rfl

/-- The step of the loop of `parseSubset` on a tag that is parsed and accepted. -/
theorem subsetLoop_step (E : XmlEnv) (s : ParseState) (c : XmlNode) (rest : List XmlNode)
    (st : ActionLoop) (hs : st.stale = false) (hn : st.n = ((elements st.str).length : Int))
    (hc : c.name = "subset".toList) (ha : subsetAccepted E c = true) :
    subsetLoop E s (c :: rest) st = subsetLoop E s rest (grown st [subsetRule E c]) := by
  unfold subsetAccepted at ha
  simp only [Bool.and_eq_true, decide_eq_true_eq] at ha
  have hg := growActions_ok (subsetActionTag E) st c _ hs hn (tagAction_of_parsed _ ha.1)
  rw [subsetLoop, if_pos hc, hg]
  simp only [elements_grown, List.getLast?_concat,
    Option.getD_some, ha.2, ne_eq, not_true_eq_false, reduceIte, List.dropLast_concat]
  rfl

/-- The loop of `parseSubset` on a live array that holds n elements, when every
`subset` tag is parsed and accepted. -/
theorem subsetLoop_ok (E : XmlEnv) (s : ParseState) : ∀ (cs : List XmlNode) (st : ActionLoop),
    st.stale = false → st.n = ((elements st.str).length : Int) →
    (∀ c ∈ cs, c.name = "subset".toList → subsetAccepted E c = true) →
    subsetLoop E s cs st
      = Except.ok (storeActions
          (grown st ((cs.filter (fun c => c.name = "subset".toList)).map (subsetRule E)))) := by
  intro cs
  induction cs with
  | nil =>
    intro st _ _ _
    simp only [subsetLoop, List.filter_nil, List.map_nil, grown_nil]
  | cons c rest ih =>
    intro st hs hn hf
    by_cases hc : c.name = "subset".toList
    · rw [subsetLoop_step E s c rest st hs hn hc (hf c (List.mem_cons_self _ _) hc),
        ih (grown st [subsetRule E c]) (by simpa [grown] using hs)
          (by rw [elements_grown]; simp [grown, hn])
          (fun x hx => hf x (List.mem_cons_of_mem _ hx)), grown_grown]
      have hc2 : (decide (c.name = "subset".toList)) = true := by simpa using hc
      rw [@List.filter_cons_of_pos XmlNode (fun c => decide (c.name = "subset".toList)) c rest hc2]
      rfl
    · rw [subsetLoop, if_neg hc, ih st hs hn (fun x hx => hf x (List.mem_cons_of_mem _ hx))]
      have hc2 : ¬ (decide (c.name = "subset".toList)) = true := by simpa using hc
      rw [@List.filter_cons_of_neg XmlNode (fun c => decide (c.name = "subset".toList)) c rest hc2]

/-- The loop of `parseSubset` when a `subset` tag is rejected after tags that are
accepted: the function returns with the members of `actions` as on entry. -/
theorem subsetLoop_rejected (E : XmlEnv) (s : ParseState) (c : XmlNode) (post : List XmlNode) :
    ∀ (pre : List XmlNode) (st : ActionLoop),
    st.stale = false → st.n = ((elements st.str).length : Int) →
    (∀ x ∈ pre, x.name = "subset".toList → subsetAccepted E x = true) →
    c.name = "subset".toList → tagParsed (subsetActionTag E c) = true →
    (E.idamParseOperation (subsetOf E (tagAction (subsetActionTag E c)))).1 ≠ 0 →
    subsetLoop E s (pre ++ c :: post) st
      = Except.ok { actions := s.actions, stale := s.actions.action.isSome } := by
  intro pre
  induction pre with
  | nil =>
    intro st hs hn _ hc hp hr
    have hg := growActions_ok (subsetActionTag E) st c _ hs hn (tagAction_of_parsed _ hp)
    rw [List.nil_append, subsetLoop, if_pos hc, hg]
    simp only [elements_grown, List.getLast?_concat,
      Option.getD_some, hr, ne_eq, not_false_eq_true, reduceIte]
  | cons x pre ih =>
    intro st hs hn hf hc hp hr
    rw [List.cons_append]
    by_cases hx : x.name = "subset".toList
    · rw [subsetLoop_step E s x _ st hs hn hx (hf x (List.mem_cons_self _ _) hx)]
      exact ih _ (by simpa [grown] using hs) (by rw [elements_grown]; simp [grown, hn])
        (fun y hy => hf y (List.mem_cons_of_mem _ hy)) hc hp hr
    · rw [subsetLoop, if_neg hx]
      exact ih st hs hn (fun y hy => hf y (List.mem_cons_of_mem _ hy)) hc hp hr

theorem mem_matchingChildren (cur : XmlNode) (name : String) (c : XmlNode) :
    c ∈ matchingChildren cur name ↔ c ∈ cur.children ∧ c.name = name.toList := by
  unfold matchingChildren
  rw [List.mem_filter]
  simp

/-- `parseSubset` on a well-formed `ACTIONS` structure, when every `subset` tag is
parsed and accepted. -/
theorem parseSubset_ok (E : XmlEnv) (cur : XmlNode) (s : ParseState) (hs : wellFormed s)
    (hf : ∀ c ∈ matchingChildren cur "subset", subsetAccepted E c = true) :
    parseSubset E cur s
      = Except.ok (appended s ((matchingChildren cur "subset").map (subsetRule E))) := by
  unfold parseSubset
  rw [subsetLoop_ok E s cur.children (loadActions s) hs.1 hs.2
    (fun c hc hn => hf c ((mem_matchingChildren cur "subset" c).mpr ⟨hc, hn⟩))]
  rfl

/-- The six parsers on one `signal` element whose rule tags are parsed without fault
and whose `subset` tags are accepted. -/
theorem parseSignal_ok (E : XmlEnv) (sig : XmlNode) (s : ParseState) (hs : wellFormed s)
    (hd : signalDefined E sig = true) :
    parseSignal E sig s = Except.ok (appended s (signalRules E sig)) := by
  unfold signalDefined at hd
  simp only [Bool.and_eq_true, List.all_eq_true] at hd
  obtain ⟨⟨h1, h2⟩, h3⟩ := hd
  unfold parseSignal parseComposite parseDocumentation parseCalibration parseTimeOffset
    parseErrorModel
  rw [ruleParser_ok "composite" (compositeTag E) (fun c => tagAction (compositeTag E c)) sig s hs
    (fun c hc => tagAction_of_parsed _ (h1 c hc))]
  simp only []
  have w1 := wellFormed_appended s
    ((matchingChildren sig "composite").map (fun c => tagAction (compositeTag E c))) hs
  rw [ruleParser_ok "documentation" _ (documentationTag E) sig _ w1 (fun c _ => rfl)]
  simp only []
  have w2 := wellFormed_appended _
    ((matchingChildren sig "documentation").map (documentationTag E)) w1
  rw [ruleParser_ok "calibration" _ (calibrationTag E) sig _ w2 (fun c _ => rfl)]
  simp only []
  have w3 := wellFormed_appended _
    ((matchingChildren sig "calibration").map (calibrationTag E)) w2
  rw [ruleParser_ok "time_offset" _ (timeOffsetTag E) sig _ w3 (fun c _ => rfl)]
  simp only []
  have w4 := wellFormed_appended _
    ((matchingChildren sig "time_offset").map (timeOffsetTag E)) w3
  rw [ruleParser_ok "errormodel" (errorModelTag E) (fun c => tagAction (errorModelTag E c)) sig _
    w4 (fun c hc => tagAction_of_parsed _ (h2 c hc))]
  simp only []
  have w5 := wellFormed_appended _
    ((matchingChildren sig "errormodel").map (fun c => tagAction (errorModelTag E c))) w4
  rw [parseSubset_ok E sig _ w5 h3]
  simp only [appended_appended, signalRules, List.append_assoc]

/-- The loop of `parseDoc` over `signal` elements whose rule tags are parsed without
fault and whose `subset` tags are accepted. -/
theorem signalLoop_ok (E : XmlEnv) : ∀ (cs : List XmlNode) (s : ParseState), wellFormed s →
    (∀ sig ∈ cs, sig.name = "signal".toList → signalDefined E sig = true) →
    signalLoop E cs s
      = Except.ok (appended s
          ((cs.filter (fun c => c.name = "signal".toList)).map (signalRules E)).flatten) := by
  intro cs
  induction cs with
  | nil =>
    intro s _ _
    simp only [signalLoop, List.filter_nil, List.map_nil, List.flatten_nil, appended_nil]
  | cons c rest ih =>
    intro s hs hd
    by_cases hc : c.name = "signal".toList
    · rw [signalLoop, if_pos hc, parseSignal_ok E c s hs (hd c (List.mem_cons_self _ _) hc)]
      simp only []
      rw [ih _ (wellFormed_appended s _ hs) (fun x hx => hd x (List.mem_cons_of_mem _ hx)),
        appended_appended]
      have hc2 : (decide (c.name = "signal".toList)) = true := by simpa using hc
      rw [@List.filter_cons_of_pos XmlNode (fun c => decide (c.name = "signal".toList)) c rest hc2]
      rfl
    · rw [signalLoop, if_neg hc, ih s hs (fun x hx => hd x (List.mem_cons_of_mem _ hx))]
      have hc2 : ¬ (decide (c.name = "signal".toList)) = true := by simpa using hc
      rw [@List.filter_cons_of_neg XmlNode (fun c => decide (c.name = "signal".toList)) c rest hc2]

/-- `parseDoc` on a document without document-level failure, whose tags are parsed
without fault and whose `subset` tags are accepted. -/
theorem parseDoc_ok (E : XmlEnv) (doc : Option XmlDoc) (s : ParseState)
    (hdoc : documentFailure doc = false) (hs : wellFormed s)
    (hd : ∀ sig ∈ signalsOf doc, signalDefined E sig = true) :
    parseDoc E doc s
      = Except.ok (0, appended s (((signalsOf doc).map (signalRules E)).flatten)) := by
  cases doc with
  | none => cases hdoc
  | some d =>
    cases hr : d.root with
    | none => simp [documentFailure, hr] at hdoc
    | some cur =>
      simp only [documentFailure, hr, ne_eq, decide_not, Bool.not_eq_false',
        decide_eq_true_eq] at hdoc
      simp only [signalsOf, hr] at hd ⊢
      unfold parseDoc
      simp only [hr, hdoc, ne_eq, not_true_eq_false, reduceIte]
      rw [signalLoop_ok E cur.children s hs
        (fun sig h1 h2 => hd sig ((mem_matchingChildren cur "signal" sig).mpr ⟨h1, h2⟩))]
      rfl

/-- C14 (code evaluated at the failing input): the signal has two subset tags, the
first accepted by idamParseOperation and the second rejected.  Called with a list
that holds one action, parseSubset returns with nactions 1 and the array it was given,
which has been handed to realloc and whose pointer has not been replaced: the rule of
the first subset tag is not in the list.  Called with an empty list it returns an
empty list.  Without the second tag the rule of the first is appended. -/
theorem parseSubset_rejection_drops_rules :
    (matchingChildren rejectedSubset "subset").map (subsetAccepted sampleXmlEnv) = [true, false] ∧
    parseSubset sampleXmlEnv rejectedSubset oneAction
      = Except.ok { actions := oneAction.actions, stale := true } ∧
    parseSubset sampleXmlEnv rejectedSubset noActions
      = Except.ok { actions := { nactions := 0, action := none }, stale := false } ∧
    (match parseSubset sampleXmlEnv
        (xmlTag "signal" [] [xmlTag "subset" [("data", "X"), ("operation", "0:5")] []])
        oneAction with
     | Except.ok s => some (s.actions.nactions,
                            (elements s.actions.action).map ACTION.actionType, s.stale)
     | Except.error _ => none)
      = some ((2 : Int), [CALIBRATIONTYPE, SUBSETTYPE], false) := by
  refine ⟨rfl, rfl, rfl, rfl⟩

/-- C15: parseDoc returns 1 and leaves the ACTIONS argument as it was when the text
does not parse, the document has no root element or the root element is not named
action.  In every other case a return is a return of 0, and parseDoc does return
(with 0) when the ACTIONS argument is well formed, every rule tag is parsed within
defined behaviour and every subset tag is accepted. -/
theorem parseDoc_return_code (E : XmlEnv) (doc : Option XmlDoc) (s : ParseState) :
    (documentFailure doc = true → parseDoc E doc s = Except.ok (1, s)) ∧
    (documentFailure doc = false →
      (∀ r, parseDoc E doc s = Except.ok r → r.1 = 0) ∧
      (wellFormed s → (∀ sig ∈ signalsOf doc, signalDefined E sig = true) →
        ∃ s1, parseDoc E doc s = Except.ok (0, s1))) := by
  constructor
  · intro h
    cases doc with
    | none => rfl
    | some d =>
      cases hr : d.root with
      | none => simp [parseDoc, hr]
      | some cur =>
        simp only [documentFailure, hr, decide_eq_true_eq] at h
        unfold parseDoc
        simp only [hr]
        rw [if_pos h]
  · intro h
    constructor
    · intro r hr
      cases doc with
      | none => cases h
      | some d =>
        cases hroot : d.root with
        | none => simp [documentFailure, hroot] at h
        | some cur =>
          simp only [documentFailure, hroot, ne_eq, decide_not, Bool.not_eq_false',
            decide_eq_true_eq] at h
          unfold parseDoc at hr
          simp only [hroot, h, ne_eq, not_true_eq_false, reduceIte] at hr
          cases hl : signalLoop E cur.children s with
          | error e => rw [hl] at hr; cases hr
          | ok s1 =>
            rw [hl] at hr
            simp only [Except.ok.injEq] at hr
            rw [← hr]
    · intro hs hd
      exact ⟨_, parseDoc_ok E doc s h hs hd⟩

/-- Witness for C15: a text that does not parse and a document with another root
element give 1 and leave the list as it was; the sample document gives 0. -/
theorem parseDoc_return_code_witness :
    parseDoc sampleXmlEnv none oneAction = Except.ok (1, oneAction) ∧
    parseDoc sampleXmlEnv otherRoot oneAction = Except.ok (1, oneAction) ∧
    ∃ s1, parseDoc sampleXmlEnv sampleDocument oneAction = Except.ok (0, s1) :=
  ⟨(parseDoc_return_code sampleXmlEnv none oneAction).1 rfl,
   (parseDoc_return_code sampleXmlEnv otherRoot oneAction).1 rfl,
   ((parseDoc_return_code sampleXmlEnv sampleDocument oneAction).2 rfl).2
     ⟨rfl, rfl⟩ (by decide)⟩

/-- C16 (as stated, refuted): in the one signal of the document a calibration tag
comes before a composite tag; in the list that parseDoc builds the composite rule has
index 0 and the calibration rule index 1. -/
theorem parseDoc_composite_before_calibration :
    (signalsOf calibrationFirst).map (fun sig => sig.children.map XmlNode.name)
      = [["calibration".toList, "composite".toList]] ∧
    (match parseDoc sampleXmlEnv calibrationFirst noActions with
     | Except.ok r => some (r.1, (elements r.2.actions.action).map ACTION.actionType)
     | Except.error _ => none)
      = some ((0 : Int), [COMPOSITETYPE, CALIBRATIONTYPE]) := by
  refine ⟨rfl, rfl⟩

/-- C16 (amended): for a document without document-level failure, a well-formed
ACTIONS argument, rule tags parsed within defined behaviour and subset tags that
idamParseOperation accepts, parseDoc returns 0 and the list holds the actions it held
before followed by the rules of the signal elements, signal by signal in document
order; the rules of one signal are listed category by category in the order
composite, documentation, calibration, time_offset, errormodel, subset, and the rules
of one category in document order. -/
theorem parseDoc_rule_order (E : XmlEnv) (doc : Option XmlDoc) (s : ParseState)
    (hdoc : documentFailure doc = false) (hs : wellFormed s)
    (hd : ∀ sig ∈ signalsOf doc, signalDefined E sig = true) :
    ∃ s1, parseDoc E doc s = Except.ok (0, s1) ∧ wellFormed s1 ∧
      elements s1.actions.action
        = elements s.actions.action ++ ((signalsOf doc).map (fun sig =>
            (matchingChildren sig "composite").map (fun c => tagAction (compositeTag E c)) ++
            (matchingChildren sig "documentation").map (documentationTag E) ++
            (matchingChildren sig "calibration").map (calibrationTag E) ++
            (matchingChildren sig "time_offset").map (timeOffsetTag E) ++
            (matchingChildren sig "errormodel").map (fun c => tagAction (errorModelTag E c)) ++
            (matchingChildren sig "subset").map (subsetRule E))).flatten := by
  refine ⟨_, parseDoc_ok E doc s hdoc hs hd, wellFormed_appended s _ hs, ?_⟩
  unfold appended storeActions
  simp only []
  rw [elements_grown]
  rfl

/-- Witness for C16 (amended): the sample document, read into a list that holds one
calibration rule. -/
theorem parseDoc_rule_order_witness :
    ∃ s1, parseDoc sampleXmlEnv sampleDocument oneAction = Except.ok (0, s1) ∧ wellFormed s1 ∧
      elements s1.actions.action
        = elements oneAction.actions.action ++ ((signalsOf sampleDocument).map (fun sig =>
            (matchingChildren sig "composite").map
              (fun c => tagAction (compositeTag sampleXmlEnv c)) ++
            (matchingChildren sig "documentation").map (documentationTag sampleXmlEnv) ++
            (matchingChildren sig "calibration").map (calibrationTag sampleXmlEnv) ++
            (matchingChildren sig "time_offset").map (timeOffsetTag sampleXmlEnv) ++
            (matchingChildren sig "errormodel").map
              (fun c => tagAction (errorModelTag sampleXmlEnv c)) ++
            (matchingChildren sig "subset").map (subsetRule sampleXmlEnv))).flatten :=
  parseDoc_rule_order sampleXmlEnv sampleDocument oneAction rfl ⟨rfl, rfl⟩ (by decide)

theorem rangeAttributes_actionType (E : XmlEnv) (cur : XmlNode) (a : ACTION) :
    (rangeAttributes E cur a).actionType = a.actionType := rfl

theorem compositeTag_actionType (E : XmlEnv) (c : XmlNode) (a : ACTION)
    (h : compositeTag E c = Except.ok a) : a.actionType = COMPOSITETYPE := by
  unfold compositeTag at h
  simp only [] at h
  split at h
  · cases h
  · cases h
    rfl

theorem errorModelTag_actionType (E : XmlEnv) (c : XmlNode) (a : ACTION)
    (h : errorModelTag E c = Except.ok a) : a.actionType = ERRORMODELTYPE := by
  unfold errorModelTag at h
  simp only [] at h
  split at h
  · cases h
  · split at h
    · cases h
    · cases h
      rfl

theorem subsetActionTag_actionType (E : XmlEnv) (c : XmlNode) (a : ACTION)
    (h : subsetActionTag E c = Except.ok a) : a.actionType = SUBSETTYPE := by
  unfold subsetActionTag at h
  simp only [] at h
  split at h
  · cases h
  · cases h
    rfl

/-- C20 (as stated, refuted): the signal has one subset tag, which idamParseOperation
rejects.  parseSubset, called with an empty list, returns an empty list: no action
is added for the matching tag. -/
theorem parseSubset_rejected_tag_adds_none :
    (matchingChildren onlyRejected "subset").length = 1 ∧
    parseSubset sampleXmlEnv onlyRejected noActions
      = Except.ok { actions := { nactions := 0, action := none }, stale := false } := by
  refine ⟨rfl, rfl⟩

/-- C20 (amended): called with a well-formed ACTIONS structure, parseDocumentation,
parseCalibration and parseTimeOffset, parseComposite and parseErrorModel when their
tags are parsed within defined behaviour, and parseSubset when its tags are so parsed
and idamParseOperation accepts each of them, return the structure with one action
appended for each matching child tag of the signal, in document order: the list on
entry is a prefix of the list on return, nactions grows by the number of matching
tags, and each action added has the type of the parser. -/
theorem rule_parsers_append (E : XmlEnv) (cur : XmlNode) (s : ParseState) (hs : wellFormed s) :
    parseDocumentation E cur s
      = Except.ok (appended s ((matchingChildren cur "documentation").map
          (documentationTag E))) ∧
    parseCalibration E cur s
      = Except.ok (appended s ((matchingChildren cur "calibration").map (calibrationTag E))) ∧
    parseTimeOffset E cur s
      = Except.ok (appended s ((matchingChildren cur "time_offset").map (timeOffsetTag E))) ∧
    ((∀ c ∈ matchingChildren cur "composite", tagParsed (compositeTag E c) = true) →
      parseComposite E cur s
        = Except.ok (appended s ((matchingChildren cur "composite").map
            (fun c => tagAction (compositeTag E c))))) ∧
    ((∀ c ∈ matchingChildren cur "errormodel", tagParsed (errorModelTag E c) = true) →
      parseErrorModel E cur s
        = Except.ok (appended s ((matchingChildren cur "errormodel").map
            (fun c => tagAction (errorModelTag E c))))) ∧
    ((∀ c ∈ matchingChildren cur "subset", subsetAccepted E c = true) →
      parseSubset E cur s
        = Except.ok (appended s ((matchingChildren cur "subset").map (subsetRule E)))) ∧
    (∀ new : List ACTION,
      elements (appended s new).actions.action = elements s.actions.action ++ new ∧
      (appended s new).actions.nactions = s.actions.nactions + (new.length : Int) ∧
      wellFormed (appended s new)) ∧
    (∀ c : XmlNode,
      (documentationTag E c).actionType = DOCUMENTATIONTYPE ∧
      (calibrationTag E c).actionType = CALIBRATIONTYPE ∧
      (timeOffsetTag E c).actionType = TIMEOFFSETTYPE ∧
      (tagParsed (compositeTag E c) = true →
        (tagAction (compositeTag E c)).actionType = COMPOSITETYPE) ∧
      (tagParsed (errorModelTag E c) = true →
        (tagAction (errorModelTag E c)).actionType = ERRORMODELTYPE) ∧
      (subsetAccepted E c = true → (subsetRule E c).actionType = SUBSETTYPE)) := by
  refine ⟨?_, ?_, ?_, ?_, ?_, ?_, ?_, ?_⟩
  · exact ruleParser_ok "documentation" _ (documentationTag E) cur s hs (fun c _ => rfl)
  · exact ruleParser_ok "calibration" _ (calibrationTag E) cur s hs (fun c _ => rfl)
  · exact ruleParser_ok "time_offset" _ (timeOffsetTag E) cur s hs (fun c _ => rfl)
  · intro h
    exact ruleParser_ok "composite" (compositeTag E) _ cur s hs
      (fun c hc => tagAction_of_parsed _ (h c hc))
  · intro h
    exact ruleParser_ok "errormodel" (errorModelTag E) _ cur s hs
      (fun c hc => tagAction_of_parsed _ (h c hc))
  · intro h
    exact parseSubset_ok E cur s hs h
  · intro new
    refine ⟨?_, rfl, wellFormed_appended s new hs⟩
    unfold appended storeActions
    simp only []
    rw [elements_grown]
    rfl
  · intro c
    refine ⟨rfl, rfl, rfl, ?_, ?_, ?_⟩
    · intro h
      exact compositeTag_actionType E c _ (tagAction_of_parsed _ h)
    · intro h
      exact errorModelTag_actionType E c _ (tagAction_of_parsed _ h)
    · intro h
      unfold subsetAccepted at h
      simp only [Bool.and_eq_true, decide_eq_true_eq] at h
      exact subsetActionTag_actionType E c (tagAction (subsetActionTag E c))
        (tagAction_of_parsed _ h.1)

/-- Witness for C20 (amended): two calibration tags with factor 2.0 then 3.0, read
into an empty list, give two calibration rules, the factor 3.0 rule last. -/
theorem rule_parsers_append_witness :
    parseCalibration sampleXmlEnv twoCalibrations noActions
      = Except.ok (appended noActions ((matchingChildren twoCalibrations "calibration").map
          (calibrationTag sampleXmlEnv))) ∧
    (elements (appended noActions ((matchingChildren twoCalibrations "calibration").map
        (calibrationTag sampleXmlEnv))).actions.action).map (fun a =>
          match a.u with
          | ActionUnion.calibration c => some (a.actionType, c.factor)
          | _ => none)
      = [some (CALIBRATIONTYPE, FloatExpr.atof "2.0".toList),
         some (CALIBRATIONTYPE, FloatExpr.atof "3.0".toList)] :=
  ⟨(rule_parsers_append sampleXmlEnv twoCalibrations noActions ⟨rfl, rfl⟩).2.1, rfl⟩

/-! ## Theorems: calibration tags -/

/-- The multiplier of `deScale` is that of the table of scale names. -/
theorem deScale_eq (scale : List Char) :
    deScale scale = FloatExpr.const (scaleMultiplier scale) := by
  unfold deScale scaleMultiplier
  by_cases h0 : scale.length = 0
  · have : scale = [] := List.length_eq_zero.mp h0
    subst this
    rfl
  · rw [if_neg h0]
    split_ifs <;> rfl

/-- The fields that `parseDimCalibration` leaves as they are. -/
theorem parseDimCalibration_fields (E : XmlEnv) (cur : XmlNode) (cal : CALIBRATION) :
    (parseDimCalibration E cur cal).factor = cal.factor ∧
    (parseDimCalibration E cur cal).offset = cal.offset ∧
    (parseDimCalibration E cur cal).invert = cal.invert := ⟨rfl, rfl, rfl⟩

/-- The value that `parseTargetValue` stores for a child that holds text. -/
theorem parseTargetValue_text (cur c : XmlNode) (target : String) (value : FloatExpr)
    (text : List Char) (hc : firstChild cur target = some c) (ht : c.content = some text) :
    (xmlGetProp c "scale" = none →
      parseTargetValue cur target value = FloatExpr.atof text) ∧
    (∀ scale, xmlGetProp c "scale" = some scale →
      parseTargetValue cur target value
        = FloatExpr.mul (FloatExpr.atof text) (FloatExpr.const (scaleMultiplier scale))) := by
  constructor
  · intro hs
    simp only [parseTargetValue, hc, ht, hs]
  · intro scale hs
    simp only [parseTargetValue, hc, ht, hs, deScale_eq]

/-- C21: a calibration tag without factor child, offset child and invert attribute is
parsed to factor 1, offset 0 and invert 0.  A factor or offset child that holds text
sets the field to atof of the text, multiplied, when the child has a scale attribute,
by the multiplier of the scale name: 1/1000 for milli, 1/1000000 for micro,
1/1000000000 for nano, 1 for every other name. -/
theorem calibrationTag_defaults_and_scale (E : XmlEnv) (cur : XmlNode) :
    (firstChild cur "factor" = none → firstChild cur "offset" = none →
      xmlGetProp cur "invert" = none →
      (calibrationOf (calibrationTag E cur)).factor = FloatExpr.const 1 ∧
      (calibrationOf (calibrationTag E cur)).offset = FloatExpr.const 0 ∧
      (calibrationOf (calibrationTag E cur)).invert = 0) ∧
    (∀ c text, firstChild cur "factor" = some c → c.content = some text →
      (xmlGetProp c "scale" = none →
        (calibrationOf (calibrationTag E cur)).factor = FloatExpr.atof text) ∧
      (∀ scale, xmlGetProp c "scale" = some scale →
        (calibrationOf (calibrationTag E cur)).factor
          = FloatExpr.mul (FloatExpr.atof text) (FloatExpr.const (scaleMultiplier scale)))) ∧
    (∀ c text, firstChild cur "offset" = some c → c.content = some text →
      (xmlGetProp c "scale" = none →
        (calibrationOf (calibrationTag E cur)).offset = FloatExpr.atof text) ∧
      (∀ scale, xmlGetProp c "scale" = some scale →
        (calibrationOf (calibrationTag E cur)).offset
          = FloatExpr.mul (FloatExpr.atof text) (FloatExpr.const (scaleMultiplier scale)))) ∧
    scaleMultiplier "milli".toList = 1 / 1000 ∧
    scaleMultiplier "micro".toList = 1 / 1000000 ∧
    scaleMultiplier "nano".toList = 1 / 1000000000 ∧
    (∀ scale, scale ≠ "milli".toList → scale ≠ "micro".toList → scale ≠ "nano".toList →
      scaleMultiplier scale = 1) := by
  have hf : (calibrationOf (calibrationTag E cur)).factor
      = parseTargetValue cur "factor" (FloatExpr.const 1) := rfl
  have ho : (calibrationOf (calibrationTag E cur)).offset
      = parseTargetValue cur "offset" (FloatExpr.const 0) := rfl
  have hi : (calibrationOf (calibrationTag E cur)).invert = attrYes cur "invert" 0 := rfl
  refine ⟨?_, ?_, ?_, ?_, ?_, ?_, ?_⟩
  · intro h1 h2 h3
    rw [hf, ho, hi]
    simp [parseTargetValue, attrYes, h1, h2, h3]
  · intro c text hc ht
    rw [hf]
    exact parseTargetValue_text cur c "factor" _ text hc ht
  · intro c text hc ht
    rw [ho]
    exact parseTargetValue_text cur c "offset" _ text hc ht
  · unfold scaleMultiplier
    rw [if_pos rfl]
  · unfold scaleMultiplier
    rw [if_neg (by decide), if_pos rfl]
  · unfold scaleMultiplier
    rw [if_neg (by decide), if_neg (by decide), if_pos rfl]
  · intro scale h1 h2 h3
    simp only [scaleMultiplier, if_neg h1, if_neg h2, if_neg h3]

/-- C21 on a sample tag: the factor 2.5 with scale milli and the offset 0.5 without
scale. -/
theorem calibrationTag_defaults_and_scale_witness :
    (calibrationOf (calibrationTag sampleXmlEnv scaledCalibration)).factor
      = FloatExpr.mul (FloatExpr.atof "2.5".toList) (FloatExpr.const (1 / 1000)) ∧
    (calibrationOf (calibrationTag sampleXmlEnv scaledCalibration)).offset
      = FloatExpr.atof "0.5".toList :=
  ⟨((calibrationTag_defaults_and_scale sampleXmlEnv scaledCalibration).2.1
      (XmlNode.mk "factor".toList [("scale".toList, "milli".toList)] (some "2.5".toList) [])
      "2.5".toList rfl rfl).2 "milli".toList rfl,
   ((calibrationTag_defaults_and_scale sampleXmlEnv scaledCalibration).2.2.1
      (xmlText "offset" "0.5") "0.5".toList rfl rfl).1 rfl⟩

/-! ## Theorems: copyActions and freeActions -/

/-- The body of the loop of `freeActions` returns on an action that carries the member
of its type, and does not release the array of actions. -/
theorem freeAction_returns (i : Nat) (a : ACTION) (h : memberMatches a = true) :
    ∃ r, freeAction i a = Except.ok r ∧ XmlRelease.action ∉ r.2 := by
  unfold memberMatches at h
  unfold freeAction
  split_ifs at h ⊢
  all_goals
    cases hu : a.u <;> simp only [hu] at h ⊢ <;>
    first
    | contradiction
    | (refine ⟨_, rfl, ?_⟩
       simp only [freeDimensions, freeCounted]
       repeat' split
       all_goals simp)

/-- The loop of `freeActions` returns on actions that carry the member of their type,
and does not release the array of actions. -/
theorem freeActionLoop_returns : ∀ (xs : List ACTION) (i : Nat),
    (∀ x ∈ xs, memberMatches x = true) →
    ∃ r, freeActionLoop i xs = Except.ok r ∧ XmlRelease.action ∉ r.2 := by
  intro xs
  induction xs with
  | nil =>
    intro i _
    exact ⟨_, rfl, by simp⟩
  | cons a rest ih =>
    intro i h
    obtain ⟨r, hr, hn⟩ := freeAction_returns i a (h a (List.mem_cons_self _ _))
    obtain ⟨rs, hrs, hns⟩ := ih (i + 1) (fun x hx => h x (List.mem_cons_of_mem _ hx))
    refine ⟨(r.1 :: rs.1, r.2 ++ rs.2), ?_, ?_⟩
    · rw [freeActionLoop, hr]
      simp only [hrs]
    · simp only [List.mem_append, not_or]
      exact ⟨hn, hns⟩

/-- `freeActions` on an empty structure returns at line 1497 and releases nothing. -/
theorem freeActions_empty : freeActions initActions = Except.ok (initActions, []) := rfl

/-- `freeActions` on a consistent structure leaves it empty and releases the array of
actions once, if there is one. -/
theorem freeActions_consistent (a : ACTIONS) (h : consistent a) :
    ∃ calls, freeActions a = Except.ok (initActions, calls) ∧
      calls.count XmlRelease.action = (if a.action.isSome then 1 else 0) := by
  obtain ⟨h1, h2, h3⟩ := h
  unfold freeActions
  by_cases h0 : a.nactions = 0
  · have hnone := h2 h0
    rw [if_pos h0]
    refine ⟨[], ?_, ?_⟩
    · cases a with
      | mk n act =>
        simp only at h0 hnone
        subst h0
        subst hnone
        rfl
    · rw [hnone]
      rfl
  · rw [if_neg h0]
    have hl : a.nactions.toNat = (elements a.action).length := by
      rw [h1]
      exact Int.toNat_natCast _
    rw [hl, if_neg (by omega), List.take_length]
    obtain ⟨r, hr, hn⟩ := freeActionLoop_returns (elements a.action) 0 h3
    rw [hr]
    have hsome : a.action.isSome = true := by
      cases ha : a.action with
      | none =>
        rw [ha] at h1
        exact absurd h1 h0
      | some l => rfl
    refine ⟨_, rfl, ?_⟩
    rw [hsome]
    simp only [reduceIte, List.count_append, List.count_eq_zero.mpr hn, zero_add]
    rfl

/-- C22: for two different structures and a consistent ACTIONS structure in, after
copyActions(out, in) out holds the contents of in and in is empty; freeActions on in
then returns without releasing anything; freeActions on out returns, leaves out empty
and releases the array of actions once, if in held one; and a second freeActions on
out releases nothing. -/
theorem copyActions_single_free (a_out a_in : ACTIONS) (h : consistent a_in) :
    (copyActions a_out a_in).1 = a_in ∧
    (copyActions a_out a_in).2 = { nactions := 0, action := none } ∧
    freeActions (copyActions a_out a_in).2 = Except.ok ((copyActions a_out a_in).2, []) ∧
    ∃ calls, freeActions (copyActions a_out a_in).1
        = Except.ok ({ nactions := 0, action := none }, calls) ∧
      calls.count XmlRelease.action = (if a_in.action.isSome then 1 else 0) ∧
      freeActions { nactions := 0, action := none }
        = Except.ok ({ nactions := 0, action := none }, []) := by
  refine ⟨rfl, rfl, rfl, ?_⟩
  obtain ⟨calls, hc, hn⟩ := freeActions_consistent a_in h
  exact ⟨calls, hc, hn, rfl⟩

/-- The list that `parseDoc` builds from the sample document is consistent. -/
theorem sampleActions_consistent : consistent sampleActions := by
  refine ⟨rfl, ?_, ?_⟩
  · intro h
    exact absurd h (by decide)
  · decide

/-- C22 on the list of six rules that parseDoc builds from the sample document:
freeActions on the copy releases the array of actions once. -/
theorem copyActions_single_free_witness :
    consistent sampleActions ∧ sampleActions.nactions = 6 ∧
    (copyActions initActions sampleActions).1 = sampleActions ∧
    (copyActions initActions sampleActions).2 = { nactions := 0, action := none } ∧
    freeActions (copyActions initActions sampleActions).2
      = Except.ok ((copyActions initActions sampleActions).2, []) ∧
    ∃ calls, freeActions (copyActions initActions sampleActions).1
        = Except.ok ({ nactions := 0, action := none }, calls) ∧
      calls.count XmlRelease.action = (if sampleActions.action.isSome then 1 else 0) ∧
      freeActions { nactions := 0, action := none }
        = Except.ok ({ nactions := 0, action := none }, []) :=
  ⟨sampleActions_consistent, rfl,
   copyActions_single_free initActions sampleActions sampleActions_consistent⟩

/-! ## Theorems: the fixed-length arrays of parseXML -/

/-- C24 (code evaluated at the failing input): with MAXDATARANK = 8 and attributes of
nine comma-separated items, the loops of parseFixedLengthStrArray and
parseFixedLengthArray keep nine items and write the ninth to index 8 of the array of
eight entries.  Were there a ninth entry behind the array, it would hold the ninth item
and the count returned would be 9.  Attributes of eight items are stored with count
8. -/
theorem parseFixedLength_ninth_item :
    (storedItems sampleXmlEnv.MAXDATARANK ',' "a,b,c,d,e,f,g,h,i".toList).length = 9 ∧
    parseFixedLengthStrArray sampleXmlEnv nineItems "operation"
        (initSubset sampleXmlEnv).operation
      = Except.error XmlFault.arrayOverflow ∧
    parseFixedLengthArray sampleXmlEnv nineItems "dimid" sampleXmlEnv.atoi
        (initSubset sampleXmlEnv).dimid
      = Except.error XmlFault.arrayOverflow ∧
    parseFixedLengthStrArray sampleXmlEnv nineItems "operation" (List.replicate 9 [])
      = Except.ok (["a".toList, "b".toList, "c".toList, "d".toList, "e".toList, "f".toList,
                    "g".toList, "h".toList, "i".toList], 9) ∧
    parseFixedLengthArray sampleXmlEnv nineItems "dimid" sampleXmlEnv.atoi
        (List.replicate 9 (-1))
      = Except.ok ([0, 1, 2, 3, 4, 5, 6, 7, 8], 9) ∧
    parseFixedLengthStrArray sampleXmlEnv eightItems "operation"
        (initSubset sampleXmlEnv).operation
      = Except.ok (["a".toList, "b".toList, "c".toList, "d".toList, "e".toList, "f".toList,
                    "g".toList, "h".toList], 8) ∧
    parseFixedLengthArray sampleXmlEnv eightItems "dimid" sampleXmlEnv.atoi
        (initSubset sampleXmlEnv).dimid
      = Except.ok ([0, 1, 2, 3, 4, 5, 6, 7], 8) := by
  refine ⟨?_, ?_, ?_, ?_, ?_, ?_, ?_⟩ <;> rfl

/-- The writes of the items in turn run past the end of the array when there are more
items than entries from index `k` on. -/
theorem writeItems_overflow {α : Type} (conv : List Char → α) :
    ∀ (items : List (List Char)) (k : Nat) (array : List α),
    k ≤ array.length → array.length < k + items.length →
    writeItems conv items k array = Except.error XmlFault.arrayOverflow := by
  intro items
  induction items with
  | nil =>
    intro k array h1 h2
    simp at h2
    omega
  | cons item rest ih =>
    intro k array h1 h2
    unfold writeItems
    by_cases hk : k < array.length
    · rw [if_pos hk]
      apply ih
      · rw [List.length_set]
        omega
      · rw [List.length_set]
        simp at h2
        omega
    · rw [if_neg hk]

/-- For every attribute of more than `MAXDATARANK` comma-separated items,
`parseFixedLengthStrArray` writes past the end of an array of `MAXDATARANK` rows. -/
theorem parseFixedLengthStrArray_overflow (E : XmlEnv) (cur : XmlNode) (target : String)
    (att : List Char) (array : List (List Char)) (ha : xmlGetProp cur target = some att)
    (hn : E.MAXDATARANK < (strtokAll ',' att).length) (hl : array.length = E.MAXDATARANK) :
    parseFixedLengthStrArray E cur target array = Except.error XmlFault.arrayOverflow := by
  unfold parseFixedLengthStrArray
  rw [ha]
  simp only []
  have h0 : att.length > 0 := by
    cases att with
    | nil => simp [strtokAll] at hn
    | cons a l => simp
  rw [if_pos h0]
  rw [writeItems_overflow (copyItem E) _ 0 array (Nat.zero_le _) (by
    unfold storedItems
    rw [List.length_take]
    omega)]

/-! ## Theorems: composite tags -/

/-- The members that `parseCompositeSubset` leaves as they are. -/
theorem parseCompositeSubset_fields (E : XmlEnv) (cur : XmlNode) (comp c : COMPOSITE)
    (h : parseCompositeSubset E cur comp = Except.ok c) :
    c.map_to_signal = comp.map_to_signal ∧ c.aserror_signal = comp.aserror_signal := by
  unfold parseCompositeSubset at h
  split at h
  · exact absurd h (by simp)
  · cases h
    exact ⟨rfl, rfl⟩
  · cases h
    exact ⟨rfl, rfl⟩

/-- For every composite tag that is parsed, `map_to_signal` is the empty text of
`initComposite`, and `aserror_signal` holds the value of `mapto` when that attribute is
present and not empty, the value of `aserror` otherwise. -/
theorem compositeTag_map_to_signal (E : XmlEnv) (cur : XmlNode) (a : ACTION)
    (h : compositeTag E cur = Except.ok a) :
    (compositeOf a).map_to_signal = [] ∧
    (compositeOf a).aserror_signal
      = attrValue cur "mapto" id (attrValue cur "aserror" id []) := by
  unfold compositeTag at h
  simp only [] at h
  split at h
  · exact absurd h (by simp)
  · rename_i c5 h5
    have hf := parseCompositeSubset_fields E cur _ c5 h5
    cases h
    simp only [compositeOf]
    split_ifs
    · exact ⟨hf.1, hf.2⟩
    · exact ⟨hf.1, hf.2⟩

/-- C25 (code evaluated at the failing input): parseComposite on the tag
`<composite data="X" aserror="A" mapto="M"/>` stores a rule whose map_to_signal is
empty and whose aserror_signal is M; with mapto alone aserror_signal is M as well; with
aserror alone it is A. -/
theorem parseComposite_mapto_lost :
    mapAndAsError (parseComposite sampleXmlEnv
        (compositeSignal [("aserror", "A"), ("mapto", "M")]) noActions) = some [("", "M")] ∧
    mapAndAsError (parseComposite sampleXmlEnv
        (compositeSignal [("mapto", "M")]) noActions) = some [("", "M")] ∧
    mapAndAsError (parseComposite sampleXmlEnv
        (compositeSignal [("aserror", "A")]) noActions) = some [("", "A")] := by
  refine ⟨?_, ?_, ?_⟩ <;> rfl

/-! ## Theorems: the subset of an unwritten coordinate in readCDF -/

/-- The quotient rounded up, from the quotient and the remainder. -/
theorem ceil_div_cases (count stride : Int) (hs : 0 < stride) :
    (count + stride - 1) / stride
      = if count % stride > 0 then 1 + count / stride else count / stride := by
  have h1 : stride * (count / stride) + count % stride = count := Int.ediv_add_emod count stride
  have h2 : 0 ≤ count % stride := Int.emod_nonneg _ (by omega)
  have h3 : count % stride < stride := Int.emod_lt_of_pos _ hs
  by_cases h0 : count % stride > 0
  · rw [if_pos h0]
    have := (Int.ediv_emod_unique (a := count + stride - 1) (q := 1 + count / stride)
      (r := count % stride - 1) hs).mpr
        ⟨by rw [mul_add, mul_one]; linarith, by omega, by omega⟩
    exact this.1
  · rw [if_neg h0]
    have h4 : count % stride = 0 := by omega
    have := (Int.ediv_emod_unique (a := count + stride - 1) (q := count / stride)
      (r := stride - 1) hs).mpr ⟨by linarith, by omega, by omega⟩
    exact this.1

/-- Lines 764-781 for one subset with the count unset: the length is the quotient of
the number of indices from `start` to the last index by the stride, rounded up. -/
theorem subsetLength_ceil (sub : CDFSUBSET) (data_n : Int)
    (h1 : sub.subsetCount = 1) (h2 : sub.subset 0 ≠ 0) (hcount : sub.count 0 = -1)
    (hstride : 1 ≤ sub.stride 0)
    (hstart : sub.start 0 ≤ (if sub.stop 0 = -1 then data_n - 1 else sub.stop 0)) :
    subsetLength sub data_n
      = ((if sub.stop 0 = -1 then data_n - 1 else sub.stop 0) - sub.start 0 + 1
          + sub.stride 0 - 1) / sub.stride 0 := by
  unfold subsetLength
  rw [if_pos ⟨h1, h2⟩]
  simp only [hcount, reduceIte]
  generalize (if sub.stop 0 = -1 then data_n - 1 else sub.stop 0) = stop at hstart ⊢
  generalize hc : stop - sub.start 0 + 1 = count
  have hc1 : 1 ≤ count := by omega
  by_cases hb : sub.stride 0 > 1 ∧ count > 1
  · rw [if_pos hb, Int.tmod_eq_emod (by omega) (by omega),
      Int.tdiv_eq_ediv (by omega) (by omega), ceil_div_cases count _ (by omega)]
  · rw [if_neg hb]
    by_cases hs1 : sub.stride 0 = 1
    · rw [hs1]
      simp
    · have hc2 : count = 1 := by omega
      rw [hc2]
      have : (1 : Int) + sub.stride 0 - 1 = sub.stride 0 := by ring
      rw [this, Int.ediv_self (by omega)]

/-- The number of values below `L` that are below `n`. -/
theorem length_filter_range_lt (n : Nat) : ∀ L : Nat,
    ((List.range L).filter (fun k => decide (k < n))).length = min n L := by
  intro L
  induction L with
  | zero => simp
  | succ L ih =>
    rw [List.range_succ, List.filter_append, List.length_append, ih]
    by_cases h : L < n
    · simp [h]
      omega
    · simp [h]
      omega

/-- The number of the indices of a subset, as a quotient. -/
theorem indexCount_eq (start stop stride : Int) (L : Nat) (hs : 1 ≤ stride)
    (h1 : start ≤ stop) (h0 : 0 ≤ start) (h2 : stop < (L : Int)) :
    (indexCount start stop stride L : Int) = (stop - start) / stride + 1 := by
  unfold indexCount
  have hq : 0 ≤ (stop - start) / stride := Int.ediv_nonneg (by omega) (by omega)
  obtain ⟨n, hn⟩ : ∃ n : Nat, (stop - start) / stride + 1 = (n : Int) :=
    ⟨((stop - start) / stride + 1).toNat, (Int.toNat_of_nonneg (by omega)).symm⟩
  have hle : (stop - start) / stride ≤ stop - start :=
    Int.ediv_le_self _ (by omega)
  have hp : (fun k : Nat => decide (start + (k : Int) * stride ≤ stop))
      = (fun k : Nat => decide (k < n)) := by
    funext k
    congr 1
    apply propext
    have hiff : (k : Int) ≤ (stop - start) / stride ↔ (k : Int) * stride ≤ stop - start :=
      Int.le_ediv_iff_mul_le (by omega)
    constructor
    · intro h
      have := hiff.mpr (by linarith)
      omega
    · intro h
      have := hiff.mp (by omega)
      linarith
  rw [hp, length_filter_range_lt, hn]
  have : n ≤ L := by omega
  rw [min_eq_left this]

/-- The length of a dimension below 2^31 is kept by the cast to `int`. -/
theorem toInt32_small (n : Nat) (h : n < 2 ^ 31) : toInt32 n = (n : Int) := by
  unfold toInt32
  have h1 : n % 2 ^ 32 = n := Nat.mod_eq_of_lt (by omega)
  rw [h1, if_pos h]

/-- The number of data that `readCDFUnwritten` reports once the length of the dimension
is known and no more than one subset is asked for. -/
theorem readCDFUnwritten_data_n (E : NcErrors) (sub : CDFSUBSET) (dimlen : Nat)
    (data_alloc dims_alloc dim_alloc : Option Ptr) (b : DATA_BLOCK)
    (h1 : ¬ sub.subsetCount > 1) :
    (readCDFUnwritten E sub 0 dimlen data_alloc dims_alloc dim_alloc b).2.data_n
      = subsetLength sub (toInt32 dimlen) ∧
    (data_alloc ≠ none → dims_alloc ≠ none → dim_alloc ≠ none →
      (readCDFUnwritten E sub 0 dimlen data_alloc dims_alloc dim_alloc b).1 = 0) := by
  unfold readCDFUnwritten
  simp only [ne_eq, not_true_eq_false, reduceIte, if_neg h1]
  constructor
  · cases dims_alloc with
    | none => split_ifs <;> rfl
    | some a => split_ifs <;> rfl
  · intro ha hb hc
    rw [if_neg ha]
    cases dims_alloc with
    | none => exact absurd rfl hb
    | some a =>
      simp only []
      rw [if_neg hc]

/-- The subset of lines 681-722 when the name is not served as a variable: it has no
operation left, whatever the request asked for. -/
theorem readCDFSubset_not_one (datasubset : CDFSUBSET) (l : Lookup)
    (hv : ¬ ((datasubset.subsetCount > 0 ∧ l.reducedFound = true) ∨ l.variableFound = true)) :
    (readCDFSubset datasubset l).subsetCount ≤ 0 := by
  unfold readCDFSubset
  split_ifs with h
  · exact le_refl 0
  · by_contra hc
    have hpos : datasubset.subsetCount > 0 := by omega
    cases hr : l.reducedFound with
    | false => exact h ⟨hpos, hr⟩
    | true => exact hv (Or.inl ⟨hpos, hr⟩)

/-- Lines 728-813 as `readCDF` reaches them: a name served as an unwritten coordinate
of length L gets data_n = (int) L, whatever subset the request asks for, since the
subset has been dropped at line 719; lines 755-781 never run. -/
theorem readCDF_unwritten_length (E : NcErrors) (compliance : Bool) (cls : Int)
    (get_bytes get_nodimdata : Bool) (sub : CDFSUBSET) (l : Lookup) (b : DATA_BLOCK)
    (hm : ¬ (sub.subsetCount > 0 ∧ sub.subsetCount > E.NC_MAX_VAR_DIMS))
    (hv : ¬ ((sub.subsetCount > 0 ∧ l.reducedFound = true) ∨ l.variableFound = true))
    (hd : l.dimid_rc = 0) (hl : l.dimlen_rc = 0) :
    (readCDF E compliance cls get_bytes get_nodimdata sub l b).2.data_n = toInt32 l.dimlen := by
  have hs := readCDFSubset_not_one sub l hv
  have hlen : subsetLength (readCDFSubset sub l) (toInt32 l.dimlen) = toInt32 l.dimlen := by
    unfold subsetLength
    rw [if_neg (fun hc => by omega)]
  unfold readCDF
  rw [if_neg hm]
  simp only []
  rw [if_neg hv, if_pos hd]
  unfold readCDFUnwritten
  rw [if_neg (fun hc => hc hl)]
  simp only []
  rw [if_neg (by omega), hlen]
  cases l.dims_alloc <;> simp only [] <;> split_ifs <;> rfl

/-- C26 (defect): a request for the dimension without coordinate variable of length
10 with the one subset [2:9:3], count unset.  The indices 2, 5, 8 are three, and
lines 762-781 compute 3 from this subset, but readCDF has dropped the subset at line
719 because the name is not a variable: it returns 0 with data_n = 10 and a
dimension of length 10. -/
theorem readCDF_unwritten_subset_dropped :
    indexCount 2 9 3 10 = 3 ∧
    subsetLength (oneSubset 2 9 3) 10 = 3 ∧
    (readCDFSubset (oneSubset 2 9 3) (unwrittenLookup 10)).subsetCount = 0 ∧
    (readCDF sampleErrors true 0 false false (oneSubset 2 9 3) (unwrittenLookup 10)
      emptyBlock).1 = 0 ∧
    (readCDF sampleErrors true 0 false false (oneSubset 2 9 3) (unwrittenLookup 10)
      emptyBlock).2.data_n = 10 ∧
    (allDims (readCDF sampleErrors true 0 false false (oneSubset 2 9 3) (unwrittenLookup 10)
      emptyBlock).2).map DIMS.dim_n = [10] := by
  refine ⟨?_, ?_, ?_, ?_, ?_, ?_⟩ <;> rfl

/-! ## Theorems: the parameters of error models -/

/-- The value that the loop of line 42 ends with is that of the first call of `read`
that is not interrupted. -/
theorem readLoop_spec (S : SocketEnv) : ∀ (fuel k0 : Nat) (errno rc serrno : Int),
    readLoop S fuel k0 errno = some (rc, serrno) →
    ∃ k, k0 ≤ k ∧ k < k0 + fuel ∧ rc = (S.read k).ret ∧
      ∀ j, k0 ≤ j → j < k → (S.read j).ret = -1 := by
  intro fuel
  induction fuel with
  | zero =>
    intro k0 errno rc serrno h
    cases h
  | succ f ih =>
    intro k0 errno rc serrno h
    unfold readLoop at h
    simp only [] at h
    by_cases hc : (S.read k0).ret = -1 ∧ (S.read k0).errno.getD errno = S.EINTR
    · rw [if_pos hc] at h
      obtain ⟨k, h1, h2, h3, h4⟩ := ih (k0 + 1) _ rc serrno h
      refine ⟨k, by omega, by omega, h3, ?_⟩
      intro j hj1 hj2
      by_cases hj : j = k0
      · rw [hj]
        exact hc.1
      · exact h4 j (by omega) hj2
    · rw [if_neg hc] at h
      cases h
      exact ⟨k0, le_refl _, by omega, rfl, fun j hj1 hj2 => absurd hj1 (by omega)⟩

/-- The loop of line 42 ends when one of the calls of `read` within the fuel is not
interrupted. -/
theorem readLoop_returns (S : SocketEnv) : ∀ (fuel k0 : Nat) (errno : Int) (k : Nat),
    k0 ≤ k → k < k0 + fuel → notInterrupted S (S.read k) →
    ∃ r, readLoop S fuel k0 errno = some r := by
  intro fuel
  induction fuel with
  | zero =>
    intro k0 errno k h1 h2 _
    omega
  | succ f ih =>
    intro k0 errno k h1 h2 hn
    unfold readLoop
    simp only []
    by_cases hc : (S.read k0).ret = -1 ∧ (S.read k0).errno.getD errno = S.EINTR
    · rw [if_pos hc]
      have hk : k ≠ k0 := by
        intro hk
        rw [hk] at hn
        cases hn with
        | inl hr => exact hr hc.1
        | inr he =>
          obtain ⟨e, he1, he2⟩ := he
          rw [he1] at hc
          exact he2 hc.2
      exact ih (k0 + 1) _ k (by omega) (by omega) hn
    · rw [if_neg hc]
      exact ⟨_, rfl⟩

/-- C23: idamClientReadin never returns 0.  The value it returns comes from the first
call of read that is not interrupted: when that call returns 0, idamClientReadin
returns -1 and the last entry it adds to the error stack is "No Data waiting at Socket
when Data Expected!"; when that call returns another value rc, idamClientReadin returns
rc and the error stack is as it was.  idamClientReadin returns as soon as one call of
read is not interrupted. -/
theorem idamClientReadin_never_zero (S : SocketEnv) (fuel : Nat) (stack : List IdamError) :
    (∀ rc errs, idamClientReadin S fuel stack = some (rc, errs) →
      rc ≠ 0 ∧
      ∃ k, k < fuel ∧ (∀ j, j < k → (S.read j).ret = -1) ∧
        ((S.read k).ret = 0 →
          rc = -1 ∧ stack <+: errs ∧ errs.getLast? = some (noDataError S)) ∧
        ((S.read k).ret ≠ 0 → rc = (S.read k).ret ∧ errs = stack)) ∧
    (∀ k, k < fuel → notInterrupted S (S.read k) →
      ∃ r, idamClientReadin S fuel stack = some r) := by
  constructor
  · intro rc errs h
    unfold idamClientReadin at h
    simp only [] at h
    cases hr : readLoop S fuel 0 (selectLoop S (S.MAXLOOP.toNat + 1) 0 0) with
    | none =>
      rw [hr] at h
      cases h
    | some r =>
      obtain ⟨rc0, serrno⟩ := r
      rw [hr] at h
      simp only [] at h
      obtain ⟨k, _, h2, h3, h4⟩ := readLoop_spec S fuel 0 _ rc0 serrno hr
      by_cases h0 : rc0 = 0
      · rw [if_pos h0] at h
        cases h
        refine ⟨by decide, k, by omega, fun j hj => h4 j (Nat.zero_le _) hj, ?_, ?_⟩
        · intro _
          refine ⟨rfl, ?_, ?_⟩
          · split_ifs
            · rw [List.append_assoc]
              exact List.prefix_append _ _
            · exact List.prefix_append _ _
          · rw [List.getLast?_concat]
            rfl
        · intro hne
          exact absurd (h3 ▸ h0) hne
      · rw [if_neg h0] at h
        cases h
        refine ⟨h0, k, by omega, fun j hj => h4 j (Nat.zero_le _) hj, ?_, ?_⟩
        · intro hz
          exact absurd (h3.trans hz) h0
        · intro _
          exact ⟨h3, rfl⟩
  · intro k hk hn
    obtain ⟨r, hr⟩ := readLoop_returns S fuel 0 (selectLoop S (S.MAXLOOP.toNat + 1) 0 0) k
      (Nat.zero_le _) (by omega) hn
    unfold idamClientReadin
    simp only [hr]
    obtain ⟨rc0, serrno⟩ := r
    simp only []
    split_ifs <;> exact ⟨_, rfl⟩

/-- C23 on a socket whose first two calls of read are interrupted: a third call that
returns 0 gives -1 and the entry on the stack, one that returns 17 bytes gives 17 and
one that fails with -1 gives -1, both with the stack as it was. -/
theorem idamClientReadin_never_zero_witness :
    idamClientReadin (sampleSocket 2 { ret := 0, errno := none }) 5 []
      = some (-1, [noDataError (sampleSocket 2 { ret := 0, errno := none })]) ∧
    idamClientReadin (sampleSocket 2 { ret := 17, errno := none }) 5 [] = some (17, []) ∧
    idamClientReadin (sampleSocket 2 { ret := -1, errno := some 104 }) 5 [] = some (-1, []) ∧
    (∃ r, idamClientReadin (sampleSocket 2 { ret := 0, errno := none }) 5 [] = some r) :=
  ⟨rfl, rfl, rfl,
   (idamClientReadin_never_zero (sampleSocket 2 { ret := 0, errno := none }) 5 []).2 2
     (by decide) (Or.inl (by decide))⟩

/-! ## Theorems: deblank -/

/-- The text of a buffer that holds characters other than the terminator, then the
terminator. -/
theorem cstring_append (l tail : List Char) (h : ∀ c ∈ l, c ≠ NUL) :
    cstring (l ++ NUL :: tail) = l := by
  unfold cstring
  induction l with
  | nil => simp [List.takeWhile]
  | cons a l ih =>
    have ha : (a != NUL) = true := by
      simpa using h a (List.mem_cons_self _ _)
    rw [List.cons_append, List.takeWhile_cons, ha]
    simp only [reduceIte]
    rw [ih (fun c hc => h c (List.mem_cons_of_mem _ hc))]

/-- The length of that text. -/
theorem strlen_append (l tail : List Char) (h : ∀ c ∈ l, c ≠ NUL) :
    strlen (l ++ NUL :: tail) = l.length := by
  have := cstring_append l tail h
  unfold cstring at this
  unfold strlen
  rw [this]

/-- The loop of `deblank` from a buffer that holds the characters kept so far, `pre`,
then characters already read, `g`, then the characters still to read, `rest`, and the
terminator. -/
theorem deblankLoop_spec (tail : List Char) : ∀ (rest pre g : List Char) (fuel : Nat),
    (∀ c ∈ pre, c ≠ NUL) → (∀ c ∈ g, c ≠ NUL) → (∀ c ∈ rest, c ≠ NUL) →
    rest.length ≤ fuel →
    ∃ g1, (∀ c ∈ g1, c ≠ NUL) ∧
      deblankLoop fuel (pre.length + g.length) pre.length (pre ++ g ++ rest ++ NUL :: tail)
        = (pre.length + (rest.filter kept).length,
           pre ++ rest.filter kept ++ g1 ++ NUL :: tail) := by
  intro rest
  induction rest with
  | nil =>
    intro pre g fuel hp hg _ _
    refine ⟨g, hg, ?_⟩
    have hlen : strlen (pre ++ g ++ [] ++ NUL :: tail) = pre.length + g.length := by
      rw [List.append_nil, strlen_append _ _ (by
        intro c hc
        rcases List.mem_append.mp hc with h | h
        · exact hp c h
        · exact hg c h), List.length_append]
    cases fuel with
    | zero => simp [deblankLoop]
    | succ f =>
      rw [deblankLoop, if_neg (by rw [hlen]; omega)]
      simp
  | cons c rest ih =>
    intro pre g fuel hp hg hr hf
    cases fuel with
    | zero => simp at hf
    | succ f =>
      have hcN : c ≠ NUL := hr c (List.mem_cons_self _ _)
      have hr2 : ∀ x ∈ rest, x ≠ NUL := fun x hx => hr x (List.mem_cons_of_mem _ hx)
      have hall : ∀ x ∈ pre ++ g ++ c :: rest, x ≠ NUL := by
        intro x hx
        rcases List.mem_append.mp hx with h | h
        · rcases List.mem_append.mp h with h | h
          · exact hp x h
          · exact hg x h
        · exact hr x h
      have hlen : strlen (pre ++ g ++ c :: rest ++ NUL :: tail)
          = pre.length + g.length + (rest.length + 1) := by
        rw [strlen_append _ _ hall]
        simp [List.length_append]
        omega
      have hget : (pre ++ g ++ c :: rest ++ NUL :: tail).getD (pre.length + g.length) NUL
          = c := by
        rw [List.getD_eq_getElem?_getD, List.append_assoc (pre ++ g),
          List.getElem?_append_right (by simp)]
        simp
      rw [deblankLoop, if_pos (by rw [hlen]; omega)]
      simp only [hget]
      by_cases hk : c ≠ ' ' ∧ c ≠ QUOTE
      · rw [if_pos hk]
        have hkept : kept c = true := by
          unfold kept
          exact decide_eq_true hk
        have hset : (pre ++ g ++ c :: rest ++ NUL :: tail).set pre.length c
            = (pre ++ [c]) ++ (g ++ [c]).tail ++ rest ++ NUL :: tail := by
          cases g with
          | nil => simp
          | cons x m => simp [List.set_append]
        have hgl : (g ++ [c]).tail.length = g.length := by simp
        have hg2 : ∀ x ∈ (g ++ [c]).tail, x ≠ NUL := by
          intro x hx
          have := List.mem_of_mem_tail hx
          rcases List.mem_append.mp this with h | h
          · exact hg x h
          · rw [List.mem_singleton.mp h]
            exact hcN
        have hp2 : ∀ x ∈ pre ++ [c], x ≠ NUL := by
          intro x hx
          rcases List.mem_append.mp hx with h | h
          · exact hp x h
          · rw [List.mem_singleton.mp h]
            exact hcN
        obtain ⟨g1, hg1, h1⟩ := ih (pre ++ [c]) (g ++ [c]).tail f hp2 hg2 hr2 (by
          simp at hf
          omega)
        refine ⟨g1, hg1, ?_⟩
        rw [hset]
        rw [hgl, List.length_append, List.length_singleton] at h1
        have e1 : pre.length + g.length + 1 = pre.length + 1 + g.length := by omega
        rw [e1, h1, List.filter_cons_of_pos hkept]
        simp [List.length_cons]
        omega
      · rw [if_neg hk]
        have hkept : kept c = false := by
          unfold kept
          exact decide_eq_false hk
        have hg2 : ∀ x ∈ g ++ [c], x ≠ NUL := by
          intro x hx
          rcases List.mem_append.mp hx with h | h
          · exact hg x h
          · rw [List.mem_singleton.mp h]
            exact hcN
        obtain ⟨g1, hg1, h1⟩ := ih pre (g ++ [c]) f hp hg2 hr2 (by
          simp at hf
          omega)
        refine ⟨g1, hg1, ?_⟩
        rw [List.length_append, List.length_singleton] at h1
        have e2 : pre ++ g ++ c :: rest ++ NUL :: tail
            = pre ++ (g ++ [c]) ++ rest ++ NUL :: tail := by simp
        rw [e2, ← Nat.add_assoc] at *
        rw [h1, List.filter_cons_of_neg (by rw [hkept]; simp)]

/-- The loop of `deblank` writes inside the buffer: its length stays. -/
theorem deblankLoop_length : ∀ (fuel i j : Nat) (buf : List Char),
    (deblankLoop fuel i j buf).2.length = buf.length := by
  intro fuel
  induction fuel with
  | zero =>
    intro i j buf
    rfl
  | succ f ih =>
    intro i j buf
    unfold deblankLoop
    simp only []
    split_ifs
    · rw [ih, List.length_set]
    · rw [ih]
    · rfl

/-- The length of the buffer stays through `deblank`. -/
theorem deblank_length (buf : List Char) : (deblank buf).length = buf.length := by
  unfold deblank
  simp only [List.length_set]
  exact deblankLoop_length _ _ _ _

/-- The buffer that `deblank` leaves: the characters kept, the terminator, and what is
behind it. -/
theorem deblank_shape (s tail : List Char) (h : ∀ c ∈ s, c ≠ NUL) :
    ∃ tail1, deblank (s ++ NUL :: tail) = s.filter kept ++ NUL :: tail1 := by
  obtain ⟨g1, _, h1⟩ := deblankLoop_spec tail s [] [] (s ++ NUL :: tail).length
    (by simp) (by simp) h (by simp)
  simp only [List.length_nil, Nat.add_zero, List.nil_append, Nat.zero_add] at h1
  unfold deblank
  simp only []
  rw [h1]
  simp only []
  cases g1 with
  | nil => exact ⟨tail, by simp [List.set_append]⟩
  | cons x m => exact ⟨m ++ NUL :: tail, by simp [List.set_append]⟩

/-- The characters that `deblank` keeps are not terminators. -/
theorem filter_kept_ne_NUL (s : List Char) (h : ∀ c ∈ s, c ≠ NUL) :
    ∀ c ∈ s.filter kept, c ≠ NUL :=
  fun c hc => h c (List.mem_filter.mp hc).1

/-- C27: for a buffer that holds the string s (characters other than the terminator)
and its terminator, deblank leaves in the same buffer, whose length stays, the string
of the characters of s that are neither a space nor a single quote, in their order;
deblank on the result leaves the same string, and the string is not longer than s. -/
theorem deblank_filters (s tail : List Char) (h : ∀ c ∈ s, c ≠ NUL) :
    cstring (deblank (s ++ NUL :: tail)) = s.filter (fun c => decide (c ≠ ' ' ∧ c ≠ QUOTE)) ∧
    (deblank (s ++ NUL :: tail)).length = (s ++ NUL :: tail).length ∧
    cstring (deblank (deblank (s ++ NUL :: tail))) = cstring (deblank (s ++ NUL :: tail)) ∧
    (cstring (deblank (s ++ NUL :: tail))).length ≤ s.length := by
  obtain ⟨t1, h1⟩ := deblank_shape s tail h
  have hk := filter_kept_ne_NUL s h
  have hc : cstring (deblank (s ++ NUL :: tail)) = s.filter kept := by
    rw [h1, cstring_append _ _ hk]
  obtain ⟨t2, h2⟩ := deblank_shape (s.filter kept) t1 hk
  refine ⟨hc, deblank_length _, ?_, ?_⟩
  · rw [hc, h1, h2, cstring_append _ _ (filter_kept_ne_NUL _ hk), List.filter_filter]
    simp
  · rw [hc]
    exact List.length_filter_le _ _

/-- C27 on the sample buffer, which holds a string of seven characters with three
spaces and a single quote, its terminator and four more characters: the string left is
abc, and behind its terminator the buffer is as it was. -/
theorem deblank_filters_witness :
    cstring (deblank (quotedText ++ NUL :: "tail".toList)) = "abc".toList ∧
    deblank (quotedText ++ NUL :: "tail".toList)
      = "abc".toList ++ NUL :: (quotedText.drop 4 ++ NUL :: "tail".toList) :=
  ⟨(deblank_filters quotedText "tail".toList (by decide)).1.trans (by decide),
   by decide⟩

/-! ## Theorems: do_read of the exp2imas plugin -/

/-- For every static mapping whose data have a type other than double, float, long,
int, short and string, `do_read` adds the entry with code 999 to the error stack,
stores nothing in the data block and returns 0. -/
theorem do_read_static_unsupported (P : PluginEnv) (q : ReadRequest) (v : List Char)
    (hr : q.required = none)
    (hv : (getMappingValue P.CODEERRORTYPE q.mapping).value = some v)
    (ht : (getMappingValue P.CODEERRORTYPE q.mapping).request_type = some STATIC)
    (hs : q.xpath.status = 0)
    (h1 : q.xpath.data_type ≠ P.TYPE_DOUBLE) (h2 : q.xpath.data_type ≠ P.TYPE_FLOAT)
    (h3 : q.xpath.data_type ≠ P.TYPE_LONG) (h4 : q.xpath.data_type ≠ P.TYPE_INT)
    (h5 : q.xpath.data_type ≠ P.TYPE_SHORT) (h6 : q.xpath.data_type ≠ P.TYPE_STRING) :
    do_read P q = Except.ok
      { rc := 0,
        errors := (getMappingValue P.CODEERRORTYPE q.mapping).errors ++ [unsupportedError P],
        block := Returned.nothing } := by
  unfold do_read
  simp only [hr, hv, ht, hs, h1, h2, h3, h4, h5, h6, ne_eq, not_true_eq_false, reduceIte,
    or_self, unsupportedError]

/-- For every mapping that is not static whose data have a type other than string,
`do_read` adds the entry with code 999 to the error stack, stores nothing in the data
block and returns 0. -/
theorem do_read_dynamic_unsupported (P : PluginEnv) (q : ReadRequest) (v : List Char)
    (hr : q.required = none)
    (hv : (getMappingValue P.CODEERRORTYPE q.mapping).value = some v)
    (ht : (getMappingValue P.CODEERRORTYPE q.mapping).request_type ≠ some STATIC)
    (hs : q.xpath.status = 0) (h6 : q.xpath.data_type ≠ P.TYPE_STRING) :
    do_read P q = Except.ok
      { rc := 0,
        errors := (getMappingValue P.CODEERRORTYPE q.mapping).errors ++ [unsupportedError P],
        block := Returned.nothing } := by
  unfold do_read
  simp only [hr, hv, ht, hs, h6, ne_eq, not_true_eq_false, reduceIte, unsupportedError]

/-- C28 (code evaluated at the failing input): for a static mapping whose data are of
type char, and for a dynamic mapping whose data are of type double, do_read returns 0
with the entry of code 999 on the error stack and nothing in the data block.  For a
static mapping and data of type double or string, and for a dynamic mapping and data
of type string, it returns 0 with the data block populated and no entry. -/
theorem do_read_unsupported_returns_zero :
    do_read samplePlugin (sampleRequest "static" UDA_TYPE_CHAR)
      = Except.ok { rc := 0, errors := [unsupportedError samplePlugin],
                    block := Returned.nothing } ∧
    do_read samplePlugin (sampleRequest "dynamic" UDA_TYPE_DOUBLE)
      = Except.ok { rc := 0, errors := [unsupportedError samplePlugin],
                    block := Returned.nothing } ∧
    (unsupportedError samplePlugin).code = 999 ∧
    do_read samplePlugin (sampleRequest "static" UDA_TYPE_DOUBLE)
      = Except.ok { rc := 0, errors := [], block := Returned.scalar UDA_TYPE_DOUBLE 0 } ∧
    do_read samplePlugin (sampleRequest "static" UDA_TYPE_STRING)
      = Except.ok { rc := 0, errors := [], block := Returned.text "ab".toList } ∧
    do_read samplePlugin (sampleRequest "dynamic" UDA_TYPE_STRING)
      = Except.ok { rc := 0, errors := [], block := Returned.signal 10 false 0 } := by
  refine ⟨?_, ?_, ?_, ?_, ?_, ?_⟩ <;> rfl

/-! ## Theorems: readIda3Plugin -/

/-- The test of line 150 lets a file name of `IDA_FSIZE + 1` characters through, and
for a negative pulse number a file name of any length: the copy of line 151 then
writes past the end of `ida_file`. -/
theorem idaTrap_file_overflow (E : IdaEnv) (ds : DATA_SOURCE) (signal_name : List Char)
    (n : IdaNames)
    (h : ds.filename.length = E.IDA_FSIZE + 1 ∨
         (ds.exp_number < 0 ∧ ds.filename.length > E.IDA_FSIZE)) :
    idaTrap E ds signal_name n = Except.error (IdaFault.overflow "ida_file") := by
  unfold idaTrap
  have h1 : ds.filename.length ≤ E.IDA_FSIZE + 1 ∨ ds.exp_number < 0 := by
    rcases h with h | h
    · exact Or.inl (by omega)
    · exact Or.inr h.1
  have h2 : ¬ (ds.filename.length + 1 ≤ E.IDA_FSIZE + 1) := by
    rcases h with h | h <;> omega
  simp only [if_pos h1, strcpyInto, if_neg h2]

/-- The test of line 158 lets a signal name of `IDA_LSIZE + 1` characters through: the
copy of line 159 then writes past the end of `ida_signal`. -/
theorem idaTrap_signal_overflow (E : IdaEnv) (ds : DATA_SOURCE) (signal_name : List Char)
    (n : IdaNames) (hf : ds.filename.length ≤ E.IDA_FSIZE)
    (h : signal_name.length = E.IDA_LSIZE + 1) :
    idaTrap E ds signal_name n = Except.error (IdaFault.overflow "ida_signal") := by
  unfold idaTrap
  have h1 : ds.filename.length ≤ E.IDA_FSIZE + 1 ∨ ds.exp_number < 0 := Or.inl (by omega)
  have h2 : ds.filename.length + 1 ≤ E.IDA_FSIZE + 1 := by omega
  have h3 : signal_name.length ≤ E.IDA_LSIZE + 1 := by omega
  have h4 : ¬ (signal_name.length + 1 ≤ E.IDA_LSIZE + 1) := by omega
  simp only [if_pos h1, strcpyInto, if_pos h2, if_pos h3, if_neg h4]

/-- C29 (code evaluated at the failing inputs): with an array ida_file of 9 characters
and an array ida_signal of 17, readIda3Plugin writes past the end of ida_file for a
file name of 9 characters and pulse number 0 (line 151), for a file name of 20
characters and pulse number -1 (line 151) and for a file name of 20 characters and
pulse number 12345 (line 104), and past the end of ida_signal for a signal name of 17
characters (line 159).  It returns 100 for a file name of 10 characters and pulse
number 0, 101 for a signal name of 18 characters, and 0 for names that fit. -/
theorem readIda3Plugin_copies_overflow :
    idaOutcome (readIda3Plugin sampleIda (sampleSource 0 "abcdefghi") "ip".toList)
      = Except.error (IdaFault.overflow "ida_file") ∧
    idaOutcome (readIda3Plugin sampleIda (sampleSource (-1) "abcdefghijklmnopqrst")
        "ip".toList)
      = Except.error (IdaFault.overflow "ida_file") ∧
    idaOutcome (readIda3Plugin sampleIda (sampleSource 12345 "abcdefghijklmnopqrst")
        "ip".toList)
      = Except.error (IdaFault.overflow "ida_file") ∧
    idaOutcome (readIda3Plugin sampleIda (sampleSource 0 "x.ida") "abcdefghijklmnopq".toList)
      = Except.error (IdaFault.overflow "ida_signal") ∧
    idaOutcome (readIda3Plugin sampleIda (sampleSource 0 "abcdefghij") "ip".toList)
      = Except.ok IDA_CLIENT_FILE_NAME_TOO_LONG ∧
    idaOutcome (readIda3Plugin sampleIda (sampleSource 0 "x.ida") "abcdefghijklmnopqr".toList)
      = Except.ok IDA_CLIENT_SIGNAL_NAME_TOO_LONG ∧
    idaOutcome (readIda3Plugin sampleIda (sampleSource 0 "x.ida") "ip".toList)
      = Except.ok 0 ∧
    idaOutcome (readIda3Plugin sampleIda (sampleSource 12345 "x.ida") "ip".toList)
      = Except.ok 0 := by
  refine ⟨?_, ?_, ?_, ?_, ?_, ?_, ?_, ?_⟩ <;> rfl

end UDA
